import Mathlib

/-!
# LibVMI: ARMv7 short-descriptor walker, Windows KDBG support, initialisation

A shallow embedding of `libvmi/arch/arm.c`, of `libvmi/os/windows/kdbg.c`
(symbol lookup, version detection, the four strategies that locate the
debugger block, and `init_kdbg`), of the initialisation functions of
`libvmi/core.c` and of the symbol-map lookup of
`libvmi/os/windows/symbols.c`, together with the packed layout of
`KDDEBUGGER_DATA64` from `libvmi/libvmi_extra.h`.

Conventions.
* C unsigned integers are natural numbers; every place where the C code
  narrows a value (a `uint32_t` parameter, a 64-bit sum or difference) carries
  an explicit reduction modulo the width.
* Guest memory, VCPU registers and address translation are not part of the
  program: the primitives of the instance (`vmi_read_32_pa`, `vmi_read_pa`,
  `driver_get_vcpureg`, `vmi_pagetable_lookup`, …) are fields of
  `vmi_instance`, returning `none` when the C function returns `VMI_FAILURE`.
* An out-parameter `T *p` is modelled by passing the value before the call and
  returning the value after the call.
* A loop whose counter is an `addr_t` that may wrap around carries a bound
  `fuel` on the number of condition tests and yields `none` when the bound is
  reached; so does a loop over memory that has no bound in the source.
* A `NULL` pointer is `none`.  Where the source runs into undefined behaviour
  (`strlen` or `strdup` of `NULL`), the result is `none`.
-/

namespace LibVMI

/-! ## Machine integers -/

/-- Conversion to `uint32_t`. -/
def to_u32 (x : Nat) : Nat := x % 4294967296

/-- Conversion to `uint64_t` (`addr_t`, `unsigned long` on LP64). -/
def to_u64 (x : Nat) : Nat := x % 18446744073709551616

/-- Result codes of `status_t`. -/
inductive status_t where
  | VMI_SUCCESS
  | VMI_FAILURE
deriving DecidableEq, Repr

export status_t (VMI_SUCCESS VMI_FAILURE)

/-! ## Declarations of `libvmi.h` used by the walker -/

/-- Modelled from the spec: the page-size constant `VMI_PS_1KB` is declared in
`libvmi.h`, which is not part of the sources at hand; 1 KiB. -/
def VMI_PS_1KB : Nat := 0x400

/-- Modelled from the spec: `VMI_PS_4KB` of `libvmi.h`; 4 KiB. -/
def VMI_PS_4KB : Nat := 0x1000

/-- Modelled from the spec: `VMI_PS_64KB` of `libvmi.h`; 64 KiB. -/
def VMI_PS_64KB : Nat := 0x10000

/-- Modelled from the spec: `VMI_PS_1MB` of `libvmi.h`; 1 MiB. -/
def VMI_PS_1MB : Nat := 0x100000

/-- Modelled from the spec: `VMI_PS_16MB` of `libvmi.h`; 16 MiB. -/
def VMI_PS_16MB : Nat := 0x1000000

/-- Modelled from the spec: the macro `VMI_GET_BIT(reg, bit)` of `libvmi.h`
yields the value (0 or 1) of bit `bit` of `reg`. -/
def VMI_GET_BIT (reg bit : Nat) : Nat :=
  if reg &&& (1 <<< bit) = 0 then 0 else 1

/-- Modelled from the spec: `page_info_t` of `libvmi.h`, the output of a walk:
`vaddr, dtb, paddr, size` and the intermediate descriptor addresses and values
`l1_a, l1_v, …, l4_a, l4_v`. -/
structure page_info where
  vaddr : Nat
  dtb : Nat
  paddr : Nat
  size : Nat
  l1_a : Nat
  l1_v : Nat
  l2_a : Nat
  l2_v : Nat
  l3_a : Nat
  l3_v : Nat
  l4_a : Nat
  l4_v : Nat
deriving DecidableEq, Repr

/-- A zero-initialised `page_info_t` (`page_info_t info = {0}`). -/
def page_info_zero : page_info :=
  { vaddr := 0, dtb := 0, paddr := 0, size := 0,
    l1_a := 0, l1_v := 0, l2_a := 0, l2_v := 0,
    l3_a := 0, l3_v := 0, l4_a := 0, l4_v := 0 }

/-- Modelled from the spec: the Windows OS state (`windows_instance_t`, declared
in a header that is not part of the sources at hand): `ntoskrnl` (PA),
`ntoskrnl_va`, `kdbg_va`, `kdbg_offset`, `kpcr_offset`, the detected `version`
and, if supplied as config, an inlined copy of the debugger block.  The
pointer `kdbg` is `none` for `NULL`; otherwise it gives the host bytes found at
each byte offset from the pointer (offsets 0 … 793 are the copy of
`KDDEBUGGER_DATA64`, larger offsets are whatever follows it in host memory).
`sysmap` is the configured path of the symbol map (`none` for `NULL`). -/
structure windows_instance where
  ntoskrnl : Nat
  ntoskrnl_va : Nat
  kdbg_offset : Nat
  kdbg_va : Nat
  kpcr_offset : Nat
  version : Nat
  kdbg : Option (Nat → Nat)
  sysmap : Option String

/-- Modelled from the spec: the access modes of an instance (`vmi->mode`):
the back-ends Xen, KVM and file.  `vmi->mode` is an integer that `core.c`
copies from the access-mode bits of the init flags; `VMI_MODE_OTHER value`
stands for an integer that is none of the three back-end constants. -/
inductive vmi_mode_t where
  | VMI_XEN
  | VMI_KVM
  | VMI_FILE
  | VMI_MODE_OTHER (value : Nat)
deriving DecidableEq, Repr

/-- Modelled from the spec: the OS kinds of an instance (`vmi->os_type`):
unknown, linux, windows. -/
inductive os_t where
  | VMI_OS_UNKNOWN
  | VMI_OS_LINUX
  | VMI_OS_WINDOWS
deriving DecidableEq, Repr

/-- Modelled from the spec: the config map of an instance, a `GHashTable` with
string keys.  `lookup_string key` is the result of
`g_hash_table_lookup(table, key)` read as a C string (`none` for `NULL`);
`lookup_ulong key` is the `unsigned long` that the value stored under `key`
points to, when `g_hash_table_lookup_extended` finds the key. -/
structure vmi_config where
  lookup_string : String → Option String
  lookup_ulong : String → Option Nat

/-- The functions that the slot `v2p` of a `struct arch_interface` can point
to: `v2p_arm` of `arch/arm.c`, or the walker number `id` of another
translation unit. -/
inductive v2p_fn where
  | v2p_arm
  | other_walker (id : Nat)
deriving DecidableEq, Repr

/-- The functions that the slot `get_va_pages` of a `struct arch_interface`
can point to: `get_va_pages_arm` of `arch/arm.c`, or the enumerator number
`id` of another translation unit. -/
inductive get_va_pages_fn where
  | get_va_pages_arm
  | other_enumerator (id : Nat)
deriving DecidableEq, Repr

/-- Modelled from the spec: the arch-specific walker vtable
(`struct arch_interface`, declared in a header that is not part of the sources
at hand), with the two slots that `arm_init` assigns; `none` is a `NULL`
function pointer. -/
structure arch_interface where
  v2p : Option v2p_fn
  get_va_pages : Option get_va_pages_fn
deriving DecidableEq, Repr

/-- Modelled from the spec: the page modes (`vmi->page_mode`): unknown, legacy
32-bit, PAE, IA-32e and 32-bit ARM. -/
inductive page_mode_t where
  | VMI_PM_UNKNOWN
  | VMI_PM_LEGACY
  | VMI_PM_PAE
  | VMI_PM_IA32E
  | VMI_PM_AARCH32
deriving DecidableEq, Repr

/-- Modelled from the spec: the VCPU registers that `kdbg.c` reads. -/
inductive registers_t where
  | CR3
  | GS_BASE
  | FS_BASE
deriving DecidableEq, Repr

/-- Source `va_page_t` of `libvmi_extra.h`: a virtual address and a page
size. -/
structure va_page where
  va : Nat
  size : Nat
deriving DecidableEq, Repr

/-- Modelled from the spec: the part of `vmi_instance_t` (declared in
`private.h`) that the functions below use: the OS-specific state block
(`none` for `os_data == NULL`), the access mode, the page mode, the memory
size, the members that `core.c` and `arm_init` assign (`flags`, `init_mode`,
`config_mode`, the config map, `os_type`, `image_type`,
`image_type_complete`, `page_shift`, `page_size`, `arch_interface`; `none` is
`NULL`), and the primitives that are implemented outside these sources.  For a
primitive with a status, `none` stands for `VMI_FAILURE`; a failed read leaves
its output argument untouched.
* `vmi_read_64_va` takes the virtual address and the pid;
* `driver_get_vcpureg` takes the register and the VCPU number;
* `vmi_pagetable_lookup` takes the dtb and the virtual address;
* `vmi_read_pa paddr count` gives the number of bytes read (the value the C
  function returns) and the contents of the buffer after the call, as the
  byte found at each index;
* `vmi_read_addr_pa` reads an address-sized value;
* `vmi_get_va_pages` takes the dtb;
* `get_ntoskrnl_base` takes the physical address at which its scan starts;
* `boyer_moore2 pattern haystack len` is the signature search over the first
  `len` bytes of a buffer: the offset of a match, or -1;
* `faster_data_section page_paddr` stands for the PE-header steps of
  `find_kdbg_address_faster` on one page (`peparse_get_image_phys`,
  `peparse_assign_headers`, `peparse_get_idd_rva`, the export-name test
  against `ntoskrnl.exe` and the search for the first `.data` section): when
  all of them pass it gives `section.virtual_address`, the contents of
  `haystack` and `section.size_of_raw_data`, otherwise `none`. -/
structure vmi_instance where
  os_data : Option windows_instance
  vmi_read_16_pa : Nat → Option Nat
  vmi_read_32_pa : Nat → Option Nat
  vmi_read_64_va : Nat → Nat → Option Nat
  mode : vmi_mode_t
  page_mode : page_mode_t
  size : Nat
  driver_get_vcpureg : registers_t → Nat → Option Nat
  vmi_pagetable_lookup : Nat → Nat → Nat
  vmi_translate_kv2p : Nat → Nat
  vmi_read_pa : Nat → Nat → Nat × (Nat → Nat)
  vmi_read_addr_pa : Nat → Option Nat
  vmi_get_va_pages : Nat → List va_page
  get_ntoskrnl_base : Nat → Nat
  boyer_moore2 : List Nat → (Nat → Nat) → Nat → Int
  faster_data_section : Nat → Option (Nat × (Nat → Nat) × Nat)
  flags : Nat
  init_mode : Nat
  config_mode : Nat
  config : Option vmi_config
  os_type : os_t
  image_type : Option String
  image_type_complete : Option String
  page_shift : Nat
  page_size : Nat
  arch_interface : Option arch_interface

/-! ## `arch/arm.c` -/

/-- Source `get_bits_31to10`: `value & 0xFFFFFC00UL` on a `uint32_t` argument. -/
def get_bits_31to10 (value : Nat) : Nat := to_u32 value &&& 0xFFFFFC00

/-- Source `get_bits_31to12`. -/
def get_bits_31to12 (value : Nat) : Nat := to_u32 value &&& 0xFFFFF000

/-- Source `get_bits_31to14`; the mask in the source is `0xFFFFE000`. -/
def get_bits_31to14 (value : Nat) : Nat := to_u32 value &&& 0xFFFFE000

/-- Source `get_bits_31to16`. -/
def get_bits_31to16 (value : Nat) : Nat := to_u32 value &&& 0xFFFF0000

/-- Source `get_bits_31to20`. -/
def get_bits_31to20 (value : Nat) : Nat := to_u32 value &&& 0xFFF00000

/-- Source `get_bits_31to24`. -/
def get_bits_31to24 (value : Nat) : Nat := to_u32 value &&& 0xFF000000

/-- Source `get_bits_7to0`. -/
def get_bits_7to0 (value : Nat) : Nat := to_u32 value &&& 0x000000FF

/-- Source `get_bits_9to0`. -/
def get_bits_9to0 (value : Nat) : Nat := to_u32 value &&& 0x000003FF

/-- Source `get_bits_11to0`. -/
def get_bits_11to0 (value : Nat) : Nat := to_u32 value &&& 0x00000FFF

/-- Source `get_bits_15to0`. -/
def get_bits_15to0 (value : Nat) : Nat := to_u32 value &&& 0x0000FFFF

/-- Source `get_bits_19to0`. -/
def get_bits_19to0 (value : Nat) : Nat := to_u32 value &&& 0x000FFFFF

/-- Source `get_bits_23to0`. -/
def get_bits_23to0 (value : Nat) : Nat := to_u32 value &&& 0x00FFFFFF

/-- Source `first_level_table_index`: `vaddr >> 20` on a `uint32_t`. -/
def first_level_table_index (vaddr : Nat) : Nat := to_u32 vaddr >>> 20

/-- Source `coarse_second_level_table_index`. -/
def coarse_second_level_table_index (vaddr : Nat) : Nat :=
  get_bits_7to0 (to_u32 vaddr >>> 12)

/-- Source `fine_second_level_table_index`. -/
def fine_second_level_table_index (vaddr : Nat) : Nat :=
  get_bits_9to0 (to_u32 vaddr >>> 10)

/-- Source `get_first_level_descriptor`: `l1_a` is always written, `l1_v` only
when the read succeeds. -/
def get_first_level_descriptor (vmi : vmi_instance) (dtb vaddr : Nat)
    (info : page_info) : page_info :=
  let info1 := { info with
    l1_a := get_bits_31to14 dtb ||| to_u32 (first_level_table_index vaddr <<< 2) }
  match vmi.vmi_read_32_pa info1.l1_a with
  | some fld_v => { info1 with l1_v := to_u32 fld_v }
  | none => info1

/-- Source `get_coarse_second_level_descriptor`. -/
def get_coarse_second_level_descriptor (vmi : vmi_instance) (vaddr : Nat)
    (info : page_info) : page_info :=
  let info1 := { info with
    l2_a := get_bits_31to10 info.l1_v |||
      to_u32 (coarse_second_level_table_index vaddr <<< 2) }
  match vmi.vmi_read_32_pa info1.l2_a with
  | some sld_v => { info1 with l2_v := to_u32 sld_v }
  | none => info1

/-- Source `get_fine_second_level_descriptor`. -/
def get_fine_second_level_descriptor (vmi : vmi_instance) (vaddr : Nat)
    (info : page_info) : page_info :=
  let info1 := { info with
    l2_a := get_bits_31to12 info.l1_v ||| fine_second_level_table_index vaddr ||| 3 }
  match vmi.vmi_read_32_pa info1.l2_a with
  | some sld_v => { info1 with l2_v := to_u32 sld_v }
  | none => info1

/-- Inner `switch (info->l2_v & 0b11)` of `case 0b01` in `v2p_arm`. -/
def v2p_arm_coarse_leaf (vaddr : Nat) (info : page_info) : page_info :=
  if info.l2_v &&& 3 = 1 then
    { info with size := VMI_PS_64KB,
                paddr := get_bits_31to16 info.l2_v ||| get_bits_15to0 vaddr }
  else if info.l2_v &&& 3 = 2 ∨ info.l2_v &&& 3 = 3 then
    { info with size := VMI_PS_4KB,
                paddr := get_bits_31to12 info.l2_v ||| get_bits_11to0 vaddr }
  else info

/-- Body of `case 0b10` in `v2p_arm`: `switch (VMI_GET_BIT(info->l1_v, 18))`.
The supersection arm only sets the size; its assignment to `paddr` is
commented out in the source. -/
def v2p_arm_section (vaddr : Nat) (info : page_info) : page_info :=
  if VMI_GET_BIT info.l1_v 18 = 1 then
    { info with size := VMI_PS_16MB }
  else
    { info with size := VMI_PS_1MB,
                paddr := get_bits_31to20 info.l1_v ||| get_bits_19to0 vaddr }

/-- Inner `switch (info->l1_v & 0b11)` of `case 0b11` in `v2p_arm` (the source
switches on `l1_v` here). -/
def v2p_arm_fine_leaf (vaddr : Nat) (info : page_info) : page_info :=
  if info.l1_v &&& 3 = 1 then
    { info with size := VMI_PS_64KB,
                paddr := get_bits_31to16 info.l2_v ||| get_bits_15to0 vaddr }
  else if info.l1_v &&& 3 = 2 then
    { info with size := VMI_PS_4KB,
                paddr := get_bits_31to12 info.l2_v ||| get_bits_11to0 vaddr }
  else if info.l1_v &&& 3 = 3 then
    { info with size := VMI_PS_1KB,
                paddr := get_bits_31to10 info.l2_v ||| get_bits_9to0 vaddr }
  else info

/-- Source `v2p_arm`.  Returns the value returned by the C function
(`info->paddr`) and the final contents of `*info`.  The block of `case 0b01`
has no `break`, so control continues into `case 0b10`; the block of
`case 0b11` continues into `default: break`. -/
def v2p_arm (vmi : vmi_instance) (dtb vaddr : Nat) (info : page_info) :
    Nat × page_info :=
  let info1 := get_first_level_descriptor vmi dtb vaddr info
  let info2 :=
    if info1.l1_v &&& 3 = 1 then
      v2p_arm_section vaddr
        (v2p_arm_coarse_leaf vaddr (get_coarse_second_level_descriptor vmi vaddr info1))
    else if info1.l1_v &&& 3 = 2 then
      v2p_arm_section vaddr info1
    else if info1.l1_v &&& 3 = 3 then
      v2p_arm_fine_leaf vaddr (get_fine_second_level_descriptor vmi vaddr info1)
    else info1
  (info2.paddr, info2)

/-- Source `get_va_pages_arm`: `return NULL`, the empty `GSList`. -/
def get_va_pages_arm (_vmi : vmi_instance) (_dtb : Nat) : List va_page := []

/-- Source `arm_init`: a missing vtable is allocated and zero-filled, then the
two slots are assigned. -/
def arm_init (vmi : vmi_instance) : status_t × vmi_instance :=
  let iface : arch_interface :=
    match vmi.arch_interface with
    | some a => a
    | none => { v2p := none, get_va_pages := none }
  let iface1 := { iface with v2p := some v2p_fn.v2p_arm }
  let iface2 := { iface1 with get_va_pages := some get_va_pages_fn.get_va_pages_arm }
  (VMI_SUCCESS, { vmi with arch_interface := some iface2 })

/-- A call through the slot `v2p` of the vtable, for the walker of these
sources. -/
def call_v2p (f : v2p_fn) (vmi : vmi_instance) (dtb vaddr : Nat) (info : page_info) :
    Option (Nat × page_info) :=
  match f with
  | v2p_fn.v2p_arm => some (v2p_arm vmi dtb vaddr info)
  | v2p_fn.other_walker _ => none

/-- A call through the slot `get_va_pages` of the vtable, for the enumerator of
these sources. -/
def call_get_va_pages (f : get_va_pages_fn) (vmi : vmi_instance) (dtb : Nat) :
    Option (List va_page) :=
  match f with
  | get_va_pages_fn.get_va_pages_arm => some (get_va_pages_arm vmi dtb)
  | get_va_pages_fn.other_enumerator _ => none

/-! ## `libvmi_extra.h`: the packed debugger block -/

/-- Source `KDDEBUGGER_DATA64`: the members in declaration order, each with its
size in bytes (`uint64_t` 8, `uint32_t` 4, `uint16_t` 2, `uint64_t List[2]` 16).
The first three entries are the members of the nested `Header`. -/
def KDDEBUGGER_DATA64 : List (String × Nat) := [
  ("List", 16), ("OwnerTag", 4), ("Size", 4), ("KernBase", 8), ("BreakpointWithStatus", 8),
  ("SavedContext", 8), ("ThCallbackStack", 2), ("NextCallback", 2), ("FramePointer", 2),
  ("PaeEnabled", 2), ("KiCallUserMode", 8), ("KeUserCallbackDispatcher", 8),
  ("PsLoadedModuleList", 8), ("PsActiveProcessHead", 8), ("PspCidTable", 8),
  ("ExpSystemResourcesList", 8), ("ExpPagedPoolDescriptor", 8), ("ExpNumberOfPagedPools", 8),
  ("KeTimeIncrement", 8), ("KeBugCheckCallbackListHead", 8), ("KiBugcheckData", 8),
  ("IopErrorLogListHead", 8), ("ObpRootDirectoryObject", 8), ("ObpTypeObjectType", 8),
  ("MmSystemCacheStart", 8), ("MmSystemCacheEnd", 8), ("MmSystemCacheWs", 8),
  ("MmPfnDatabase", 8), ("MmSystemPtesStart", 8), ("MmSystemPtesEnd", 8),
  ("MmSubsectionBase", 8), ("MmNumberOfPagingFiles", 8), ("MmLowestPhysicalPage", 8),
  ("MmHighestPhysicalPage", 8), ("MmNumberOfPhysicalPages", 8),
  ("MmMaximumNonPagedPoolInBytes", 8), ("MmNonPagedSystemStart", 8),
  ("MmNonPagedPoolStart", 8), ("MmNonPagedPoolEnd", 8), ("MmPagedPoolStart", 8),
  ("MmPagedPoolEnd", 8), ("MmPagedPoolInformation", 8), ("MmPageSize", 8),
  ("MmSizeOfPagedPoolInBytes", 8), ("MmTotalCommitLimit", 8), ("MmTotalCommittedPages", 8),
  ("MmSharedCommit", 8), ("MmDriverCommit", 8), ("MmProcessCommit", 8),
  ("MmPagedPoolCommit", 8), ("MmExtendedCommit", 8), ("MmZeroedPageListHead", 8),
  ("MmFreePageListHead", 8), ("MmStandbyPageListHead", 8), ("MmModifiedPageListHead", 8),
  ("MmModifiedNoWritePageListHead", 8), ("MmAvailablePages", 8),
  ("MmResidentAvailablePages", 8), ("PoolTrackTable", 8), ("NonPagedPoolDescriptor", 8),
  ("MmHighestUserAddress", 8), ("MmSystemRangeStart", 8), ("MmUserProbeAddress", 8),
  ("KdPrintCircularBuffer", 8), ("KdPrintCircularBufferEnd", 8), ("KdPrintWritePointer", 8),
  ("KdPrintRolloverCount", 8), ("MmLoadedUserImageList", 8), ("NtBuildLab", 8),
  ("KiNormalSystemCall", 8), ("KiProcessorBlock", 8), ("MmUnloadedDrivers", 8),
  ("MmLastUnloadedDriver", 8), ("MmTriageActionTaken", 8), ("MmSpecialPoolTag", 8),
  ("KernelVerifier", 8), ("MmVerifierData", 8), ("MmAllocatedNonPagedPool", 8),
  ("MmPeakCommitment", 8), ("MmTotalCommitLimitMaximum", 8), ("CmNtCSDVersion", 8),
  ("MmPhysicalMemoryBlock", 8), ("MmSessionBase", 8), ("MmSessionSize", 8),
  ("MmSystemParentTablePage", 8), ("MmVirtualTranslationBase", 8),
  ("OffsetKThreadNextProcessor", 2), ("OffsetKThreadTeb", 2), ("OffsetKThreadKernelStack", 2),
  ("OffsetKThreadInitialStack", 2), ("OffsetKThreadApcProcess", 2), ("OffsetKThreadState", 2),
  ("OffsetKThreadBStore", 2), ("OffsetKThreadBStoreLimit", 2), ("SizeEProcess", 2),
  ("OffsetEprocessPeb", 2), ("OffsetEprocessParentCID", 2),
  ("OffsetEprocessDirectoryTableBase", 2), ("SizePrcb", 2), ("OffsetPrcbDpcRoutine", 2),
  ("OffsetPrcbCurrentThread", 2), ("OffsetPrcbMhz", 2), ("OffsetPrcbCpuType", 2),
  ("OffsetPrcbVendorString", 2), ("OffsetPrcbProcStateContext", 2), ("OffsetPrcbNumber", 2),
  ("SizeEThread", 2), ("KdPrintCircularBufferPtr", 8), ("KdPrintBufferSize", 8),
  ("KeLoaderBlock", 8), ("SizePcr", 2), ("OffsetPcrSelfPcr", 2), ("OffsetPcrCurrentPrcb", 2),
  ("OffsetPcrContainedPrcb", 2), ("OffsetPcrInitialBStore", 2), ("OffsetPcrBStoreLimit", 2),
  ("OffsetPcrInitialStack", 2), ("OffsetPcrStackLimit", 2), ("OffsetPrcbPcrPage", 2),
  ("OffsetPrcbProcStateSpecialReg", 2), ("GdtR0Code", 2), ("GdtR0Data", 2), ("GdtR0Pcr", 2),
  ("GdtR3Code", 2), ("GdtR3Data", 2), ("GdtR3Teb", 2), ("GdtLdt", 2), ("GdtTss", 2),
  ("Gdt64R3CmCode", 2), ("Gdt64R3CmTeb", 2), ("IopNumTriageDumpDataBlocks", 8),
  ("IopTriageDumpDataBlocks", 8), ("VfCrashDataBlock", 8)]

/-- Offset of member `field` in a `__packed__` struct whose remaining members
are `members`, the first of them lying at offset `acc`: members are laid out
back to back.  A name that is not a member gets 0. -/
def offsetof_from : List (String × Nat) → String → Nat → Nat
  | [], _, _ => 0
  | (name, size) :: rest, field, acc =>
    if name = field then acc else offsetof_from rest field (acc + size)

/-- The byte distance `(unsigned long)(&(d.field)) - (unsigned long)(&d)` for
`KDDEBUGGER_DATA64 d`. -/
def offsetof (field : String) : Nat := offsetof_from KDDEBUGGER_DATA64 field 0

/-- The value of `sizeof(KDDEBUGGER_DATA64)`. -/
def sizeof_KDDEBUGGER_DATA64 : Nat := (KDDEBUGGER_DATA64.map Prod.snd).sum

/-- The spec's wording of a packed offset: the sum of the sizes of all members
declared before `field`, with no padding. -/
def packed_offset_spec (field : String) : Nat :=
  ((KDDEBUGGER_DATA64.takeWhile (fun m => m.1 ≠ field)).map Prod.snd).sum

/-! ## C strings -/

/-- A `String` stands for the NUL-terminated C string with these characters
before the terminator; it is a C string when it holds no NUL itself. -/
def c_string (s : String) : Prop := ∀ c ∈ s.data, c.toNat ≠ 0

instance (s : String) : Decidable (c_string s) := by
  unfold c_string; infer_instance

/-- C library `strncmp` on the characters before the terminators: compares at
most `n` characters, the terminator included; the result is the difference of
the first two characters that differ. -/
def strncmp_chars : List Char → List Char → Nat → Int
  | _, _, 0 => 0
  | [], [], _ + 1 => 0
  | [], c2 :: _, _ + 1 => 0 - (c2.toNat : Int)
  | c1 :: _, [], _ + 1 => (c1.toNat : Int)
  | c1 :: r1, c2 :: r2, n + 1 =>
    if c1 = c2 then strncmp_chars r1 r2 n else (c1.toNat : Int) - (c2.toNat : Int)

/-- C library `strncmp(s1, s2, n)`. -/
def strncmp (s1 s2 : String) (n : Nat) : Int := strncmp_chars s1.data s2.data n

/-! ## `os/windows/kdbg.c`: symbol lookup -/

/-- Source local `max_symbol_length` of `kdbg_symbol_offset`. -/
def max_symbol_length : Nat := 50

/-- Source `kdbg_symbol_offset`: the chain of `strncmp` tests in source order.
Returns the status and the value of `*offset` after the call. -/
def kdbg_symbol_offset (_vmi : vmi_instance) (symbol : String) (offset : Nat) :
    status_t × Nat :=
  if strncmp symbol "KernBase" max_symbol_length = 0 then
    (VMI_SUCCESS, offsetof "KernBase")
  else if strncmp symbol "BreakpointWithStatus" max_symbol_length = 0 then
    (VMI_SUCCESS, offsetof "BreakpointWithStatus")
  else if strncmp symbol "SavedContext" max_symbol_length = 0 then
    (VMI_SUCCESS, offsetof "SavedContext")
  else if strncmp symbol "KiCallUserMode" max_symbol_length = 0 then
    (VMI_SUCCESS, offsetof "KiCallUserMode")
  else if strncmp symbol "KeUserCallbackDispatcher" max_symbol_length = 0 then
    (VMI_SUCCESS, offsetof "KeUserCallbackDispatcher")
  else if strncmp symbol "PsLoadedModuleList" max_symbol_length = 0 then
    (VMI_SUCCESS, offsetof "PsLoadedModuleList")
  else if strncmp symbol "PsActiveProcessHead" max_symbol_length = 0 then
    (VMI_SUCCESS, offsetof "PsActiveProcessHead")
  else if strncmp symbol "PspCidTable" max_symbol_length = 0 then
    (VMI_SUCCESS, offsetof "PspCidTable")
  else if strncmp symbol "ExpSystemResourcesList" max_symbol_length = 0 then
    (VMI_SUCCESS, offsetof "ExpSystemResourcesList")
  else if strncmp symbol "ExpPagedPoolDescriptor" max_symbol_length = 0 then
    (VMI_SUCCESS, offsetof "ExpPagedPoolDescriptor")
  else if strncmp symbol "ExpNumberOfPagedPools" max_symbol_length = 0 then
    (VMI_SUCCESS, offsetof "ExpNumberOfPagedPools")
  else if strncmp symbol "KeTimeIncrement" max_symbol_length = 0 then
    (VMI_SUCCESS, offsetof "KeTimeIncrement")
  else if strncmp symbol "KeBugCheckCallbackListHead" max_symbol_length = 0 then
    (VMI_SUCCESS, offsetof "KeBugCheckCallbackListHead")
  else if strncmp symbol "KiBugcheckData" max_symbol_length = 0 then
    (VMI_SUCCESS, offsetof "KiBugcheckData")
  else if strncmp symbol "IopErrorLogListHead" max_symbol_length = 0 then
    (VMI_SUCCESS, offsetof "IopErrorLogListHead")
  else if strncmp symbol "ObpRootDirectoryObject" max_symbol_length = 0 then
    (VMI_SUCCESS, offsetof "ObpRootDirectoryObject")
  else if strncmp symbol "ObpTypeObjectType" max_symbol_length = 0 then
    (VMI_SUCCESS, offsetof "ObpTypeObjectType")
  else if strncmp symbol "MmSystemCacheStart" max_symbol_length = 0 then
    (VMI_SUCCESS, offsetof "MmSystemCacheStart")
  else if strncmp symbol "MmSystemCacheEnd" max_symbol_length = 0 then
    (VMI_SUCCESS, offsetof "MmSystemCacheEnd")
  else if strncmp symbol "MmSystemCacheWs" max_symbol_length = 0 then
    (VMI_SUCCESS, offsetof "MmSystemCacheWs")
  else if strncmp symbol "MmPfnDatabase" max_symbol_length = 0 then
    (VMI_SUCCESS, offsetof "MmPfnDatabase")
  else if strncmp symbol "MmSystemPtesStart" max_symbol_length = 0 then
    (VMI_SUCCESS, offsetof "MmSystemPtesStart")
  else if strncmp symbol "MmSystemPtesEnd" max_symbol_length = 0 then
    (VMI_SUCCESS, offsetof "MmSystemPtesEnd")
  else if strncmp symbol "MmSubsectionBase" max_symbol_length = 0 then
    (VMI_SUCCESS, offsetof "MmSubsectionBase")
  else if strncmp symbol "MmNumberOfPagingFiles" max_symbol_length = 0 then
    (VMI_SUCCESS, offsetof "MmNumberOfPagingFiles")
  else if strncmp symbol "MmLowestPhysicalPage" max_symbol_length = 0 then
    (VMI_SUCCESS, offsetof "MmLowestPhysicalPage")
  else if strncmp symbol "MmHighestPhysicalPage" max_symbol_length = 0 then
    (VMI_SUCCESS, offsetof "MmHighestPhysicalPage")
  else if strncmp symbol "MmNumberOfPhysicalPages" max_symbol_length = 0 then
    (VMI_SUCCESS, offsetof "MmNumberOfPhysicalPages")
  else if strncmp symbol "MmMaximumNonPagedPoolInBytes" max_symbol_length = 0 then
    (VMI_SUCCESS, offsetof "MmMaximumNonPagedPoolInBytes")
  else if strncmp symbol "MmNonPagedSystemStart" max_symbol_length = 0 then
    (VMI_SUCCESS, offsetof "MmNonPagedSystemStart")
  else if strncmp symbol "MmNonPagedPoolStart" max_symbol_length = 0 then
    (VMI_SUCCESS, offsetof "MmNonPagedPoolStart")
  else if strncmp symbol "MmNonPagedPoolEnd" max_symbol_length = 0 then
    (VMI_SUCCESS, offsetof "MmNonPagedPoolEnd")
  else if strncmp symbol "MmPagedPoolStart" max_symbol_length = 0 then
    (VMI_SUCCESS, offsetof "MmPagedPoolStart")
  else if strncmp symbol "MmPagedPoolEnd" max_symbol_length = 0 then
    (VMI_SUCCESS, offsetof "MmPagedPoolEnd")
  else if strncmp symbol "MmPagedPoolInformation" max_symbol_length = 0 then
    (VMI_SUCCESS, offsetof "MmPagedPoolInformation")
  else if strncmp symbol "MmPageSize" max_symbol_length = 0 then
    (VMI_SUCCESS, offsetof "MmPageSize")
  else if strncmp symbol "MmSizeOfPagedPoolInBytes" max_symbol_length = 0 then
    (VMI_SUCCESS, offsetof "MmSizeOfPagedPoolInBytes")
  else if strncmp symbol "MmTotalCommitLimit" max_symbol_length = 0 then
    (VMI_SUCCESS, offsetof "MmTotalCommitLimit")
  else if strncmp symbol "MmTotalCommittedPages" max_symbol_length = 0 then
    (VMI_SUCCESS, offsetof "MmTotalCommittedPages")
  else if strncmp symbol "MmSharedCommit" max_symbol_length = 0 then
    (VMI_SUCCESS, offsetof "MmSharedCommit")
  else if strncmp symbol "MmDriverCommit" max_symbol_length = 0 then
    (VMI_SUCCESS, offsetof "MmDriverCommit")
  else if strncmp symbol "MmProcessCommit" max_symbol_length = 0 then
    (VMI_SUCCESS, offsetof "MmProcessCommit")
  else if strncmp symbol "MmPagedPoolCommit" max_symbol_length = 0 then
    (VMI_SUCCESS, offsetof "MmPagedPoolCommit")
  else if strncmp symbol "MmExtendedCommit" max_symbol_length = 0 then
    (VMI_SUCCESS, offsetof "MmExtendedCommit")
  else if strncmp symbol "MmZeroedPageListHead" max_symbol_length = 0 then
    (VMI_SUCCESS, offsetof "MmZeroedPageListHead")
  else if strncmp symbol "MmFreePageListHead" max_symbol_length = 0 then
    (VMI_SUCCESS, offsetof "MmFreePageListHead")
  else if strncmp symbol "MmStandbyPageListHead" max_symbol_length = 0 then
    (VMI_SUCCESS, offsetof "MmStandbyPageListHead")
  else if strncmp symbol "MmModifiedPageListHead" max_symbol_length = 0 then
    (VMI_SUCCESS, offsetof "MmModifiedPageListHead")
  else if strncmp symbol "MmModifiedNoWritePageListHead" max_symbol_length = 0 then
    (VMI_SUCCESS, offsetof "MmModifiedNoWritePageListHead")
  else if strncmp symbol "MmAvailablePages" max_symbol_length = 0 then
    (VMI_SUCCESS, offsetof "MmAvailablePages")
  else if strncmp symbol "MmResidentAvailablePages" max_symbol_length = 0 then
    (VMI_SUCCESS, offsetof "MmResidentAvailablePages")
  else if strncmp symbol "PoolTrackTable" max_symbol_length = 0 then
    (VMI_SUCCESS, offsetof "PoolTrackTable")
  else if strncmp symbol "NonPagedPoolDescriptor" max_symbol_length = 0 then
    (VMI_SUCCESS, offsetof "NonPagedPoolDescriptor")
  else if strncmp symbol "MmHighestUserAddress" max_symbol_length = 0 then
    (VMI_SUCCESS, offsetof "MmHighestUserAddress")
  else if strncmp symbol "MmSystemRangeStart" max_symbol_length = 0 then
    (VMI_SUCCESS, offsetof "MmSystemRangeStart")
  else if strncmp symbol "MmUserProbeAddress" max_symbol_length = 0 then
    (VMI_SUCCESS, offsetof "MmUserProbeAddress")
  else if strncmp symbol "KdPrintCircularBuffer" max_symbol_length = 0 then
    (VMI_SUCCESS, offsetof "KdPrintCircularBuffer")
  else if strncmp symbol "KdPrintCircularBufferEnd" max_symbol_length = 0 then
    (VMI_SUCCESS, offsetof "KdPrintCircularBufferEnd")
  else if strncmp symbol "KdPrintWritePointer" max_symbol_length = 0 then
    (VMI_SUCCESS, offsetof "KdPrintWritePointer")
  else if strncmp symbol "KdPrintRolloverCount" max_symbol_length = 0 then
    (VMI_SUCCESS, offsetof "KdPrintRolloverCount")
  else if strncmp symbol "MmLoadedUserImageList" max_symbol_length = 0 then
    (VMI_SUCCESS, offsetof "MmLoadedUserImageList")
  else if strncmp symbol "NtBuildLab" max_symbol_length = 0 then
    (VMI_SUCCESS, offsetof "NtBuildLab")
  else if strncmp symbol "KiNormalSystemCall" max_symbol_length = 0 then
    (VMI_SUCCESS, offsetof "KiNormalSystemCall")
  else if strncmp symbol "KiProcessorBlock" max_symbol_length = 0 then
    (VMI_SUCCESS, offsetof "KiProcessorBlock")
  else if strncmp symbol "MmUnloadedDrivers" max_symbol_length = 0 then
    (VMI_SUCCESS, offsetof "MmUnloadedDrivers")
  else if strncmp symbol "MmLastUnloadedDriver" max_symbol_length = 0 then
    (VMI_SUCCESS, offsetof "MmLastUnloadedDriver")
  else if strncmp symbol "MmTriageActionTaken" max_symbol_length = 0 then
    (VMI_SUCCESS, offsetof "MmTriageActionTaken")
  else if strncmp symbol "MmSpecialPoolTag" max_symbol_length = 0 then
    (VMI_SUCCESS, offsetof "MmSpecialPoolTag")
  else if strncmp symbol "KernelVerifier" max_symbol_length = 0 then
    (VMI_SUCCESS, offsetof "KernelVerifier")
  else if strncmp symbol "MmVerifierData" max_symbol_length = 0 then
    (VMI_SUCCESS, offsetof "MmVerifierData")
  else if strncmp symbol "MmAllocatedNonPagedPool" max_symbol_length = 0 then
    (VMI_SUCCESS, offsetof "MmAllocatedNonPagedPool")
  else if strncmp symbol "MmPeakCommitment" max_symbol_length = 0 then
    (VMI_SUCCESS, offsetof "MmPeakCommitment")
  else if strncmp symbol "MmTotalCommitLimitMaximum" max_symbol_length = 0 then
    (VMI_SUCCESS, offsetof "MmTotalCommitLimitMaximum")
  else if strncmp symbol "CmNtCSDVersion" max_symbol_length = 0 then
    (VMI_SUCCESS, offsetof "CmNtCSDVersion")
  else if strncmp symbol "MmPhysicalMemoryBlock" max_symbol_length = 0 then
    (VMI_SUCCESS, offsetof "MmPhysicalMemoryBlock")
  else if strncmp symbol "MmSessionBase" max_symbol_length = 0 then
    (VMI_SUCCESS, offsetof "MmSessionBase")
  else if strncmp symbol "MmSessionSize" max_symbol_length = 0 then
    (VMI_SUCCESS, offsetof "MmSessionSize")
  else if strncmp symbol "MmSystemParentTablePage" max_symbol_length = 0 then
    (VMI_SUCCESS, offsetof "MmSystemParentTablePage")
  else if strncmp symbol "MmVirtualTranslationBase" max_symbol_length = 0 then
    (VMI_SUCCESS, offsetof "MmVirtualTranslationBase")
  else if strncmp symbol "KdPrintCircularBufferPtr" max_symbol_length = 0 then
    (VMI_SUCCESS, offsetof "KdPrintCircularBufferPtr")
  else if strncmp symbol "KdPrintBufferSize" max_symbol_length = 0 then
    (VMI_SUCCESS, offsetof "KdPrintBufferSize")
  else if strncmp symbol "KeLoaderBlock" max_symbol_length = 0 then
    (VMI_SUCCESS, offsetof "KeLoaderBlock")
  else if strncmp symbol "IopNumTriageDumpDataBlocks" max_symbol_length = 0 then
    (VMI_SUCCESS, offsetof "IopNumTriageDumpDataBlocks")
  else if strncmp symbol "IopTriageDumpDataBlocks" max_symbol_length = 0 then
    (VMI_SUCCESS, offsetof "IopTriageDumpDataBlocks")
  else if strncmp symbol "VfCrashDataBlock" max_symbol_length = 0 then
    (VMI_SUCCESS, offsetof "VfCrashDataBlock")
  else (VMI_FAILURE, offset)

/-- The string literals tested by `kdbg_symbol_offset`, in source order. -/
def kdbg_field_names : List String := [
  "KernBase", "BreakpointWithStatus", "SavedContext", "KiCallUserMode",
  "KeUserCallbackDispatcher", "PsLoadedModuleList", "PsActiveProcessHead", "PspCidTable",
  "ExpSystemResourcesList", "ExpPagedPoolDescriptor", "ExpNumberOfPagedPools",
  "KeTimeIncrement", "KeBugCheckCallbackListHead", "KiBugcheckData", "IopErrorLogListHead",
  "ObpRootDirectoryObject", "ObpTypeObjectType", "MmSystemCacheStart", "MmSystemCacheEnd",
  "MmSystemCacheWs", "MmPfnDatabase", "MmSystemPtesStart", "MmSystemPtesEnd",
  "MmSubsectionBase", "MmNumberOfPagingFiles", "MmLowestPhysicalPage", "MmHighestPhysicalPage",
  "MmNumberOfPhysicalPages", "MmMaximumNonPagedPoolInBytes", "MmNonPagedSystemStart",
  "MmNonPagedPoolStart", "MmNonPagedPoolEnd", "MmPagedPoolStart", "MmPagedPoolEnd",
  "MmPagedPoolInformation", "MmPageSize", "MmSizeOfPagedPoolInBytes", "MmTotalCommitLimit",
  "MmTotalCommittedPages", "MmSharedCommit", "MmDriverCommit", "MmProcessCommit",
  "MmPagedPoolCommit", "MmExtendedCommit", "MmZeroedPageListHead", "MmFreePageListHead",
  "MmStandbyPageListHead", "MmModifiedPageListHead", "MmModifiedNoWritePageListHead",
  "MmAvailablePages", "MmResidentAvailablePages", "PoolTrackTable", "NonPagedPoolDescriptor",
  "MmHighestUserAddress", "MmSystemRangeStart", "MmUserProbeAddress", "KdPrintCircularBuffer",
  "KdPrintCircularBufferEnd", "KdPrintWritePointer", "KdPrintRolloverCount",
  "MmLoadedUserImageList", "NtBuildLab", "KiNormalSystemCall", "KiProcessorBlock",
  "MmUnloadedDrivers", "MmLastUnloadedDriver", "MmTriageActionTaken", "MmSpecialPoolTag",
  "KernelVerifier", "MmVerifierData", "MmAllocatedNonPagedPool", "MmPeakCommitment",
  "MmTotalCommitLimitMaximum", "CmNtCSDVersion", "MmPhysicalMemoryBlock", "MmSessionBase",
  "MmSessionSize", "MmSystemParentTablePage", "MmVirtualTranslationBase",
  "KdPrintCircularBufferPtr", "KdPrintBufferSize", "KeLoaderBlock",
  "IopNumTriageDumpDataBlocks", "IopTriageDumpDataBlocks", "VfCrashDataBlock"]

/-- The chain of `kdbg_symbol_offset` over an arbitrary list of literals: each
literal is tested in turn and maps to the offset of the member of that name. -/
def kdbg_symbol_chain (symbol : String) (offset : Nat) : List String → status_t × Nat
  | [] => (VMI_FAILURE, offset)
  | lit :: rest =>
    if strncmp symbol lit max_symbol_length = 0 then (VMI_SUCCESS, offsetof lit)
    else kdbg_symbol_chain symbol offset rest

/-- Little-endian load of an `unsigned long` (8 bytes) at byte offset `off` of
the host bytes `mem`. -/
def load_unsigned_long (mem : Nat → Nat) (off : Nat) : Nat :=
  ((List.range 8).map (fun i => (mem (off + i) % 256) <<< (8 * i))).sum

/-- Source `kdbg_symbol_resolve`.  With an inlined copy the source evaluates
`*((unsigned long *)windows->kdbg + offset)`: the cast binds before the
addition, so `offset` counts elements of 8 bytes.  Returns the status and the
value of `*address` after the call. -/
def kdbg_symbol_resolve (vmi : vmi_instance) (offset : Nat) (address : Nat) :
    status_t × Nat :=
  match vmi.os_data with
  | none => (VMI_FAILURE, address)
  | some windows =>
    match windows.kdbg with
    | some kdbg => (VMI_SUCCESS, load_unsigned_long kdbg (8 * offset))
    | none =>
      let symaddr := to_u64 (windows.kdbg_va + offset)
      match vmi.vmi_read_64_va symaddr 0 with
      | none => (VMI_FAILURE, address)
      | some tmp => (VMI_SUCCESS, to_u64 tmp)

/-- Source `windows_kdbg_lookup`. -/
def windows_kdbg_lookup (vmi : vmi_instance) (symbol : String) (address : Nat) :
    status_t × Nat :=
  match kdbg_symbol_offset vmi symbol 0 with
  | (VMI_FAILURE, _) => (VMI_FAILURE, address)
  | (VMI_SUCCESS, offset) =>
    match kdbg_symbol_resolve vmi offset address with
    | (VMI_FAILURE, address1) => (VMI_FAILURE, address1)
    | (VMI_SUCCESS, address1) => (VMI_SUCCESS, address1)

/-- The value of the 8-byte member `field` of an inlined copy of
`KDDEBUGGER_DATA64`: the 8 bytes at its packed offset. -/
def kdbg_field (kdbg : Nat → Nat) (field : String) : Nat :=
  load_unsigned_long kdbg (offsetof field)

/-! ## `os/windows/kdbg.c`: version detection -/

/-- Modelled from the spec: the enumerators of `win_ver_t` that
`find_windows_version` names, and the integer value of the status code
`VMI_FAILURE`.  They are declared in `libvmi.h`, which is not part of the
sources at hand, so their values are parameters. -/
structure win_ver_t where
  VMI_OS_WINDOWS_UNKNOWN : Nat
  VMI_OS_WINDOWS_2000 : Nat
  VMI_OS_WINDOWS_XP : Nat
  VMI_OS_WINDOWS_2003 : Nat
  VMI_OS_WINDOWS_VISTA : Nat
  VMI_OS_WINDOWS_2008 : Nat
  VMI_OS_WINDOWS_7 : Nat
  VMI_OS_WINDOWS_8 : Nat
  VMI_FAILURE_value : Nat

/-- The store `*(uint16_t *)&version = value` on a little-endian host: the low
16 bits of `version` are replaced, the upper bits are kept. -/
def store_uint16 (version value : Nat) : Nat :=
  version / 65536 * 65536 + value % 65536

/-- The `switch (version)` of `find_windows_version`: the seven known magics
are kept. -/
def known_magic (e : win_ver_t) (version : Nat) : Prop :=
  version = e.VMI_OS_WINDOWS_2000 ∨ version = e.VMI_OS_WINDOWS_XP ∨
  version = e.VMI_OS_WINDOWS_2003 ∨ version = e.VMI_OS_WINDOWS_VISTA ∨
  version = e.VMI_OS_WINDOWS_2008 ∨ version = e.VMI_OS_WINDOWS_7 ∨
  version = e.VMI_OS_WINDOWS_8

instance (e : win_ver_t) (version : Nat) : Decidable (known_magic e version) := by
  unfold known_magic; infer_instance

/-- Source `find_windows_version`. -/
def find_windows_version (e : win_ver_t) (vmi : vmi_instance) (kdbg : Nat) : Nat :=
  match vmi.os_data with
  | none => e.VMI_FAILURE_value
  | some windows =>
    if windows.version ≠ 0 ∧ windows.version ≠ e.VMI_OS_WINDOWS_UNKNOWN then
      windows.version
    else
      let version :=
        match vmi.vmi_read_16_pa (to_u64 (kdbg + 0x14)) with
        | some value => store_uint16 e.VMI_OS_WINDOWS_UNKNOWN value
        | none => e.VMI_OS_WINDOWS_UNKNOWN
      if known_magic e version then version else e.VMI_OS_WINDOWS_UNKNOWN

/-! ## `os/windows/kdbg.c`: locating the debugger block -/

/-- Subtraction of two `uint64_t` values, wrapping modulo 2^64. -/
def sub_u64 (a b : Nat) : Nat :=
  (a + 18446744073709551616 - b % 18446744073709551616) % 18446744073709551616

/-- Subtraction of two `uint32_t` values, wrapping modulo 2^32. -/
def sub_u32 (a b : Nat) : Nat :=
  (a + 4294967296 - b % 4294967296) % 4294967296

/-- The cast `(unsigned int) i` of an `int`. -/
def to_unsigned_int (i : Int) : Nat := (i % 4294967296).toNat

/-- Conversion of an `int` to `uint64_t`, as the usual arithmetic conversions
do when an `int` meets an `addr_t`. -/
def int_to_u64 (i : Int) : Nat := (i % 18446744073709551616).toNat

/-- Little-endian load `*(uint64_t *)&buf[idx]` from a byte buffer given by
the byte at each index.  Reading beyond the end of the array is undefined in
C; here it yields whatever the function gives there. -/
def load_uint64 (buf : Nat → Nat) (idx : Nat) : Nat :=
  load_unsigned_long buf idx

/-- The number of zero bits of `x` above its highest set bit, among the low `n`
bits. -/
def clzll_from : Nat → Nat → Nat
  | 0, _ => 0
  | n + 1, x => if x.testBit n then 0 else clzll_from n x + 1

/-- GCC builtin `__builtin_clzll(x)`: the number of leading zero bits of a
non-zero 64-bit value (the builtin is undefined for 0). -/
def clzll (x : Nat) : Nat := clzll_from 64 x

/-- Modelled from the spec: the accessor `vmi_get_memsize` (not part of the
sources at hand) gives the total memory size of the instance. -/
def vmi_get_memsize (vmi : vmi_instance) : Nat := vmi.size

/-- The pattern `"\x00\xf8\xff\xffKDBG"` (8 bytes) of the source. -/
def kdbg_signature_64 : List Nat := [0x00, 0xf8, 0xff, 0xff, 0x4B, 0x44, 0x42, 0x47]

/-- The pattern `"\x00\x00\x00\x00\x00\x00\x00\x00KDBG"` (12 bytes) of the
source. -/
def kdbg_signature_32 : List Nat :=
  [0x00, 0x00, 0x00, 0x00, 0x00, 0x00, 0x00, 0x00, 0x4B, 0x44, 0x42, 0x47]

/-- The pattern `"KDBG"` (4 bytes) of `find_kdbg_address_faster`. -/
def kdbg_tag : List Nat := [0x4B, 0x44, 0x42, 0x47]

/-- The out-parameters `kdbg_pa`, `kernel_pa`, `kernel_va` of the search
strategies. -/
structure kdbg_addresses where
  kdbg_pa : Nat
  kernel_pa : Nat
  kernel_va : Nat
deriving DecidableEq, Repr

/-- The initial values `kernbase_pa = 0, kernbase_va = 0, kdbg_pa = 0` of the
locals of `init_kdbg`. -/
def kdbg_addresses_zero : kdbg_addresses :=
  { kdbg_pa := 0, kernel_pa := 0, kernel_va := 0 }

/-- Body of the `for` loop of `find_kdbg_address` on a fully read page
`haystack` at `paddr`: `none` when neither signature matches, otherwise the
values stored to `*kdbg_pa` and `*kernel_va` before the `break`. -/
def find_kdbg_address_page (vmi : vmi_instance) (paddr : Nat) (haystack : Nat → Nat) :
    Option (Nat × Nat) :=
  let m64 := vmi.boyer_moore2 kdbg_signature_64 haystack VMI_PS_4KB
  let find_ofs : Nat := if m64 ≠ -1 then 0xc else 0
  let match_offset :=
    if m64 ≠ -1 then m64 else vmi.boyer_moore2 kdbg_signature_32 haystack VMI_PS_4KB
  if match_offset ≠ -1 then
    let find_ofs1 : Nat := if find_ofs = 0 then 0x8 else find_ofs
    let kernbase_offset := (kdbg_symbol_offset vmi "KernBase" 0).2
    let kernel_va :=
      load_uint64 haystack
        (to_u64 (sub_u32 (to_unsigned_int match_offset) find_ofs1 + kernbase_offset))
    let kdbg_pa := sub_u64 (to_u64 (paddr + to_unsigned_int match_offset)) find_ofs1
    some (kdbg_pa, kernel_va)
  else none

/-- The `for (; paddr < memsize; paddr += VMI_PS_4KB)` loop of
`find_kdbg_address`, with a bound `fuel` on the number of condition tests
(`none` when the bound is reached).  Returns `ret`, `*kdbg_pa` and
`*kernel_va` at the end of the loop. -/
def find_kdbg_address_loop (vmi : vmi_instance) :
    Nat → Nat → status_t × Nat × Nat → Option (status_t × Nat × Nat)
  | 0, _, _ => none
  | fuel + 1, paddr, (ret, kdbg_pa, kernel_va) =>
    if paddr < vmi_get_memsize vmi then
      let read := vmi.vmi_read_pa paddr VMI_PS_4KB
      if VMI_PS_4KB ≠ read.1 then
        find_kdbg_address_loop vmi fuel (to_u64 (paddr + VMI_PS_4KB)) (ret, kdbg_pa, kernel_va)
      else
        match find_kdbg_address_page vmi paddr read.2 with
        | some (kdbg_pa1, kernel_va1) => some (VMI_SUCCESS, kdbg_pa1, kernel_va1)
        | none =>
          find_kdbg_address_loop vmi fuel (to_u64 (paddr + VMI_PS_4KB))
            (ret, kdbg_pa, kernel_va)
    else some (ret, kdbg_pa, kernel_va)

/-- Source `find_kdbg_address` (the slow strategy).  `*kdbg_pa` is cleared on
entry; after the loop the source assigns `ret = VMI_SUCCESS` unconditionally.
Returns the status, `*kdbg_pa` and `*kernel_va`. -/
def find_kdbg_address (vmi : vmi_instance) (fuel : Nat) (_kdbg_pa kernel_va : Nat) :
    Option (status_t × Nat × Nat) :=
  match find_kdbg_address_loop vmi fuel 0 (VMI_FAILURE, 0, kernel_va) with
  | none => none
  | some (_ret, kdbg_pa1, kernel_va1) => some (VMI_SUCCESS, kdbg_pa1, kernel_va1)

/-- Body of the inner `while` loop of `find_kdbg_address_fast` for the 4 KiB
page at `page_vaddr`: `none` for every `continue` and for a page without
match, otherwise the values stored to the out-parameters. -/
def find_kdbg_address_fast_page (vmi : vmi_instance) (cr3 memsize : Nat)
    (pattern : List Nat) (find_ofs : Nat) (page_vaddr : Nat) : Option kdbg_addresses :=
  let page_paddr := vmi.vmi_pagetable_lookup cr3 page_vaddr
  if to_u64 (page_paddr + VMI_PS_4KB - 1) > memsize then none
  else
    let read := vmi.vmi_read_pa page_paddr VMI_PS_4KB
    if VMI_PS_4KB ≠ read.1 then none
    else
      let match_offset := vmi.boyer_moore2 pattern read.2 VMI_PS_4KB
      if match_offset ≠ -1 then
        match vmi.vmi_read_addr_pa (to_u64 (page_paddr + to_unsigned_int match_offset + 8)) with
        | none => none
        | some k_va =>
          some { kernel_va := to_u64 k_va,
                 kernel_pa := vmi.vmi_pagetable_lookup cr3 (to_u64 k_va),
                 kdbg_pa := sub_u64 (to_u64 (page_paddr + to_unsigned_int match_offset))
                   find_ofs }
      else none

/-- The inner `while (vap && vap->size >= VMI_PS_4KB)` loop of
`find_kdbg_address_fast` on one list element: `n` bounds the number of
iterations (`size / VMI_PS_4KB` suffices, since each iteration takes 4 KiB off
`size`). -/
def find_kdbg_address_fast_vap (vmi : vmi_instance) (cr3 memsize : Nat)
    (pattern : List Nat) (find_ofs : Nat) (va : Nat) : Nat → Nat → Option kdbg_addresses
  | 0, _ => none
  | n + 1, size =>
    if size ≥ VMI_PS_4KB then
      let size1 := size - VMI_PS_4KB
      match find_kdbg_address_fast_page vmi cr3 memsize pattern find_ofs
          (to_u64 (va + size1)) with
      | some found => some found
      | none => find_kdbg_address_fast_vap vmi cr3 memsize pattern find_ofs va n size1
    else none

/-- The outer `while (va_pages_loop)` loop of `find_kdbg_address_fast`. -/
def find_kdbg_address_fast_list (vmi : vmi_instance) (cr3 memsize : Nat)
    (pattern : List Nat) (find_ofs : Nat) : List va_page → Option kdbg_addresses
  | [] => none
  | vap :: rest =>
    match find_kdbg_address_fast_vap vmi cr3 memsize pattern find_ofs vap.va
        (vap.size / VMI_PS_4KB) vap.size with
    | some found => some found
    | none => find_kdbg_address_fast_list vmi cr3 memsize pattern find_ofs rest

/-- Source `find_kdbg_address_fast`. -/
def find_kdbg_address_fast (vmi : vmi_instance) (out : kdbg_addresses) :
    status_t × kdbg_addresses :=
  match vmi.driver_get_vcpureg registers_t.CR3 0 with
  | none => (VMI_FAILURE, out)
  | some cr3 =>
    let memsize := vmi_get_memsize vmi
    let va_pages := vmi.vmi_get_va_pages cr3
    let pattern :=
      if vmi.page_mode = page_mode_t.VMI_PM_IA32E then kdbg_signature_64
      else kdbg_signature_32
    let find_ofs : Nat := if vmi.page_mode = page_mode_t.VMI_PM_IA32E then 0xc else 0x8
    match find_kdbg_address_fast_list vmi cr3 memsize pattern find_ofs va_pages with
    | some found => (VMI_SUCCESS, found)
    | none => (VMI_FAILURE, out)

/-- The test `(*kernbase) << zeroes == page_paddr << zeroes` of
`find_kdbg_address_faster`, with `zeroes = __builtin_clzll(page_paddr)`, on
`uint64_t` operands. -/
def kernbase_matches_page (kernbase page_paddr : Nat) : Prop :=
  to_u64 (kernbase <<< clzll page_paddr) = to_u64 (page_paddr <<< clzll page_paddr)

instance (kernbase page_paddr : Nat) : Decidable (kernbase_matches_page kernbase page_paddr) := by
  unfold kernbase_matches_page; infer_instance

/-- Body of the `for` loop of `find_kdbg_address_faster` on the page at
`page_paddr`: `none` for every `continue`, for a page without `.data` match
and for a block whose `KernBase` does not point back to the page; otherwise
the values stored to the out-parameters before `goto done`. -/
def find_kdbg_address_faster_page (vmi : vmi_instance) (page_paddr : Nat) :
    Option kdbg_addresses :=
  match vmi.faster_data_section page_paddr with
  | none => none
  | some (virtual_address, haystack, size_of_raw_data) =>
    let match_offset := vmi.boyer_moore2 kdbg_tag haystack size_of_raw_data
    if match_offset ≠ -1 then
      let kernbase := load_uint64 haystack (to_unsigned_int match_offset + 8)
      if kernbase_matches_page kernbase page_paddr then
        some { kernel_pa := page_paddr,
               kernel_va := kernbase,
               kdbg_pa := sub_u64
                 (to_u64 (page_paddr + virtual_address + to_unsigned_int match_offset)) 0x10 }
      else none
    else none

/-- The loop `for (; page_paddr + step >= 0 && page_paddr + step < vmi->size;
page_paddr += step)` of `find_kdbg_address_faster`, with a bound `fuel` on the
number of condition tests (`none` when the bound is reached).  `page_paddr` is
an `addr_t`, so `page_paddr + step` is computed modulo 2^64 and the first
comparison always holds.  The result is `some found` after `goto done` and
`some none` when the loop ends. -/
def find_kdbg_address_faster_loop (vmi : vmi_instance) (step : Int) :
    Nat → Nat → Option (Option kdbg_addresses)
  | 0, _ => none
  | fuel + 1, page_paddr =>
    if to_u64 (page_paddr + int_to_u64 step) < vmi.size then
      match find_kdbg_address_faster_page vmi page_paddr with
      | some found => some (some found)
      | none => find_kdbg_address_faster_loop vmi step fuel (to_u64 (page_paddr + int_to_u64 step))
    else some none

/-- Source `find_kdbg_address_faster`.  `fsgs_init` is the indeterminate value
of the uninitialised local `fsgs`, which is used when the page mode is none of
IA-32e, legacy and PAE.  The downward pass (`step = -VMI_PS_4KB`) is followed by
the upward pass from the same start page. -/
def find_kdbg_address_faster (vmi : vmi_instance) (fuel : Nat) (fsgs_init : Nat)
    (out : kdbg_addresses) : Option (status_t × kdbg_addresses) :=
  if vmi.mode = vmi_mode_t.VMI_FILE then some (VMI_FAILURE, out)
  else
    match vmi.driver_get_vcpureg registers_t.CR3 0 with
    | none => some (VMI_FAILURE, out)
    | some cr3 =>
      let fsgs_read : Option Nat :=
        if vmi.page_mode = page_mode_t.VMI_PM_IA32E then
          vmi.driver_get_vcpureg registers_t.GS_BASE 0
        else if vmi.page_mode = page_mode_t.VMI_PM_LEGACY
            ∨ vmi.page_mode = page_mode_t.VMI_PM_PAE then
          vmi.driver_get_vcpureg registers_t.FS_BASE 0
        else some fsgs_init
      match fsgs_read with
      | none => some (VMI_FAILURE, out)
      | some fsgs =>
        let start := to_u64 ((vmi.vmi_pagetable_lookup cr3 fsgs >>> 12) <<< 12)
        match find_kdbg_address_faster_loop vmi (-(VMI_PS_4KB : Int)) fuel start with
        | none => none
        | some (some found) => some (VMI_SUCCESS, found)
        | some none =>
          match find_kdbg_address_faster_loop vmi (VMI_PS_4KB : Int) fuel start with
          | none => none
          | some (some found) => some (VMI_SUCCESS, found)
          | some none => some (VMI_FAILURE, out)

/-- Source `find_kdbg_address_instant`.  The status of the `GS_BASE`/`FS_BASE`
read is not tested by the source; when that read fails `fsgs` keeps the
indeterminate value `fsgs_init` of the uninitialised local. -/
def find_kdbg_address_instant (vmi : vmi_instance) (fsgs_init : Nat)
    (out : kdbg_addresses) : status_t × kdbg_addresses :=
  match vmi.os_data with
  | none => (VMI_FAILURE, out)
  | some windows =>
    if vmi.mode = vmi_mode_t.VMI_FILE then (VMI_FAILURE, out)
    else if windows.kdbg_offset = 0 ∨ windows.kpcr_offset = 0 then (VMI_FAILURE, out)
    else
      match vmi.driver_get_vcpureg registers_t.CR3 0 with
      | none => (VMI_FAILURE, out)
      | some cr3 =>
        let fsgs :=
          if vmi.page_mode = page_mode_t.VMI_PM_IA32E then
            (vmi.driver_get_vcpureg registers_t.GS_BASE 0).getD fsgs_init
          else (vmi.driver_get_vcpureg registers_t.FS_BASE 0).getD fsgs_init
        let kernelbase_va := sub_u64 fsgs windows.kpcr_offset
        let kernelbase_pa := vmi.vmi_pagetable_lookup cr3 kernelbase_va
        if kernelbase_pa = 0 then (VMI_FAILURE, out)
        else
          (VMI_SUCCESS,
           { kernel_pa := kernelbase_pa,
             kernel_va := kernelbase_va,
             kdbg_pa := to_u64 (kernelbase_pa + windows.kdbg_offset) })

/-! ## `os/windows/kdbg.c`: `init_kdbg` -/

/-- The four search strategies of `init_kdbg`, named as in the spec:
`find_kdbg_address_instant`, `find_kdbg_address_faster`,
`find_kdbg_address_fast` and `find_kdbg_address`. -/
inductive kdbg_strategy where
  | instant
  | faster
  | fast
  | slow
deriving DecidableEq, Repr

/-- The outcome of `init_kdbg`: the returned status, the Windows state after
the call (`none` when `os_data` is `NULL`) and, as a record of the calls made,
the search strategies that were invoked, in order. -/
structure init_kdbg_result where
  ret : status_t
  os_data : Option windows_instance
  invoked : List kdbg_strategy

/-- The chain of strategy calls of `init_kdbg`, starting from the locals
`kernbase_pa = 0, kernbase_va = 0, kdbg_pa = 0`.  Returns the strategies that
were called, whether control reached `found`, and the values of the three
locals at that point.  `none` when a scan reaches the bound `fuel`. -/
def init_kdbg_search (vmi : vmi_instance) (fuel : Nat) (fsgs_init : Nat) :
    Option (List kdbg_strategy × Bool × kdbg_addresses) :=
  match find_kdbg_address_instant vmi fsgs_init kdbg_addresses_zero with
  | (VMI_SUCCESS, out1) => some ([kdbg_strategy.instant], true, out1)
  | (VMI_FAILURE, out1) =>
    match find_kdbg_address_faster vmi fuel fsgs_init out1 with
    | none => none
    | some (VMI_SUCCESS, out2) =>
      some ([kdbg_strategy.instant, kdbg_strategy.faster], true, out2)
    | some (VMI_FAILURE, out2) =>
      match find_kdbg_address_fast vmi out2 with
      | (VMI_SUCCESS, out3) =>
        some ([kdbg_strategy.instant, kdbg_strategy.faster, kdbg_strategy.fast], true, out3)
      | (VMI_FAILURE, out3) =>
        match find_kdbg_address vmi fuel out3.kdbg_pa out3.kernel_va with
        | none => none
        | some (VMI_SUCCESS, kdbg_pa4, kernel_va4) =>
          some ([kdbg_strategy.instant, kdbg_strategy.faster, kdbg_strategy.fast,
                 kdbg_strategy.slow], true,
                { out3 with kdbg_pa := kdbg_pa4, kernel_va := kernel_va4 })
        | some (VMI_FAILURE, kdbg_pa4, kernel_va4) =>
          some ([kdbg_strategy.instant, kdbg_strategy.faster, kdbg_strategy.fast,
                 kdbg_strategy.slow], false,
                { out3 with kdbg_pa := kdbg_pa4, kernel_va := kernel_va4 })

/-- The code of `init_kdbg` from the label `found` on, for the locals `out`:
the version is stored first; an unknown version leaves through `exit` with
failure. -/
def init_kdbg_found (e : win_ver_t) (vmi : vmi_instance) (windows : windows_instance)
    (out : kdbg_addresses) : status_t × windows_instance :=
  let version := find_windows_version e vmi out.kdbg_pa
  let w1 := { windows with version := version }
  if e.VMI_OS_WINDOWS_UNKNOWN = version then (VMI_FAILURE, w1)
  else
    let kernbase_pa :=
      if out.kernel_pa = 0 then to_u64 (vmi.get_ntoskrnl_base 0) else out.kernel_pa
    let ntoskrnl := to_u64 kernbase_pa
    let ntoskrnl_va := to_u64 out.kernel_va
    let kdbg_offset := sub_u64 out.kdbg_pa ntoskrnl
    (VMI_SUCCESS,
     { w1 with ntoskrnl := ntoskrnl, ntoskrnl_va := ntoskrnl_va, kdbg_offset := kdbg_offset,
               kdbg_va := to_u64 (ntoskrnl_va + kdbg_offset) })

/-- The part of `init_kdbg` that runs the search strategies ("We don't have the
standard config informations"), on the Windows state `windows` that
`vmi.os_data` holds at that point. -/
def init_kdbg_from_search (e : win_ver_t) (vmi : vmi_instance) (windows : windows_instance)
    (fuel : Nat) (fsgs_init : Nat) : Option init_kdbg_result :=
  match init_kdbg_search vmi fuel fsgs_init with
  | none => none
  | some (invoked, false, _) =>
    some { ret := VMI_FAILURE, os_data := some windows, invoked := invoked }
  | some (invoked, true, out) =>
    let r := init_kdbg_found e vmi windows out
    some { ret := r.1, os_data := some r.2, invoked := invoked }

/-- The branch `if (windows->kdbg_va)` of `init_kdbg` after a successful
`KernBase` lookup that stored `ntoskrnl_va`. -/
def init_kdbg_from_kdbg_va (vmi : vmi_instance) (windows : windows_instance)
    (ntoskrnl_va : Nat) : windows_instance :=
  let w1 := { windows with ntoskrnl_va := ntoskrnl_va }
  let w2 :=
    if w1.ntoskrnl = 0 then
      { w1 with ntoskrnl := to_u64 (vmi.vmi_translate_kv2p w1.ntoskrnl_va) }
    else w1
  if w2.kdbg_offset = 0 then
    { w2 with kdbg_offset := sub_u64 w2.kdbg_va w2.ntoskrnl_va }
  else w2

/-- The branch `else if (windows->ntoskrnl && windows->kdbg_offset)` of
`init_kdbg`. -/
def init_kdbg_from_ntoskrnl (vmi : vmi_instance) (windows : windows_instance) :
    status_t × windows_instance :=
  let finish (w : windows_instance) : status_t × windows_instance :=
    if w.kdbg_va = 0 then
      (VMI_SUCCESS, { w with kdbg_va := to_u64 (w.ntoskrnl_va + w.kdbg_offset) })
    else (VMI_SUCCESS, w)
  if windows.ntoskrnl_va = 0 then
    let offset := (kdbg_symbol_offset vmi "KernBase" 0).2
    match vmi.vmi_read_addr_pa (to_u64 (windows.ntoskrnl + windows.kdbg_offset + offset)) with
    | none => (VMI_FAILURE, windows)
    | some value =>
      let w1 := { windows with ntoskrnl_va := to_u64 value }
      if vmi.vmi_translate_kv2p w1.ntoskrnl_va ≠ w1.ntoskrnl then (VMI_FAILURE, w1)
      else finish w1
  else finish windows

/-- Source `init_kdbg`.  `fuel` bounds the scans of the faster and the slow
strategy, `fsgs_init` is the indeterminate value of their uninitialised local
`fsgs`; `none` when a scan reaches the bound. -/
def init_kdbg (e : win_ver_t) (vmi : vmi_instance) (fuel : Nat) (fsgs_init : Nat) :
    Option init_kdbg_result :=
  match vmi.os_data with
  | none => some { ret := VMI_FAILURE, os_data := none, invoked := [] }
  | some windows =>
    if windows.kdbg_va ≠ 0 then
      match windows_kdbg_lookup vmi "KernBase" windows.ntoskrnl_va with
      | (VMI_SUCCESS, ntoskrnl_va) =>
        some { ret := VMI_SUCCESS,
               os_data := some (init_kdbg_from_kdbg_va vmi windows ntoskrnl_va),
               invoked := [] }
      | (VMI_FAILURE, ntoskrnl_va) =>
        let w1 := { windows with ntoskrnl_va := ntoskrnl_va }
        init_kdbg_from_search e { vmi with os_data := some w1 } w1 fuel fsgs_init
    else if windows.ntoskrnl ≠ 0 ∧ windows.kdbg_offset ≠ 0 then
      let r := init_kdbg_from_ntoskrnl vmi windows
      some { ret := r.1, os_data := some r.2, invoked := [] }
    else init_kdbg_from_search e vmi windows fuel fsgs_init

/-! ## `core.c`: initialisation -/

/-- The constants of `libvmi.h` and `private.h` that `core.c` uses.  The headers
are not part of the sources at hand, so the values are parameters: the access
modes, the init modes and the config sources (all of them bits of the init
flags), the id that stands for "no domain id", and the length limit of a
config string. -/
structure vmi_flags where
  VMI_AUTO : Nat
  VMI_XEN : Nat
  VMI_KVM : Nat
  VMI_FILE : Nat
  VMI_INIT_PARTIAL : Nat
  VMI_INIT_COMPLETE : Nat
  VMI_INIT_EVENTS : Nat
  VMI_CONFIG_NONE : Nat
  VMI_CONFIG_GLOBAL_FILE_ENTRY : Nat
  VMI_CONFIG_STRING : Nat
  VMI_CONFIG_GHASHTABLE : Nat
  VMI_INVALID_DOMID : Nat
  CONFIG_STR_LENGTH : Nat

/-- The four config sources are the labels of one `switch` in
`vmi_init_private`, hence pairwise different. -/
def config_sources_distinct (c : vmi_flags) : Prop :=
  c.VMI_CONFIG_NONE ≠ c.VMI_CONFIG_GLOBAL_FILE_ENTRY ∧
  c.VMI_CONFIG_NONE ≠ c.VMI_CONFIG_STRING ∧
  c.VMI_CONFIG_NONE ≠ c.VMI_CONFIG_GHASHTABLE ∧
  c.VMI_CONFIG_GLOBAL_FILE_ENTRY ≠ c.VMI_CONFIG_STRING ∧
  c.VMI_CONFIG_GLOBAL_FILE_ENTRY ≠ c.VMI_CONFIG_GHASHTABLE ∧
  c.VMI_CONFIG_STRING ≠ c.VMI_CONFIG_GHASHTABLE

instance (c : vmi_flags) : Decidable (config_sources_distinct c) := by
  unfold config_sources_distinct; infer_instance

/-- The object behind a `vmi_config_t` (a `void *`): what the callee finds when
it casts the pointer to `char *` and when it casts it to `GHashTable *`.  The
init flags say which of the two is meant. -/
structure vmi_config_t where
  as_string : String
  as_table : vmi_config

/-- Modelled from the spec: the value of `vmi->mode` after the assignment
`vmi->mode = mode` of an access-mode integer. -/
def vmi_mode_of (c : vmi_flags) (mode : Nat) : vmi_mode_t :=
  if mode = c.VMI_XEN then vmi_mode_t.VMI_XEN
  else if mode = c.VMI_KVM then vmi_mode_t.VMI_KVM
  else if mode = c.VMI_FILE then vmi_mode_t.VMI_FILE
  else vmi_mode_t.VMI_MODE_OTHER mode

/-- The functions that `core.c` calls and that are implemented outside these
sources, and the process environment.  A function with a status gives `none`
(or `VMI_FAILURE`) when the C function returns `VMI_FAILURE`.
* `driver_init_mode vmi id name` probes the back-ends and gives the mode it
  stores in `vmi->mode`;
* `driver_get_id_from_name`, `driver_check_id`, `driver_get_name_from_id`,
  `driver_init`, `driver_get_memsize` are the driver calls (`driver_set_id`
  and `driver_set_name` only touch driver-private data and do not appear);
* `arch_init` gives the page mode and the vtable it installs;
* `getenv`, `getpwnam` (the home directory of a user) and `fopen` (the content
  of a readable file) are the C library;
* `vmi_parse_config target input` is the status of the config parser run on
  the stream `yyin` (`none` for a `NULL` stream) for the entry `target`, and
  `vmi_get_config target input` the table it leaves;
* `linux_init`, `windows_init`, `events_init` act on the whole instance;
* `primitives` carries the memory and register primitives of the guest that a
  new instance is connected to. -/
structure core_env where
  driver_init_mode : vmi_instance → Nat → Option String → Option vmi_mode_t
  driver_get_id_from_name : vmi_instance → String → Nat
  driver_check_id : vmi_instance → Nat → status_t
  driver_get_name_from_id : vmi_instance → Nat → Option String
  driver_init : vmi_instance → status_t
  driver_get_memsize : vmi_instance → Option Nat
  arch_init : vmi_instance → Option (page_mode_t × Option arch_interface)
  getenv : String → Option String
  getpwnam : String → Option String
  fopen : String → Option String
  vmi_parse_config : Option String → Option String → Int
  vmi_get_config : Option String → Option String → Option vmi_config
  linux_init : vmi_instance → status_t × vmi_instance
  windows_init : vmi_instance → status_t × vmi_instance
  events_init : vmi_instance → vmi_instance
  primitives : vmi_instance

/-- C library `strndup(s, n)`: a copy of at most the first `n` characters. -/
def strndup (s : List Char) (n : Nat) : String := String.mk (s.take n)

/-- C library `strrchr(s, ch)`: the suffix of `s` that starts at the last
occurrence of `ch`, `none` (`NULL`) when `ch` does not occur. -/
def strrchr : List Char → Char → Option (List Char)
  | [], _ => none
  | c :: r, ch =>
    match strrchr r ch with
    | some suffix => some suffix
    | none => if c = ch then some (c :: r) else none

/-- The text that `snprintf(location, 100, …)` leaves in a buffer of 100
bytes: at most 99 characters. -/
def snprintf_100 (s : String) : String := String.mk (s.data.take 99)

/-- Source `open_config_file`: the home directory of `$SUDO_USER`, then
`$HOME`, then `/etc`.  The result is the content of the file that was opened.
A `NULL` result of `getenv("HOME")` is printed as `(null)`, as the GNU C
library does. -/
def open_config_file (env : core_env) : Option String :=
  let first : Option String :=
    match env.getenv "SUDO_USER" with
    | some sudo_user =>
      match env.getpwnam sudo_user with
      | some pw_dir => env.fopen (snprintf_100 (pw_dir ++ "/etc/libvmi.conf"))
      | none => none
    | none => none
  match first with
  | some f => some f
  | none =>
    match env.fopen
        (snprintf_100 ((env.getenv "HOME").getD "(null)" ++ "/etc/libvmi.conf")) with
    | some f => some f
    | none => env.fopen "/etc/libvmi.conf"

/-- GLib `g_hash_table_lookup` on a config map read as a C string; a `NULL`
table gives `NULL`. -/
def g_hash_table_lookup (table : Option vmi_config) (key : String) : Option String :=
  match table with
  | some t => t.lookup_string key
  | none => none

/-- GLib `g_hash_table_lookup_extended` followed by the read of the
`unsigned long` behind the value; `none` when the key is not found. -/
def g_hash_table_lookup_extended (table : Option vmi_config) (key : String) :
    Option Nat :=
  match table with
  | some t => t.lookup_ulong key
  | none => none

/-- The two lookups of source `set_os_type_from_config`: the value under
`ostype` and, when that is `NULL`, the value under `os_type`. -/
def set_os_type_lookup (table : Option vmi_config) : Option String :=
  match g_hash_table_lookup table "ostype" with
  | some s => some s
  | none => g_hash_table_lookup table "os_type"

/-- The decision of source `set_os_type_from_config` on the string that the
lookups gave. -/
def set_os_type_from_string (c : vmi_flags) (vmi : vmi_instance) (ostype : Option String) :
    status_t × vmi_instance :=
  match ostype with
  | none => (VMI_FAILURE, vmi)
  | some s =>
    if strncmp s "Linux" c.CONFIG_STR_LENGTH = 0 then
      (VMI_SUCCESS, { vmi with os_type := os_t.VMI_OS_LINUX })
    else if strncmp s "Windows" c.CONFIG_STR_LENGTH = 0 then
      (VMI_SUCCESS, { vmi with os_type := os_t.VMI_OS_WINDOWS })
    else (VMI_FAILURE, vmi)

/-- Source `set_os_type_from_config`: `os_type` is reset and `os_data` is
released first, then the config map is consulted. -/
def set_os_type_from_config (c : vmi_flags) (vmi : vmi_instance) :
    status_t × vmi_instance :=
  set_os_type_from_string c { vmi with os_type := os_t.VMI_OS_UNKNOWN, os_data := none }
    (set_os_type_lookup vmi.config)

/-- Source `read_config_file`; `config_file` is the content of the stream. -/
def read_config_file (env : core_env) (vmi : vmi_instance) (config_file : Option String) :
    status_t × vmi_instance :=
  if env.vmi_parse_config vmi.image_type config_file ≠ 0 then (VMI_FAILURE, vmi)
  else
    let vmi1 := { vmi with config := env.vmi_get_config vmi.image_type config_file }
    match vmi1.config with
    | none => (VMI_FAILURE, vmi1)
    | some _ => (VMI_SUCCESS, vmi1)

/-- Source `read_config_string`.  The result is `none` when the function takes
`strlen` of a `NULL` `vmi->image_type`, which is undefined. -/
def read_config_string (env : core_env) (vmi : vmi_instance) (config : Option String) :
    Option (status_t × vmi_instance) :=
  match config with
  | none => some (VMI_FAILURE, vmi)
  | some cfg =>
    match vmi.image_type with
    | none => none
    | some image_type =>
      some (read_config_file env vmi (some (image_type ++ " " ++ cfg)))

/-- Source `read_config_file_entry`. -/
def read_config_file_entry (env : core_env) (vmi : vmi_instance) :
    status_t × vmi_instance :=
  match open_config_file env with
  | none => (VMI_FAILURE, vmi)
  | some f => read_config_file env vmi (some f)

/-- Source `init_page_offset`. -/
def init_page_offset (vmi : vmi_instance) : status_t × vmi_instance :=
  (VMI_SUCCESS, { vmi with page_shift := 12, page_size := 1 <<< 12 })

/-- Source `set_driver_type`. -/
def set_driver_type (c : vmi_flags) (env : core_env) (vmi : vmi_instance) (mode id : Nat)
    (name : Option String) : status_t × vmi_instance :=
  if c.VMI_AUTO = mode then
    match env.driver_init_mode vmi id name with
    | none => (VMI_FAILURE, vmi)
    | some m => (VMI_SUCCESS, { vmi with mode := m })
  else (VMI_SUCCESS, { vmi with mode := vmi_mode_of c mode })

/-- Source `set_image_type_for_file`. -/
def set_image_type_for_file (vmi : vmi_instance) (name : String) : vmi_instance :=
  let ptr : List Char :=
    match strrchr name.data '/' with
    | none => name.data
    | some suffix => suffix.drop 1
  { vmi with image_type := some (strndup ptr 500),
             image_type_complete := some (strndup name.data 500) }

/-- Source `set_id_and_name`; the parameter `mode` is not used by the
source. -/
def set_id_and_name (c : vmi_flags) (env : core_env) (vmi : vmi_instance) (_mode id : Nat)
    (name : Option String) : status_t × vmi_instance :=
  if vmi.mode = vmi_mode_t.VMI_FILE then
    match name with
    | some n => (VMI_SUCCESS, set_image_type_for_file vmi n)
    | none => (VMI_FAILURE, vmi)
  else if c.VMI_INVALID_DOMID = id then
    match name with
    | some n =>
      if c.VMI_INVALID_DOMID ≠ env.driver_get_id_from_name vmi n then
        (VMI_SUCCESS, { vmi with image_type := some (strndup n.data 100) })
      else (VMI_FAILURE, vmi)
    | none => (VMI_FAILURE, vmi)
  else
    match name with
    | some _ => (VMI_FAILURE, vmi)
    | none =>
      if env.driver_check_id vmi id = VMI_FAILURE then (VMI_FAILURE, vmi)
      else
        match env.driver_get_name_from_id vmi id with
        | some n => (VMI_SUCCESS, { vmi with image_type := some (strndup n.data 100) })
        | none =>
          if vmi.mode ≠ vmi_mode_t.VMI_XEN then (VMI_FAILURE, vmi)
          else (VMI_SUCCESS, { vmi with image_type := some ("domid-" ++ toString id) })

/-- The instance that `vmi_init_private` starts from: `safe_malloc` followed
by `memset(*vmi, 0, …)` leaves every member zero (`NULL`); the guest
primitives are those of the environment. -/
def vmi_instance_alloc (c : vmi_flags) (env : core_env) : vmi_instance :=
  { env.primitives with
    os_data := none, mode := vmi_mode_of c 0, page_mode := page_mode_t.VMI_PM_UNKNOWN,
    size := 0, flags := 0, init_mode := 0, config_mode := 0, config := none,
    os_type := os_t.VMI_OS_UNKNOWN, image_type := none, image_type_complete := none,
    page_shift := 0, page_size := 0, arch_interface := none }

/-- The beginning of source `vmi_init_private`: the new instance with the
flags, the init mode and the config mode stored, no config map and an unknown
page mode.  The cache initialisers touch members that are not modelled. -/
def vmi_init_start (c : vmi_flags) (env : core_env) (flags : Nat) : vmi_instance :=
  { vmi_instance_alloc c env with
    flags := to_u32 flags, init_mode := to_u32 flags &&& 0x00FF0000,
    config_mode := to_u32 flags &&& 0xFF000000, config := none,
    page_mode := page_mode_t.VMI_PM_UNKNOWN }

/-- The first part of source `vmi_init_private`, up to and including
`arch_init`: `set_driver_type`, `set_id_and_name`, `driver_init`,
`init_page_offset`, `driver_get_memsize` and (unless the mode is file)
`arch_init` run in this order; the first failure ends the function
(`goto error_exit`). -/
def vmi_init_driver (c : vmi_flags) (env : core_env) (flags id : Nat)
    (name : Option String) : status_t × vmi_instance :=
  let access_mode := to_u32 flags &&& 0x0000FFFF
  let vmi0 := vmi_init_start c env flags
  match set_driver_type c env vmi0 access_mode id name with
  | (VMI_FAILURE, v) => (VMI_FAILURE, v)
  | (VMI_SUCCESS, v1) =>
    match set_id_and_name c env v1 access_mode id name with
    | (VMI_FAILURE, v) => (VMI_FAILURE, v)
    | (VMI_SUCCESS, v2) =>
      match env.driver_init v2 with
      | VMI_FAILURE => (VMI_FAILURE, v2)
      | VMI_SUCCESS =>
        match init_page_offset v2 with
        | (VMI_FAILURE, v) => (VMI_FAILURE, v)
        | (VMI_SUCCESS, v3) =>
          match env.driver_get_memsize v3 with
          | none => (VMI_FAILURE, v3)
          | some size =>
            let v4 := { v3 with size := size }
            if v4.mode ≠ vmi_mode_t.VMI_FILE then
              match env.arch_init v4 with
              | none => (VMI_FAILURE, v4)
              | some (page_mode, iface) =>
                (VMI_SUCCESS, { v4 with page_mode := page_mode, arch_interface := iface })
            else (VMI_SUCCESS, v4)

/-- The `switch ((*vmi)->config_mode)` of source `vmi_init_private`:
`VMI_FAILURE` stands for `goto error_exit`. -/
def vmi_init_config (c : vmi_flags) (env : core_env) (vmi : vmi_instance)
    (config : Option vmi_config_t) : Option (status_t × vmi_instance) :=
  if vmi.config_mode = c.VMI_CONFIG_STRING then
    read_config_string env vmi (config.map (fun cfg => cfg.as_string))
  else if vmi.config_mode = c.VMI_CONFIG_GLOBAL_FILE_ENTRY then
    some (read_config_file_entry env vmi)
  else if vmi.config_mode = c.VMI_CONFIG_GHASHTABLE then
    match config with
    | none => some (VMI_FAILURE, vmi)
    | some cfg => some (VMI_SUCCESS, { vmi with config := some cfg.as_table })
  else some (VMI_FAILURE, vmi)

/-- The OS part of source `vmi_init_private`: `set_os_type_from_config`, then
`linux_init` or `windows_init` according to `os_type`. -/
def vmi_init_os (c : vmi_flags) (env : core_env) (vmi : vmi_instance) :
    status_t × vmi_instance :=
  match set_os_type_from_config c vmi with
  | (VMI_FAILURE, v) => (VMI_FAILURE, v)
  | (VMI_SUCCESS, v1) =>
    if v1.os_type = os_t.VMI_OS_LINUX then env.linux_init v1
    else if v1.os_type = os_t.VMI_OS_WINDOWS then env.windows_init v1
    else (VMI_FAILURE, v1)

/-- The end of source `vmi_init_private`: `events_init` when
`VMI_INIT_EVENTS` is set. -/
def vmi_init_events (c : vmi_flags) (env : core_env) (init_mode : Nat)
    (vmi : vmi_instance) : vmi_instance :=
  if init_mode &&& c.VMI_INIT_EVENTS ≠ 0 then env.events_init vmi else vmi

/-- Source `vmi_init_private`.  The result is the status and the instance that
`*vmi` points to on return; it is `none` when `read_config_string` runs into
undefined behaviour. -/
def vmi_init_private (c : vmi_flags) (env : core_env) (flags id : Nat)
    (name : Option String) (config : Option vmi_config_t) :
    Option (status_t × vmi_instance) :=
  let init_mode := to_u32 flags &&& 0x00FF0000
  match vmi_init_driver c env flags id name with
  | (VMI_FAILURE, v) => some (VMI_FAILURE, v)
  | (VMI_SUCCESS, v) =>
    if init_mode &&& c.VMI_INIT_COMPLETE ≠ 0 then
      match vmi_init_config c env v config with
      | none => none
      | some (VMI_FAILURE, v1) => some (VMI_FAILURE, v1)
      | some (VMI_SUCCESS, v1) =>
        match vmi_init_os c env v1 with
        | (VMI_FAILURE, v2) => some (VMI_FAILURE, v2)
        | (VMI_SUCCESS, v2) => some (VMI_SUCCESS, vmi_init_events c env init_mode v2)
    else if init_mode &&& c.VMI_INIT_PARTIAL ≠ 0 then
      some (VMI_SUCCESS, vmi_init_events c env init_mode v)
    else some (VMI_FAILURE, v)

/-- Source `vmi_init`. -/
def vmi_init (c : vmi_flags) (env : core_env) (flags : Nat) (name : Option String) :
    Option (status_t × vmi_instance) :=
  vmi_init_private c env (to_u32 flags ||| c.VMI_CONFIG_GLOBAL_FILE_ENTRY)
    c.VMI_INVALID_DOMID name none

/-- A call of an initialiser made by `vmi_init_custom`, with its arguments. -/
inductive init_call where
  | vmi_init (flags : Nat) (name : Option String)
  | vmi_init_private (flags id : Nat) (name : Option String) (config : Option vmi_config_t)

/-- Outcome of `vmi_init_custom`: the status, the instance that `*vmi` points
to on return, and the initialisers that were called. -/
structure vmi_init_custom_result where
  ret : status_t
  vmi : vmi_instance
  calls : List init_call

/-- Source `vmi_init_custom`; `old` is the instance that `*vmi` points to on
entry.  The result is `none` when the function runs into undefined behaviour
(`strdup` of a `NULL` image type, or inside the initialiser it calls). -/
def vmi_init_custom (c : vmi_flags) (env : core_env) (old : vmi_instance) (flags : Nat)
    (config : Option vmi_config_t) : Option vmi_init_custom_result :=
  let config_mode : Nat :=
    match config with
    | none => (to_u32 flags &&& 0xFF000000) ||| c.VMI_CONFIG_NONE
    | some _ => to_u32 flags &&& 0xFF000000
  if c.VMI_CONFIG_GLOBAL_FILE_ENTRY = config_mode then
    let name := config.map (fun cfg => cfg.as_string)
    match vmi_init c env flags name with
    | none => none
    | some (ret, v) =>
      some { ret := ret, vmi := v, calls := [init_call.vmi_init (to_u32 flags) name] }
  else if c.VMI_CONFIG_STRING = config_mode then
    let name : Option String :=
      if old.mode = vmi_mode_t.VMI_FILE then old.image_type_complete else old.image_type
    match name with
    | none => none
    | some n =>
      match vmi_init_private c env flags c.VMI_INVALID_DOMID (some n) config with
      | none => none
      | some (ret, v) =>
        some { ret := ret, vmi := v,
               calls := [init_call.vmi_init_private (to_u32 flags) c.VMI_INVALID_DOMID
                 (some n) config] }
  else if c.VMI_CONFIG_GHASHTABLE = config_mode then
    let configtbl := config.map (fun cfg => cfg.as_table)
    let name := g_hash_table_lookup configtbl "name"
    let domid : Nat :=
      match g_hash_table_lookup_extended configtbl "domid" with
      | some d => d
      | none => c.VMI_INVALID_DOMID
    if name ≠ none ∧ domid ≠ c.VMI_INVALID_DOMID then
      some { ret := VMI_FAILURE, vmi := old, calls := [] }
    else if name ≠ none then
      match vmi_init_private c env flags c.VMI_INVALID_DOMID name config with
      | none => none
      | some (ret, v) =>
        some { ret := ret, vmi := v,
               calls := [init_call.vmi_init_private (to_u32 flags) c.VMI_INVALID_DOMID
                 name config] }
    else if domid ≠ c.VMI_INVALID_DOMID then
      match vmi_init_private c env flags domid none config with
      | none => none
      | some (ret, v) =>
        some { ret := ret, vmi := v,
               calls := [init_call.vmi_init_private (to_u32 flags) domid none config] }
    else some { ret := VMI_FAILURE, vmi := old, calls := [] }
  else some { ret := VMI_FAILURE, vmi := old, calls := [] }

/-! ## `os/windows/symbols.c`: the symbol map -/

/-- The integer values of the enumerators of `status_t`.  The type is declared
in `libvmi.h`, which is not part of the sources at hand, so the values are
parameters. -/
structure status_values where
  VMI_SUCCESS_value : Nat
  VMI_FAILURE_value : Nat

/-- The integer that a `return` of the named status yields. -/
def status_t.value (sv : status_values) : status_t → Nat
  | VMI_SUCCESS => sv.VMI_SUCCESS_value
  | VMI_FAILURE => sv.VMI_FAILURE_value

/-- Source `MAX_ROW_LENGTH`. -/
def MAX_ROW_LENGTH : Nat := 500

/-- Size of a `char *` (LP64). -/
def sizeof_char_pointer : Nat := 8

/-- C library `isspace` in the "C" locale: space, `\t`, `\n`, `\v`, `\f`,
`\r`. -/
def isspace (ch : Nat) : Bool := ch == 32 || (9 ≤ ch && ch ≤ 13)

/-- The bytes of a string. -/
def string_bytes (s : String) : List Nat := s.data.map Char.toNat

/-- The text that `sprintf(search, "\"%s\":", symbol)` writes: the symbol
between double quotes, followed by a colon. -/
def symbol_search (symbol : String) : List Nat := 34 :: (string_bytes symbol ++ [34, 58])

/-- Memory after a store of `bytes` at index `pos`.  Memory is indexed from the
start of the row buffer: indices 0 … 499 are the buffer that
`windows_system_map_symbol_to_address` allocates, larger indices are the host
memory that follows it. -/
def store_bytes (heap : Nat → Nat) (pos : Nat) (bytes : List Nat) : Nat → Nat :=
  fun i => if pos ≤ i ∧ i < pos + bytes.length then bytes.getD (i - pos) 0 else heap i

/-- The characters that `fgets` takes from a stream when it may store at most
`n` of them: up to and including the first newline.  The result is the line
and the rest of the stream. -/
def fgets_line : Nat → List Nat → List Nat × List Nat
  | 0, file => ([], file)
  | _ + 1, [] => ([], [])
  | n + 1, ch :: rest =>
    if ch = 10 then ([ch], rest)
    else ((ch :: (fgets_line n rest).1), (fgets_line n rest).2)

/-- C library `fgets(s, size, f)`: `none` (`NULL`) at the end of the stream,
otherwise the line and a terminating NUL are stored at `s`. -/
def fgets (heap : Nat → Nat) (s size : Nat) (file : List Nat) :
    Option ((Nat → Nat) × List Nat) :=
  match fgets_line (size - 1) file with
  | ([], _) => none
  | (ch :: line, rest) => some (store_bytes heap s (ch :: line ++ [0]), rest)

/-- The inner loop `while (isspace((*row)[curpos]))` of `get_symbol_row`: it
overwrites a run of white space with NUL and has no bound on `curpos`; `none`
when `fuel` steps do not reach the end of the run. -/
def skip_spaces (row : Nat) : Nat → (Nat → Nat) → Nat → Option ((Nat → Nat) × Nat)
  | 0, _, _ => none
  | fuel + 1, heap, curpos =>
    if isspace (heap (row + curpos)) then
      skip_spaces row fuel (store_bytes heap (row + curpos) [0]) (curpos + 1)
    else some (heap, curpos)

/-- The loop `while (position_copy > 0 && curpos < MAX_ROW_LENGTH)` of
`get_symbol_row`; the result is the memory, `curpos` and `position_copy` when
the loop ends. -/
def find_token (row : Nat) : Nat → (Nat → Nat) → Nat → Nat → Option ((Nat → Nat) × Nat × Nat)
  | 0, _, _, _ => none
  | fuel + 1, heap, curpos, position_copy =>
    if 0 < position_copy ∧ curpos < MAX_ROW_LENGTH then
      if isspace (heap (row + curpos)) then
        match skip_spaces row fuel heap curpos with
        | none => none
        | some (heap1, curpos1) => find_token row fuel heap1 curpos1 (position_copy - 1)
      else find_token row fuel heap (curpos + 1) position_copy
    else some (heap, curpos, position_copy)

/-- The loop `while (curpos < MAX_ROW_LENGTH)` of `get_symbol_row` that
replaces white space by NUL up to index `MAX_ROW_LENGTH - 1` from `*row`;
`count` is the number of iterations left. -/
def clear_spaces (row : Nat) : Nat → (Nat → Nat) → Nat → (Nat → Nat)
  | 0, heap, _ => heap
  | count + 1, heap, curpos =>
    if isspace (heap (row + curpos)) then
      clear_spaces row count (store_bytes heap (row + curpos) [0]) (curpos + 1)
    else clear_spaces row count heap (curpos + 1)

/-- The characters of the C string at `pos`, at most `n` of them. -/
def read_c_string (heap : Nat → Nat) : Nat → Nat → List Char
  | _, 0 => []
  | pos, n + 1 =>
    if heap pos = 0 then [] else Char.ofNat (heap pos) :: read_c_string heap (pos + 1) n

/-- Outcome of `get_symbol_row`: the status, the caller's pointer `*row` after
the call (an index into memory, `none` for `NULL`), the memory, the rest of the
stream, and the number of bytes that `memset(row, 0, MAX_ROW_LENGTH)` zeroed
beyond the caller's pointer variable.  The source passes `row`, a `char **`
that points to the caller's local `char *`, to `memset`: the first
`sizeof(char *)` bytes zero that pointer, the remaining ones the memory that
follows it in the caller's stack frame. -/
structure symbol_row_result where
  ret : status_t
  row : Option Nat
  heap : Nat → Nat
  file : List Nat
  overrun : Nat

/-- The failure exit of `get_symbol_row`: `ret == VMI_FAILURE`, so
`memset(row, 0, MAX_ROW_LENGTH)` runs. -/
def get_symbol_row_error_exit (heap : Nat → Nat) (file : List Nat) : symbol_row_result :=
  { ret := VMI_FAILURE, row := none, heap := heap, file := file,
    overrun := MAX_ROW_LENGTH - sizeof_char_pointer }

/-- The loop `while (fgets((*row), MAX_ROW_LENGTH, f) != NULL)` of
`get_symbol_row`; `none` when `fuel` is exhausted. -/
def get_symbol_row_loop (search : List Nat) (position : Nat) :
    Nat → (Nat → Nat) → Nat → List Nat → Option symbol_row_result
  | 0, _, _, _ => none
  | fuel + 1, heap, row, file =>
    match fgets heap row MAX_ROW_LENGTH file with
    | none => some (get_symbol_row_error_exit heap file)
    | some (heap1, rest) =>
      match find_token row fuel heap1 0 position with
      | none => none
      | some (heap2, curpos, position_copy) =>
        if position_copy = 0 then
          let token := row + curpos
          let heap3 := clear_spaces row (MAX_ROW_LENGTH - curpos) heap2 curpos
          if strncmp_chars (read_c_string heap3 token search.length)
              (search.map Char.ofNat) search.length = 0 then
            let row1 := token + search.length + 1
            some { ret := VMI_SUCCESS,
                   row := some (if heap3 row1 = 91 then row1 + 1 else row1),
                   heap := heap3, file := rest, overrun := 0 }
          else get_symbol_row_loop search position fuel heap3 row rest
        else some (get_symbol_row_error_exit heap2 rest)

/-- Source `get_symbol_row`; `row` is the value of `*row` on entry.  A symbol
whose search text is longer than `MAX_ROW_LENGTH` fails before anything is
read, without the `memset`. -/
def get_symbol_row (fuel : Nat) (heap : Nat → Nat) (file : List Nat) (row : Nat)
    (symbol : String) (position : Nat) : Option symbol_row_result :=
  if MAX_ROW_LENGTH < (symbol_search symbol).length then
    some { ret := VMI_FAILURE, row := some row, heap := heap, file := file, overrun := 0 }
  else get_symbol_row_loop (symbol_search symbol) position fuel heap row file

/-- The digits that `strtoull` consumes in base 10, accumulated without a
bound; `none` when `fuel` characters do not reach the end of the digits. -/
def strtoull_digits (heap : Nat → Nat) : Nat → Nat → Nat → Option Nat
  | 0, _, _ => none
  | fuel + 1, pos, acc =>
    if 48 ≤ heap pos ∧ heap pos ≤ 57 then
      strtoull_digits heap fuel (pos + 1) (acc * 10 + (heap pos - 48))
    else some acc

/-- The white space that `strtoull` skips first. -/
def strtoull_spaces (heap : Nat → Nat) : Nat → Nat → Option Nat
  | 0, _ => none
  | fuel + 1, pos =>
    if isspace (heap pos) then strtoull_spaces heap fuel (pos + 1) else some pos

/-- C library `strtoull(nptr, NULL, 10)` on the C string at `pos`: white space,
an optional sign, decimal digits; a value that does not fit gives
`ULLONG_MAX`, a minus sign negates modulo 2^64, no digits give 0. -/
def strtoull (heap : Nat → Nat) (fuel pos : Nat) : Option Nat :=
  match strtoull_spaces heap fuel pos with
  | none => none
  | some pos1 =>
    let negative := heap pos1 = 45
    let pos2 := if heap pos1 = 45 ∨ heap pos1 = 43 then pos1 + 1 else pos1
    match strtoull_digits heap fuel pos2 0 with
    | none => none
    | some acc =>
      if 18446744073709551615 < acc then some 18446744073709551615
      else if negative then some (to_u64 (18446744073709551616 - acc))
      else some acc

/-- What a call of `windows_system_map_symbol_to_address` leads to: a return
with a status (as an integer) and the value of `*address`, or a caller frame
of which `bytes` bytes after the local pointer `row` have been zeroed by
`get_symbol_row`, after which the behaviour is undefined. -/
inductive sysmap_outcome where
  | returned (status : Nat) (address : Nat)
  | frame_overwritten (bytes : Nat)
deriving DecidableEq, Repr

/-- The continuation of `windows_system_map_symbol_to_address` after a call of
`get_symbol_row`: `VMI_FAILURE` leads to `error_exit` (the assignment
`address = 0` changes the local pointer, not `*address`). -/
def sysmap_after_row (sv : status_values) (address : Nat) (r : symbol_row_result)
    (next : symbol_row_result → Nat → Option sysmap_outcome) : Option sysmap_outcome :=
  if 0 < r.overrun then some (sysmap_outcome.frame_overwritten r.overrun)
  else
    match r.ret, r.row with
    | VMI_FAILURE, _ => some (sysmap_outcome.returned (status_t.value sv VMI_FAILURE) address)
    | VMI_SUCCESS, none => none
    | VMI_SUCCESS, some row => next r row

/-- Source `windows_system_map_symbol_to_address`.  `fopen` gives the content
of a readable file, `heap` the memory that `safe_malloc` returns (with what
follows it), `address` the value of `*address` before the call.  The two early
exits return the literal `0`.  The parameter `kernel_base_vaddr` is not used by
the source.  The result is `none` when `fuel` is exhausted. -/
def windows_system_map_symbol_to_address (sv : status_values)
    (fopen : String → Option String) (heap : Nat → Nat) (vmi : vmi_instance)
    (symbol : String) (subsymbol : Option String) (_kernel_base_vaddr : Nat)
    (address : Nat) (fuel : Nat) : Option sysmap_outcome :=
  match vmi.os_data with
  | none => some (sysmap_outcome.returned 0 address)
  | some windows_instance =>
    match windows_instance.sysmap with
    | none => some (sysmap_outcome.returned 0 address)
    | some sysmap =>
      if sysmap.length = 0 then some (sysmap_outcome.returned 0 address)
      else
        match fopen sysmap with
        | none => some (sysmap_outcome.returned (status_t.value sv VMI_FAILURE) address)
        | some content =>
          match get_symbol_row fuel heap (string_bytes content) 0 symbol 1 with
          | none => none
          | some r1 =>
            sysmap_after_row sv address r1 (fun r1 row1 =>
              match subsymbol with
              | none =>
                (strtoull r1.heap fuel row1).map
                  (fun value => sysmap_outcome.returned (status_t.value sv VMI_SUCCESS) value)
              | some sub =>
                match get_symbol_row fuel r1.heap r1.file row1 sub 1 with
                | none => none
                | some r2 =>
                  sysmap_after_row sv address r2 (fun r2 row2 =>
                    (strtoull r2.heap fuel row2).map
                      (fun value =>
                        sysmap_outcome.returned (status_t.value sv VMI_SUCCESS) value)))

/-- The loop of `find_kdbg_address_faster_loop` with a record of the pages it
examines: the values of `page_paddr` for which the loop condition held and the
body ran, in order, together with the outcome of the loop. -/
def find_kdbg_address_faster_pages (vmi : vmi_instance) (step : Int) :
    Nat → Nat → Option (List Nat × Option kdbg_addresses)
  | 0, _ => none
  | fuel + 1, page_paddr =>
    if to_u64 (page_paddr + int_to_u64 step) < vmi.size then
      match find_kdbg_address_faster_page vmi page_paddr with
      | some found => some ([page_paddr], some found)
      | none =>
        match find_kdbg_address_faster_pages vmi step fuel
            (to_u64 (page_paddr + int_to_u64 step)) with
        | none => none
        | some (pages, r) => some (page_paddr :: pages, r)
    else some ([], none)

/-! ## Concrete instances used to evaluate the code -/

/-- An instance without OS state on which every read fails: a file back-end
of size 0 with unknown page mode, no readable register, no translation, no
mapped page, and a signature search that never matches. -/
def vmi_instance_zero : vmi_instance :=
  { os_data := none, vmi_read_16_pa := fun _ => none, vmi_read_32_pa := fun _ => none,
    vmi_read_64_va := fun _ _ => none,
    mode := vmi_mode_t.VMI_FILE, page_mode := page_mode_t.VMI_PM_UNKNOWN, size := 0,
    driver_get_vcpureg := fun _ _ => none, vmi_pagetable_lookup := fun _ _ => 0,
    vmi_translate_kv2p := fun _ => 0, vmi_read_pa := fun _ _ => (0, fun _ => 0),
    vmi_read_addr_pa := fun _ => none, vmi_get_va_pages := fun _ => [],
    get_ntoskrnl_base := fun _ => 0, boyer_moore2 := fun _ _ _ => -1,
    faster_data_section := fun _ => none,
    flags := 0, init_mode := 0, config_mode := 0, config := none,
    os_type := os_t.VMI_OS_UNKNOWN, image_type := none, image_type_complete := none,
    page_shift := 0, page_size := 0, arch_interface := none }

/-- A zero-filled Windows OS state without an inlined debugger block. -/
def windows_instance_zero : windows_instance :=
  { ntoskrnl := 0, ntoskrnl_va := 0, kdbg_offset := 0, kdbg_va := 0, kpcr_offset := 0,
    version := 0, kdbg := none, sysmap := none }

/-- Guest memory whose every 32-bit word is the section descriptor
`0x00C11C02` (type `10`, bit 18 clear). -/
def arm_section_memory : vmi_instance :=
  { vmi_instance_zero with vmi_read_32_pa := fun _ => some 0x00C11C02 }

/-- Guest memory whose every 32-bit word is `0xFFFFFFFC` (type `00`). -/
def arm_fault_memory : vmi_instance :=
  { vmi_instance_zero with vmi_read_32_pa := fun _ => some 0xFFFFFFFC }

/-- Guest memory with a first-level table at `0x4000` whose entry 0 is the
coarse-table descriptor `0x00080001`, and a coarse table at `0x80000` whose
entry 1 is the small-page descriptor `0x12340002`. -/
def arm_coarse_small_memory : vmi_instance :=
  { vmi_instance_zero with
    vmi_read_32_pa := fun a =>
      if a = 0x4000 then some 0x00080001
      else if a = 0x80004 then some 0x12340002 else none }

/-- As `arm_coarse_small_memory`, with the large-page descriptor `0x12340001`
in the coarse table. -/
def arm_coarse_large_memory : vmi_instance :=
  { vmi_instance_zero with
    vmi_read_32_pa := fun a =>
      if a = 0x4000 then some 0x00080001
      else if a = 0x80004 then some 0x12340001 else none }

/-- Guest memory whose every 32-bit word is the supersection descriptor
`0x12040002` (type `10`, bit 18 set). -/
def arm_supersection_memory : vmi_instance :=
  { vmi_instance_zero with vmi_read_32_pa := fun _ => some 0x12040002 }

/-- Guest memory with a first-level table at 0 whose entry 0 is the coarse-table
descriptor `0x00040001` (table base `0x40000`, so bit 18 is set), and a coarse
table whose entry 0 is the small-page descriptor `0x12340002`. -/
def arm_coarse_bit18_memory : vmi_instance :=
  { vmi_instance_zero with
    vmi_read_32_pa := fun a =>
      if a = 0 then some 0x00040001
      else if a = 0x40000 then some 0x12340002 else none }

/-- Little-endian store of an 8-byte value at byte offset `off`. -/
def store_unsigned_long (mem : Nat → Nat) (off value : Nat) : Nat → Nat :=
  fun i => if off ≤ i ∧ i < off + 8 then (value >>> (8 * (i - off))) % 256 else mem i

/-- An inlined `KDDEBUGGER_DATA64` with `KernBase = 0xFFFFF80003748000` and
`MmPfnDatabase = 0xFFFFFA8000000000`, every other byte zero. -/
def kdbg_copy_example : Nat → Nat :=
  store_unsigned_long
    (store_unsigned_long (fun _ => 0) (offsetof "KernBase") 0xFFFFF80003748000)
    (offsetof "MmPfnDatabase") 0xFFFFFA8000000000

/-- An instance whose Windows state holds `kdbg_copy_example` inline. -/
def vmi_inlined_example : vmi_instance :=
  { vmi_instance_zero with
    os_data := some { windows_instance_zero with kdbg := some kdbg_copy_example } }

/-- An instance without inlined block, `kdbg_va = 0xFFFFF80003931070`, whose
kernel memory holds `0xFFFFF800039DEC10` at `kdbg_va + 0x50` and nothing
else readable. -/
def vmi_in_memory_example : vmi_instance :=
  { vmi_instance_zero with
    os_data := some { windows_instance_zero with kdbg_va := 0xFFFFF80003931070 },
    vmi_read_64_va := fun va pid =>
      if va = 0xFFFFF800039310C0 ∧ pid = 0 then some 0xFFFFF800039DEC10 else none }

/-- Sample values for the enumerators of `win_ver_t`. -/
def win_ver_example : win_ver_t :=
  { VMI_OS_WINDOWS_UNKNOWN := 1, VMI_OS_WINDOWS_2000 := 0x0208,
    VMI_OS_WINDOWS_XP := 0x0290, VMI_OS_WINDOWS_2003 := 0x0318,
    VMI_OS_WINDOWS_VISTA := 0x0328, VMI_OS_WINDOWS_2008 := 0x0330,
    VMI_OS_WINDOWS_7 := 0x0340, VMI_OS_WINDOWS_8 := 0x0360, VMI_FAILURE_value := 1 }

/-- An instance with Windows state and no cached version whose physical memory
holds the 16-bit value `0x0340` at `0x1E9070 + 0x14`. -/
def vmi_version_example : vmi_instance :=
  { vmi_instance_zero with
    os_data := some windows_instance_zero,
    vmi_read_16_pa := fun pa => if pa = 0x1E9084 then some 0x0340 else none }

/-- A live IA-32e guest with `GS_BASE = 0xFFFFF80003A3E000`, `CR3 = 0x187000`,
`kpcr_offset = 0x2F6000`, `kdbg_offset = 0x1E9070`, whose kernel base
`0xFFFFF80003748000` is mapped at physical address `0x1E00000`. -/
def vmi_instant_example : vmi_instance :=
  { vmi_instance_zero with
    os_data := some { windows_instance_zero with
      kdbg_offset := 0x1E9070, kpcr_offset := 0x2F6000 },
    mode := vmi_mode_t.VMI_XEN,
    page_mode := page_mode_t.VMI_PM_IA32E,
    size := 0x40000000,
    driver_get_vcpureg := fun reg vcpu =>
      if vcpu = 0 then
        match reg with
        | registers_t.CR3 => some 0x187000
        | registers_t.GS_BASE => some 0xFFFFF80003A3E000
        | registers_t.FS_BASE => none
      else none,
    vmi_pagetable_lookup := fun dtb va =>
      if dtb = 0x187000 ∧ va = 0xFFFFF80003748000 then 0x1E00000 else 0 }

/-- As `vmi_instant_example`, without a configured `kpcr_offset`. -/
def vmi_instant_no_kpcr : vmi_instance :=
  { vmi_instant_example with
    os_data := some { windows_instance_zero with kdbg_offset := 0x1E9070 } }

/-- Whether `pattern` stands at index `i` of `haystack`. -/
def pattern_at (haystack : Nat → Nat) : List Nat → Nat → Bool
  | [], _ => true
  | p :: ps, i => p == haystack i && pattern_at haystack ps (i + 1)

/-- A signature search for the examples: the first index `i` with
`i + pattern.length ≤ len` at which `pattern` stands, or -1.  `n` counts the
indices still to be tried, starting at `i`. -/
def first_occurrence (pattern : List Nat) (haystack : Nat → Nat) : Nat → Nat → Int
  | 0, _ => -1
  | n + 1, i =>
    if pattern_at haystack pattern i then (i : Int)
    else first_occurrence pattern haystack n (i + 1)

/-- The signature search used by the example instances. -/
def naive_search (pattern : List Nat) (haystack : Nat → Nat) (len : Nat) : Int :=
  first_occurrence pattern haystack (len + 1 - pattern.length) 0

/-- Physical memory holding a debugger block at `0x1070`: the upper half of
`Header.List[1]` is `0xFFFFF800`, `OwnerTag` is `KDBG`, `Size` is `0x340` and
`KernBase` is `0xFFFFF80003748000`; every other byte is 0. -/
def kdbg_block_memory : Nat → Nat :=
  store_unsigned_long
    (store_unsigned_long
      (store_unsigned_long (fun _ => 0) 0x1078 0xFFFFF80000000000)
      0x1080 0x000003404742444B)
    0x1088 0xFFFFF80003748000

/-- A file image of three pages over `kdbg_block_memory` whose page 0 cannot be
read. -/
def vmi_slow_example : vmi_instance :=
  { vmi_instance_zero with
    size := 0x3000,
    vmi_read_pa := fun paddr count =>
      if paddr = 0 then (0, fun _ => 0) else (count, fun i => kdbg_block_memory (paddr + i)),
    boyer_moore2 := naive_search }

/-- A live IA-32e guest over `kdbg_block_memory` with one mapped kernel page,
`0xFFFFF80003931000`, at physical address `0x1000`. -/
def vmi_fast_example : vmi_instance :=
  { vmi_instance_zero with
    mode := vmi_mode_t.VMI_XEN,
    page_mode := page_mode_t.VMI_PM_IA32E,
    size := 0x3000,
    driver_get_vcpureg := fun reg vcpu =>
      if reg = registers_t.CR3 ∧ vcpu = 0 then some 0x187000 else none,
    vmi_get_va_pages := fun _ => [{ va := 0xFFFFF80003931000, size := 0x1000 }],
    vmi_pagetable_lookup := fun _ va => if va = 0xFFFFF80003931000 then 0x1000 else 0,
    vmi_read_pa := fun paddr count => (count, fun i => kdbg_block_memory (paddr + i)),
    vmi_read_addr_pa := fun paddr => some (load_unsigned_long kdbg_block_memory paddr),
    boyer_moore2 := naive_search }

/-- The fields of an `init_kdbg` outcome that can be compared: the status, the
strategies invoked and `(ntoskrnl, ntoskrnl_va, kdbg_offset, kdbg_va,
version)` of the Windows state. -/
def init_kdbg_summary (r : Option init_kdbg_result) :
    Option (status_t × List kdbg_strategy × Option (Nat × Nat × Nat × Nat × Nat)) :=
  r.map (fun x => (x.ret, x.invoked,
    x.os_data.map (fun w => (w.ntoskrnl, w.ntoskrnl_va, w.kdbg_offset, w.kdbg_va, w.version))))

/-- The file image `vmi_slow_example` with an unconfigured Windows state, the
`Size` magic `0x0340` readable at `0x1084`, and `get_ntoskrnl_base` giving
`base`. -/
def vmi_search_example (base : Nat) : vmi_instance :=
  { vmi_slow_example with
    os_data := some windows_instance_zero,
    vmi_read_16_pa := fun pa => if pa = 0x1084 then some 0x0340 else none,
    get_ntoskrnl_base := fun _ => base }

/-- The file image `vmi_slow_example` with an unconfigured Windows state and no
readable version magic. -/
def vmi_search_unknown_example : vmi_instance :=
  { vmi_slow_example with os_data := some windows_instance_zero }

/-- A configured instance: `kdbg_va = 0xFFFFF80003931070`, `ntoskrnl =
0x1E00000` and `kdbg_offset = 0x1000` are pre-set, and kernel memory holds
`KernBase = 0xFFFFF80003748000` at `kdbg_va + 0x18`. -/
def vmi_config_example : vmi_instance :=
  { vmi_instance_zero with
    os_data := some { windows_instance_zero with
      kdbg_va := 0xFFFFF80003931070, ntoskrnl := 0x1E00000, kdbg_offset := 0x1000 },
    vmi_read_64_va := fun va pid =>
      if va = 0xFFFFF80003931088 ∧ pid = 0 then some 0xFFFFF80003748000 else none }

/-- A configured instance with `ntoskrnl = 0x1E00000` and `kdbg_offset =
0x1E9070` pre-set, whose physical memory holds `KernBase =
0xFFFFF80003748000` at `0x1FE9088` and whose kernel maps that address to
`0x1E00000`. -/
def vmi_ntoskrnl_example : vmi_instance :=
  { vmi_instance_zero with
    os_data := some { windows_instance_zero with
      ntoskrnl := 0x1E00000, kdbg_offset := 0x1E9070 },
    vmi_read_addr_pa := fun pa => if pa = 0x1FE9088 then some 0xFFFFF80003748000 else none,
    vmi_translate_kv2p := fun va => if va = 0xFFFFF80003748000 then 0x1E00000 else 0 }

/-- Guest memory of 16 MiB whose every 32-bit word is the section descriptor
`0xFFF00C02` (type `10`, bit 18 clear, section base `0xFFF00000`). -/
def arm_high_section_memory : vmi_instance :=
  { vmi_instance_zero with
    size := 0x1000000, page_mode := page_mode_t.VMI_PM_AARCH32,
    vmi_read_32_pa := fun _ => some 0xFFF00C02 }

/-- The flag values of LibVMI 0.11: access modes in bits 0 … 3, init modes in
bits 16 … 18, config sources in bits 24 … 27, `VMI_INVALID_DOMID = ~0`,
`CONFIG_STR_LENGTH = 1024`. -/
def vmi_flags_example : vmi_flags :=
  { VMI_AUTO := 0x1, VMI_XEN := 0x2, VMI_KVM := 0x4, VMI_FILE := 0x8,
    VMI_INIT_PARTIAL := 0x10000, VMI_INIT_COMPLETE := 0x20000, VMI_INIT_EVENTS := 0x40000,
    VMI_CONFIG_NONE := 0x1000000, VMI_CONFIG_GLOBAL_FILE_ENTRY := 0x2000000,
    VMI_CONFIG_STRING := 0x4000000, VMI_CONFIG_GHASHTABLE := 0x8000000,
    VMI_INVALID_DOMID := 18446744073709551615, CONFIG_STR_LENGTH := 1024 }

/-- A config map for a Windows guest named `win7`. -/
def vmi_config_windows_example : vmi_config :=
  { lookup_string := fun key =>
      if key = "ostype" then some "Windows"
      else if key = "name" then some "win7"
      else none,
    lookup_ulong := fun _ => none }

/-- A config map that holds both a name and the domain id 5. -/
def vmi_config_both_example : vmi_config :=
  { lookup_string := fun key => if key = "name" then some "win7" else none,
    lookup_ulong := fun key => if key = "domid" then some 5 else none }

/-- A config map without a name and without a domain id; its `ostype` is
`linux` in lower case and its `os_type` is `Linux`. -/
def vmi_config_neither_example : vmi_config :=
  { lookup_string := fun key =>
      if key = "ostype" then some "linux"
      else if key = "os_type" then some "Linux"
      else none,
    lookup_ulong := fun _ => none }

/-- An environment in which every driver call succeeds, the guest has 16 MiB
of memory, domain 7 is called `win7`, the only config file is
`/etc/libvmi.conf`, the parser accepts every stream and leaves the Windows
config map, and `windows_init` succeeds while `linux_init` fails. -/
def core_env_example : core_env :=
  { driver_init_mode := fun _ _ _ => some vmi_mode_t.VMI_FILE,
    driver_get_id_from_name := fun _ _ => 7,
    driver_check_id := fun _ _ => VMI_SUCCESS,
    driver_get_name_from_id := fun _ _ => some "win7",
    driver_init := fun _ => VMI_SUCCESS,
    driver_get_memsize := fun _ => some 0x1000000,
    arch_init := fun _ => some (page_mode_t.VMI_PM_AARCH32, none),
    getenv := fun _ => none,
    getpwnam := fun _ => none,
    fopen := fun path => if path = "/etc/libvmi.conf" then some "win7" else none,
    vmi_parse_config := fun _ input => if input = none then -1 else 0,
    vmi_get_config := fun _ _ => some vmi_config_windows_example,
    linux_init := fun vmi => (VMI_FAILURE, vmi),
    windows_init := fun vmi => (VMI_SUCCESS, { vmi with os_data := some windows_instance_zero }),
    events_init := fun vmi => vmi,
    primitives := vmi_instance_zero }

/-- The values of the enumerators of `status_t` in LibVMI 0.11, where the type
is `enum status { VMI_SUCCESS, VMI_FAILURE }`. -/
def status_values_example : status_values :=
  { VMI_SUCCESS_value := 0, VMI_FAILURE_value := 1 }

/-- A symbol map of one row whose second token is the longer name
`"KernBaseX":`. -/
def sysmap_content_example : String := "0 \"KernBaseX\": 5\n"

/-- A file system whose only readable file is `/boot/win7.sysmap`. -/
def sysmap_fopen_example (path : String) : Option String :=
  if path = "/boot/win7.sysmap" then some sysmap_content_example else none

/-- A Windows instance configured with the symbol map `/boot/win7.sysmap`. -/
def vmi_sysmap_example : vmi_instance :=
  { vmi_instance_zero with
    os_data := some { windows_instance_zero with sysmap := some "/boot/win7.sysmap" } }

/-- Guest memory with a first-level table at `0x4000` whose entry 0 is the
fine-table descriptor `0x00080003`, and the second-level descriptor
`0x12340001` (low bits `01`) at `0x80007`, the address that
`get_fine_second_level_descriptor` computes for `vaddr = 0x1234`. -/
def arm_fine_memory : vmi_instance :=
  { vmi_instance_zero with
    vmi_read_32_pa := fun a =>
      if a = 0x4000 then some 0x00080003
      else if a = 0x80007 then some 0x12340001 else none }

/-- A page buffer that starts with the 64-bit signature (so the search matches
at offset 0) and is zero elsewhere; `outside` is the byte found at index
`0x10000000C`, far behind the 4096 bytes of the buffer. -/
def haystack_signature_at_start (outside : Nat) : Nat → Nat :=
  fun i =>
    if i < 8 then kdbg_signature_64.getD i 0
    else if i = 0x10000000C then outside
    else 0

/-- A live 64-bit guest with 12 KiB of memory whose KPCR translates to the
physical address `0x3123`, the page at the end of memory; no page holds a
kernel image. -/
def vmi_faster_example : vmi_instance :=
  { vmi_instance_zero with
    mode := vmi_mode_t.VMI_XEN,
    page_mode := page_mode_t.VMI_PM_IA32E,
    size := 0x3000,
    driver_get_vcpureg := fun _ _ => some 0x187000,
    vmi_pagetable_lookup := fun _ _ => 0x3123 }

/-- A section buffer of a kernel image loaded at `0x3000`: the tag `KDBG` at
offset `0x10` and a `KernBase` of `0xFFFFF80000003000` at offset `0x18`. -/
def faster_haystack_example : Nat → Nat :=
  store_unsigned_long (store_unsigned_long (fun _ => 0) 0x10 0x000003404742444B)
    0x18 0xFFFFF80000003000

/-- A live 64-bit guest with 20 KiB of memory whose KPCR translates to the
physical address `0x2123`; the page at `0x3000` holds the kernel image, with a
`.data` section of `0x100` bytes at offset `0x1000`. -/
def vmi_faster_found_example : vmi_instance :=
  { vmi_instance_zero with
    mode := vmi_mode_t.VMI_XEN,
    page_mode := page_mode_t.VMI_PM_IA32E,
    size := 0x5000,
    driver_get_vcpureg := fun _ _ => some 0x187000,
    vmi_pagetable_lookup := fun _ _ => 0x2123,
    boyer_moore2 := naive_search,
    faster_data_section := fun page_paddr =>
      if page_paddr = 0x3000 then some (0x1000, faster_haystack_example, 0x100) else none }

/-- As `vmi_instant_example`, with a driver that reads `CR3` of VCPU 0 and no
other register, and a page table that translates every address to
`0x1E00000`. -/
def vmi_instant_unreadable_example : vmi_instance :=
  { vmi_instant_example with
    driver_get_vcpureg := fun reg vcpu =>
      if vcpu = 0 then
        match reg with
        | registers_t.CR3 => some 0x187000
        | registers_t.GS_BASE => none
        | registers_t.FS_BASE => none
      else none,
    vmi_pagetable_lookup := fun _ _ => 0x1E00000 }

/-! ## Auxiliary lemmas -/

theorem to_u32_and_mask (x m : Nat) (hm : m < 4294967296) : to_u32 x &&& m = x &&& m := by
  apply Nat.eq_of_testBit_eq
  intro i
  have h32 : (4294967296 : Nat) = 2 ^ 32 := by norm_num
  simp only [to_u32, Nat.testBit_and, h32, Nat.testBit_mod_two_pow]
  by_cases hi : i < 32
  · simp [hi]
  · have hlt : m < 2 ^ i := by
      have : (2 : Nat) ^ 32 ≤ 2 ^ i := Nat.pow_le_pow_right (by norm_num) (by omega)
      omega
    simp [Nat.testBit_lt_two_pow hlt]

theorem to_u32_of_lt (x : Nat) (h : x < 4294967296) : to_u32 x = x :=
  Nat.mod_eq_of_lt h

theorem get_first_level_descriptor_paddr (vmi : vmi_instance) (dtb vaddr : Nat)
    (info : page_info) :
    (get_first_level_descriptor vmi dtb vaddr info).paddr = info.paddr := by
  unfold get_first_level_descriptor
  dsimp only
  split <;> rfl

theorem get_first_level_descriptor_size (vmi : vmi_instance) (dtb vaddr : Nat)
    (info : page_info) :
    (get_first_level_descriptor vmi dtb vaddr info).size = info.size := by
  unfold get_first_level_descriptor
  dsimp only
  split <;> rfl

/-! ## The ARM walker -/

/-- C1: ARM section translation. When the 32-bit read of the first-level
descriptor (at `(dtb & 0xFFFFE000) | ((vaddr >> 20) << 2)`) succeeds with a
value `l1_v` whose low two bits are `10` and whose bit 18 is 0, `v2p_arm`
returns `(l1_v & 0xFFF00000) | (vaddr & 0x000FFFFF)`, stores it in
`info.paddr`, and sets `info.size` to 1 MiB. -/
theorem v2p_arm_section_translation (vmi : vmi_instance) (dtb vaddr : Nat)
    (info : page_info) (l1_v : Nat)
    (hread : vmi.vmi_read_32_pa
      (get_bits_31to14 dtb ||| to_u32 (first_level_table_index vaddr <<< 2)) = some l1_v)
    (h32 : l1_v < 4294967296) (htype : l1_v &&& 3 = 2) (hbit : l1_v &&& 0x40000 = 0) :
    (v2p_arm vmi dtb vaddr info).1 = (l1_v &&& 0xFFF00000) ||| (vaddr &&& 0x000FFFFF) ∧
    (v2p_arm vmi dtb vaddr info).2.paddr
      = (l1_v &&& 0xFFF00000) ||| (vaddr &&& 0x000FFFFF) ∧
    (v2p_arm vmi dtb vaddr info).2.size = 0x100000 := by
  have hv : to_u32 l1_v = l1_v := to_u32_of_lt l1_v h32
  have hb : VMI_GET_BIT l1_v 18 = 0 := by
    unfold VMI_GET_BIT
    rw [show (1 <<< 18 : Nat) = 0x40000 by decide, if_pos hbit]
  have hsec : ∀ i : page_info, i.l1_v = l1_v →
      (v2p_arm_section vaddr i).paddr = (l1_v &&& 0xFFF00000) ||| (vaddr &&& 0x000FFFFF) ∧
      (v2p_arm_section vaddr i).size = 0x100000 := by
    intro i hi
    unfold v2p_arm_section
    rw [hi, hb]
    simp only [get_bits_31to20, get_bits_19to0, VMI_PS_1MB]
    rw [to_u32_and_mask l1_v _ (by norm_num), to_u32_and_mask vaddr _ (by norm_num)]
    simp
  unfold v2p_arm get_first_level_descriptor
  simp only [hread, hv, htype]
  simp only [show ¬ ((2 : Nat) = 1) by decide, if_false, if_true]
  have hfin := hsec
    { info with
      l1_a := get_bits_31to14 dtb ||| to_u32 (first_level_table_index vaddr <<< 2),
      l1_v := l1_v } rfl
  exact ⟨hfin.1, hfin.1, hfin.2⟩

set_option maxRecDepth 10000 in
/-- Witness for C1: with the descriptor `0x00C11C02` and `vaddr = 0xC0001234`
the walker returns `0x00C01234` with a 1 MiB page. -/
theorem v2p_arm_section_translation_witness :
    (v2p_arm arm_section_memory 0 0xC0001234 page_info_zero).1 = 0x00C01234 ∧
    (v2p_arm arm_section_memory 0 0xC0001234 page_info_zero).2.size = 0x100000 := by
  have h := v2p_arm_section_translation arm_section_memory 0 0xC0001234 page_info_zero
    0x00C11C02 rfl (by decide) (by decide) (by decide)
  exact ⟨h.1.trans (by decide), h.2.2⟩

set_option maxRecDepth 10000 in
/-- C2: on the coarse path the leaf computed from the second-level descriptor
does not survive. With first-level descriptor `0x00080001` (type `01`) and
small-page descriptor `0x12340002`, `v2p_arm` at `vaddr = 0x1234` returns
`0x1234` with size 1 MiB, not `(l2_v & 0xFFFFF000) | (vaddr & 0xFFF) =
0x12340234` with size 4 KiB; with large-page descriptor `0x12340001` it also
returns `0x1234` with size 1 MiB, not `0x12341234` with size 64 KiB. -/
theorem v2p_arm_coarse_leaf_overwritten :
    (v2p_arm arm_coarse_small_memory 0x4000 0x1234 page_info_zero).1 = 0x1234 ∧
    (v2p_arm arm_coarse_small_memory 0x4000 0x1234 page_info_zero).2.size = 0x100000 ∧
    (v2p_arm arm_coarse_small_memory 0x4000 0x1234 page_info_zero).2.l1_v = 0x00080001 ∧
    (v2p_arm arm_coarse_small_memory 0x4000 0x1234 page_info_zero).2.l2_v = 0x12340002 ∧
    (0x12340002 &&& 0xFFFFF000) ||| (0x1234 &&& 0xFFF) = 0x12340234 ∧
    (v2p_arm arm_coarse_large_memory 0x4000 0x1234 page_info_zero).1 = 0x1234 ∧
    (v2p_arm arm_coarse_large_memory 0x4000 0x1234 page_info_zero).2.size = 0x100000 ∧
    (v2p_arm arm_coarse_large_memory 0x4000 0x1234 page_info_zero).2.l2_v = 0x12340001 ∧
    (0x12340001 &&& 0xFFFF0000) ||| (0x1234 &&& 0xFFFF) = 0x12341234 := by
  decide

set_option maxRecDepth 10000 in
/-- C3: for a supersection the walker sets only the size. With first-level
descriptor `0x12040002` (type `10`, bit 18 set) and a zero-initialised
`page_info_t`, `v2p_arm` at `vaddr = 0x00ABCDEF` sets `info.size` to 16 MiB and
returns 0, whose low 24 bits are not those of `vaddr`. -/
theorem v2p_arm_supersection_no_paddr :
    (v2p_arm arm_supersection_memory 0 0x00ABCDEF page_info_zero).2.l1_v = 0x12040002 ∧
    (v2p_arm arm_supersection_memory 0 0x00ABCDEF page_info_zero).2.size = 0x1000000 ∧
    (v2p_arm arm_supersection_memory 0 0x00ABCDEF page_info_zero).1 = 0 ∧
    (v2p_arm arm_supersection_memory 0 0x00ABCDEF page_info_zero).1 &&& 0xFFFFFF
      ≠ 0x00ABCDEF &&& 0xFFFFFF := by
  decide

/-- C4: ARM first-level fault. When the first-level descriptor held in
`info.l1_v` after `get_first_level_descriptor` has low two bits `00`, `v2p_arm`
leaves `info.paddr` and `info.size` as they were on entry and returns the
entry value of `info.paddr`; called on a zero-initialised `page_info_t` it
returns 0 and leaves the size 0. -/
theorem v2p_arm_first_level_fault (vmi : vmi_instance) (dtb vaddr : Nat) (info : page_info)
    (h : (get_first_level_descriptor vmi dtb vaddr info).l1_v &&& 3 = 0) :
    (v2p_arm vmi dtb vaddr info).2.paddr = info.paddr ∧
    (v2p_arm vmi dtb vaddr info).2.size = info.size ∧
    (v2p_arm vmi dtb vaddr info).1 = info.paddr ∧
    (info = page_info_zero →
      (v2p_arm vmi dtb vaddr info).1 = 0 ∧ (v2p_arm vmi dtb vaddr info).2.size = 0) := by
  have hp := get_first_level_descriptor_paddr vmi dtb vaddr info
  have hs := get_first_level_descriptor_size vmi dtb vaddr info
  have hr : (v2p_arm vmi dtb vaddr info).2 = get_first_level_descriptor vmi dtb vaddr info := by
    unfold v2p_arm
    simp [h]
  have h1 : (v2p_arm vmi dtb vaddr info).1 = (v2p_arm vmi dtb vaddr info).2.paddr := rfl
  refine ⟨by rw [hr, hp], by rw [hr, hs], by rw [h1, hr, hp], ?_⟩
  intro hz
  rw [h1, hr, hp, hs, hz]
  exact ⟨rfl, rfl⟩

set_option maxRecDepth 10000 in
/-- Witness for C4: the descriptor `0xFFFFFFFC` has type `00`; on a
zero-initialised `page_info_t` the walker returns 0 and sets no size. -/
theorem v2p_arm_first_level_fault_witness :
    (get_first_level_descriptor arm_fault_memory 0x4000 0xC0001234 page_info_zero).l1_v
      = 0xFFFFFFFC ∧
    (v2p_arm arm_fault_memory 0x4000 0xC0001234 page_info_zero).1 = 0 ∧
    (v2p_arm arm_fault_memory 0x4000 0xC0001234 page_info_zero).2.size = 0 :=
  ⟨by decide,
   (v2p_arm_first_level_fault arm_fault_memory 0x4000 0xC0001234 page_info_zero
      (by decide)).2.2.2 rfl⟩

set_option maxRecDepth 10000 in
/-- C5: page-offset preservation fails on the coarse path when bit 18 of the
first-level descriptor is set. With first-level descriptor `0x00040001` and
small-page descriptor `0x12340002`, `v2p_arm` on a zero-initialised
`page_info_t` at `vaddr = 0` returns the non-zero address `0x12340000` and
reports size 16 MiB, and `pa & (size − 1) = 0x340000` differs from
`vaddr & (size − 1) = 0`. -/
theorem v2p_arm_page_offset_not_preserved :
    (v2p_arm arm_coarse_bit18_memory 0 0 page_info_zero).1 = 0x12340000 ∧
    (v2p_arm arm_coarse_bit18_memory 0 0 page_info_zero).2.size = 0x1000000 ∧
    (v2p_arm arm_coarse_bit18_memory 0 0 page_info_zero).1
        &&& ((v2p_arm arm_coarse_bit18_memory 0 0 page_info_zero).2.size - 1) = 0x340000 ∧
    0 &&& ((v2p_arm arm_coarse_bit18_memory 0 0 page_info_zero).2.size - 1) = 0 := by
  decide

/-! ## The debugger block: symbol offsets -/

theorem strncmp_chars_eq_zero_iff (s lit : List Char) (n : Nat)
    (hn : lit.length < n) (hs : ∀ c ∈ s, c.toNat ≠ 0) (hl : ∀ c ∈ lit, c.toNat ≠ 0) :
    strncmp_chars s lit n = 0 ↔ s = lit := by
  induction s generalizing lit n with
  | nil =>
    cases n with
    | zero => omega
    | succ n =>
      cases lit with
      | nil => simp [strncmp_chars]
      | cons c2 r2 =>
        have h2 := hl c2 (by simp)
        simp [strncmp_chars]
        omega
  | cons c1 r1 ih =>
    cases n with
    | zero => omega
    | succ n =>
      cases lit with
      | nil =>
        have h1 := hs c1 (by simp)
        simp [strncmp_chars]
        omega
      | cons c2 r2 =>
        simp only [strncmp_chars]
        by_cases h : c1 = c2
        · subst h
          simp only [if_true, List.cons.injEq, true_and]
          apply ih
          · simp at hn; omega
          · intro c hc; exact hs c (by simp [hc])
          · intro c hc; exact hl c (by simp [hc])
        · simp only [h, if_false, List.cons.injEq, false_and, iff_false]
          intro hz
          apply h
          apply Char.ext
          apply UInt32.ext
          have hnat : c1.toNat = c2.toNat := by omega
          exact hnat

theorem strncmp_eq_zero_iff (symbol lit : String) (hs : c_string symbol)
    (hl : lit.length < max_symbol_length ∧ c_string lit) :
    strncmp symbol lit max_symbol_length = 0 ↔ symbol = lit := by
  unfold strncmp
  rw [strncmp_chars_eq_zero_iff symbol.data lit.data max_symbol_length hl.1 hs hl.2]
  constructor
  · intro h; exact String.ext h
  · intro h; rw [h]

set_option maxRecDepth 100000 in
theorem kdbg_field_names_ok :
    ∀ lit ∈ kdbg_field_names, lit.length < max_symbol_length ∧ c_string lit := by
  decide

theorem kdbg_symbol_offset_eq_chain (vmi : vmi_instance) (symbol : String) (offset : Nat) :
    kdbg_symbol_offset vmi symbol offset = kdbg_symbol_chain symbol offset kdbg_field_names :=
  rfl

theorem kdbg_symbol_chain_eq (symbol : String) (hs : c_string symbol) (offset : Nat)
    (names : List String)
    (hnames : ∀ lit ∈ names, lit.length < max_symbol_length ∧ c_string lit) :
    kdbg_symbol_chain symbol offset names =
      if symbol ∈ names then (VMI_SUCCESS, offsetof symbol) else (VMI_FAILURE, offset) := by
  induction names with
  | nil => simp [kdbg_symbol_chain]
  | cons lit rest ih =>
    have hlit := strncmp_eq_zero_iff symbol lit hs (hnames lit (by simp))
    have hrest := ih (fun l hl => hnames l (by simp [hl]))
    unfold kdbg_symbol_chain
    by_cases h : symbol = lit
    · rw [if_pos (hlit.mpr h), if_pos (by simp [h]), h]
    · rw [if_neg (fun hz => h (hlit.mp hz)), hrest]
      simp [h]

theorem kdbg_symbol_offset_eq (vmi : vmi_instance) (symbol : String) (hs : c_string symbol)
    (offset : Nat) :
    kdbg_symbol_offset vmi symbol offset =
      if symbol ∈ kdbg_field_names then (VMI_SUCCESS, offsetof symbol)
      else (VMI_FAILURE, offset) := by
  rw [kdbg_symbol_offset_eq_chain]
  exact kdbg_symbol_chain_eq symbol hs offset kdbg_field_names kdbg_field_names_ok

theorem offsetof_from_eq_sum (members : List (String × Nat)) (field : String) (acc : Nat)
    (hmem : field ∈ members.map Prod.fst) :
    offsetof_from members field acc
      = acc + ((members.takeWhile (fun m => m.1 ≠ field)).map Prod.snd).sum := by
  induction members generalizing acc with
  | nil => simp at hmem
  | cons m rest ih =>
    obtain ⟨name, size⟩ := m
    unfold offsetof_from
    by_cases h : name = field
    · simp [h]
    · have hrest : field ∈ rest.map Prod.fst := by
        simp only [List.map_cons, List.mem_cons] at hmem
        rcases hmem with hm | hm
        · exact absurd hm.symm h
        · exact hm
      rw [if_neg h, ih (acc + size) hrest]
      simp [List.takeWhile_cons, h]
      omega

set_option maxRecDepth 100000 in
theorem kdbg_field_names_members :
    ∀ lit ∈ kdbg_field_names, lit ∈ KDDEBUGGER_DATA64.map Prod.fst := by
  decide

set_option maxRecDepth 100000 in
theorem kdbg_field_names_in_bounds :
    ∀ lit ∈ kdbg_field_names, offsetof lit + 8 ≤ sizeof_KDDEBUGGER_DATA64 := by
  decide

set_option maxRecDepth 100000 in
/-- C6: packed KDBG offsets. For every C string that `kdbg_symbol_offset`
accepts, the offset it returns is the sum of the sizes of all members declared
before that member in `KDDEBUGGER_DATA64` (24-byte header, then members of 8
or 2 bytes, no padding), and the offset plus 8 is at most the struct size,
which is 794. In particular `KernBase` gives 0x18, `PsLoadedModuleList` 0x48,
`PsActiveProcessHead` 0x50, `MmVirtualTranslationBase` 0x290,
`KdPrintCircularBufferPtr` 0x2C2 and `VfCrashDataBlock` 0x312. -/
theorem kdbg_symbol_offset_packed (vmi : vmi_instance) (symbol : String)
    (hs : c_string symbol) (offset o : Nat)
    (h : kdbg_symbol_offset vmi symbol offset = (VMI_SUCCESS, o)) :
    o = packed_offset_spec symbol ∧
    o + 8 ≤ sizeof_KDDEBUGGER_DATA64 ∧
    sizeof_KDDEBUGGER_DATA64 = 794 ∧
    ((KDDEBUGGER_DATA64.take 3).map Prod.snd).sum = 24 ∧
    (∀ m ∈ KDDEBUGGER_DATA64.drop 3, m.2 = 8 ∨ m.2 = 2) ∧
    kdbg_symbol_offset vmi "KernBase" offset = (VMI_SUCCESS, 0x18) ∧
    kdbg_symbol_offset vmi "PsLoadedModuleList" offset = (VMI_SUCCESS, 0x48) ∧
    kdbg_symbol_offset vmi "PsActiveProcessHead" offset = (VMI_SUCCESS, 0x50) ∧
    kdbg_symbol_offset vmi "MmVirtualTranslationBase" offset = (VMI_SUCCESS, 0x290) ∧
    kdbg_symbol_offset vmi "KdPrintCircularBufferPtr" offset = (VMI_SUCCESS, 0x2C2) ∧
    kdbg_symbol_offset vmi "VfCrashDataBlock" offset = (VMI_SUCCESS, 0x312) := by
  rw [kdbg_symbol_offset_eq vmi symbol hs offset] at h
  have hmem : symbol ∈ kdbg_field_names := by
    by_contra hnot
    rw [if_neg hnot] at h
    exact absurd (congrArg Prod.fst h) (by simp)
  rw [if_pos hmem] at h
  have ho : offsetof symbol = o := congrArg Prod.snd h
  have hsum := offsetof_from_eq_sum KDDEBUGGER_DATA64 symbol 0
    (kdbg_field_names_members symbol hmem)
  have hbound := kdbg_field_names_in_bounds symbol hmem
  refine ⟨?_, ?_, by decide, by decide, by decide, ?_, ?_, ?_, ?_, ?_, ?_⟩
  · rw [← ho]
    unfold offsetof packed_offset_spec
    rw [hsum, Nat.zero_add]
  · rw [← ho]
    exact hbound
  all_goals
    rw [kdbg_symbol_offset_eq vmi _ (by decide) offset, if_pos (by decide)]
    exact congrArg (Prod.mk VMI_SUCCESS) (by decide)

set_option maxRecDepth 100000 in
/-- Witness for C6: `MmPfnDatabase` is accepted with offset 0xC0. -/
theorem kdbg_symbol_offset_packed_witness :
    kdbg_symbol_offset vmi_instance_zero "MmPfnDatabase" 0 = (VMI_SUCCESS, 0xC0) ∧
    0xC0 = packed_offset_spec "MmPfnDatabase" ∧
    0xC0 + 8 ≤ sizeof_KDDEBUGGER_DATA64 :=
  have h := kdbg_symbol_offset_packed vmi_instance_zero "MmPfnDatabase" (by decide) 0 0xC0
    (by decide)
  ⟨by decide, h.1, h.2.1⟩

set_option maxRecDepth 100000 in
/-- C7: with an inlined copy the lookup does not return the member called
`name`. On a copy with `KernBase = 0xFFFFF80003748000` and
`MmPfnDatabase = 0xFFFFFA8000000000`, `windows_kdbg_lookup("KernBase")` succeeds
with `0xFFFFFA8000000000`: the 8 bytes at byte offset `8 * 0x18 = 0xC0` (the
member `MmPfnDatabase`), not the 8 bytes at byte offset `0x18`. -/
theorem windows_kdbg_lookup_inlined_wrong_member :
    kdbg_symbol_offset vmi_inlined_example "KernBase" 0 = (VMI_SUCCESS, 0x18) ∧
    windows_kdbg_lookup vmi_inlined_example "KernBase" 0
      = (VMI_SUCCESS, 0xFFFFFA8000000000) ∧
    kdbg_field kdbg_copy_example "KernBase" = 0xFFFFF80003748000 ∧
    kdbg_field kdbg_copy_example "MmPfnDatabase" = 0xFFFFFA8000000000 ∧
    offsetof "MmPfnDatabase" = 8 * 0x18 := by
  decide

/-- C8: in-memory debugger block lookup. When no inlined copy is present, for
every name accepted by `kdbg_symbol_offset` with offset `o`, if the 8-byte read
at kernel virtual address `kdbg_va + o` (mod 2^64, pid 0) succeeds,
`windows_kdbg_lookup` succeeds with the value read; it returns failure exactly
when the name is not accepted, `os_data` is `NULL` or that read fails, and on
every failure `*address` is left unchanged. -/
theorem windows_kdbg_lookup_in_memory (vmi : vmi_instance) (symbol : String)
    (address : Nat) (hk : ∀ w, vmi.os_data = some w → w.kdbg = none) :
    (∀ w o v, vmi.os_data = some w →
      kdbg_symbol_offset vmi symbol 0 = (VMI_SUCCESS, o) →
      vmi.vmi_read_64_va (to_u64 (w.kdbg_va + o)) 0 = some v →
      windows_kdbg_lookup vmi symbol address = (VMI_SUCCESS, to_u64 v)) ∧
    ((windows_kdbg_lookup vmi symbol address).1 = VMI_FAILURE ↔
      ((kdbg_symbol_offset vmi symbol 0).1 = VMI_FAILURE ∨ vmi.os_data = none ∨
        ∃ w, vmi.os_data = some w ∧
          vmi.vmi_read_64_va
            (to_u64 (w.kdbg_va + (kdbg_symbol_offset vmi symbol 0).2)) 0 = none)) ∧
    ((windows_kdbg_lookup vmi symbol address).1 = VMI_FAILURE →
      (windows_kdbg_lookup vmi symbol address).2 = address) := by
  unfold windows_kdbg_lookup kdbg_symbol_resolve
  rcases hoff : kdbg_symbol_offset vmi symbol 0 with ⟨st, o⟩
  cases st with
  | VMI_FAILURE => simp
  | VMI_SUCCESS =>
    cases hos : vmi.os_data with
    | none => simp
    | some w =>
      have hkw : w.kdbg = none := hk w hos
      cases hrd : vmi.vmi_read_64_va (to_u64 (w.kdbg_va + o)) 0 with
      | none =>
        simp [hkw, hrd]
        intro w1 o1 v1 hw ho
        subst hw
        subst ho
        simp [hrd]
      | some v =>
        simp [hkw, hrd]
        intro w1 o1 v1 hw ho hv
        subst hw
        subst ho
        rw [hrd] at hv
        cases hv
        rfl

set_option maxRecDepth 100000 in
/-- Witness for C8: with `kdbg_va = 0xFFFFF80003931070`, looking up
`PsActiveProcessHead` returns the value stored at `kdbg_va + 0x50`. -/
theorem windows_kdbg_lookup_in_memory_witness :
    windows_kdbg_lookup vmi_in_memory_example "PsActiveProcessHead" 7
      = (VMI_SUCCESS, 0xFFFFF800039DEC10) :=
  (windows_kdbg_lookup_in_memory vmi_in_memory_example "PsActiveProcessHead" 7
    (fun w hw => by cases hw; rfl)).1
    { windows_instance_zero with kdbg_va := 0xFFFFF80003931070 } 0x50 0xFFFFF800039DEC10
    rfl (by decide) (by decide)

/-- C9: unknown KDBG symbols are rejected. For every C string,
`kdbg_symbol_offset` returns success exactly when the string is one of the 85
names of the 8-byte members `KernBase … VfCrashDataBlock` that follow the header
of `KDDEBUGGER_DATA64`; for every other string it returns failure and leaves
`*offset` unchanged. The empty string, `KernBas`, `KernBaseX`, `kernbase`, the
header names and the 2-byte members `PaeEnabled` and `SizeEProcess` are
rejected. -/
theorem kdbg_symbol_offset_accepts_exactly (vmi : vmi_instance) (symbol : String)
    (hs : c_string symbol) (offset : Nat) :
    ((kdbg_symbol_offset vmi symbol offset).1 = VMI_SUCCESS ↔ symbol ∈ kdbg_field_names) ∧
    (symbol ∉ kdbg_field_names →
      kdbg_symbol_offset vmi symbol offset = (VMI_FAILURE, offset)) ∧
    kdbg_field_names.length = 85 ∧
    kdbg_field_names
      = ((KDDEBUGGER_DATA64.drop 3).filter (fun m => m.2 = 8)).map Prod.fst ∧
    (∀ s ∈ ["", "KernBas", "KernBaseX", "kernbase", "Header", "List", "OwnerTag", "Size",
        "PaeEnabled", "SizeEProcess"],
      kdbg_symbol_offset vmi s offset = (VMI_FAILURE, offset)) := by
  have heq := kdbg_symbol_offset_eq vmi symbol hs offset
  refine ⟨?_, ?_, by decide, by decide, ?_⟩
  · by_cases hmem : symbol ∈ kdbg_field_names
    · rw [heq, if_pos hmem]; simp [hmem]
    · rw [heq, if_neg hmem]; simp [hmem]
  · intro hmem
    rw [heq, if_neg hmem]
  · intro s hs_mem
    have hok : c_string s ∧ s ∉ kdbg_field_names := by
      revert s
      decide
    rw [kdbg_symbol_offset_eq vmi s hok.1 offset, if_neg hok.2]

set_option maxRecDepth 100000 in
/-- Witness for C9: `PaeEnabled`, a 2-byte member, is rejected and the offset
argument keeps its value. -/
theorem kdbg_symbol_offset_accepts_exactly_witness :
    c_string "PaeEnabled" ∧
    kdbg_symbol_offset vmi_instance_zero "PaeEnabled" 7 = (VMI_FAILURE, 7) :=
  ⟨by decide,
   (kdbg_symbol_offset_accepts_exactly vmi_instance_zero "PaeEnabled" (by decide) 7).2.1
     (by decide)⟩

/-! ## Windows version detection -/

/-- C10: Windows version detection. When `os_data` is set and no version is
cached (the cached version is 0 or unknown), `find_windows_version(kdbg)`
returns the 16-bit value read at physical address `kdbg + 0x14` if that value
is one of the seven known magics, and `VMI_OS_WINDOWS_UNKNOWN` for every other
value and when the read fails; its result is always unknown or one of the seven
magics. The enumerator `VMI_OS_WINDOWS_UNKNOWN` is taken to fit in 16 bits. -/
theorem find_windows_version_result (e : win_ver_t) (vmi : vmi_instance) (kdbg : Nat)
    (w : windows_instance) (hos : vmi.os_data = some w)
    (hcache : w.version = 0 ∨ w.version = e.VMI_OS_WINDOWS_UNKNOWN)
    (hunk : e.VMI_OS_WINDOWS_UNKNOWN < 65536) :
    (∀ v, vmi.vmi_read_16_pa (to_u64 (kdbg + 0x14)) = some v → v < 65536 →
      known_magic e v → find_windows_version e vmi kdbg = v) ∧
    (∀ v, vmi.vmi_read_16_pa (to_u64 (kdbg + 0x14)) = some v → v < 65536 →
      ¬ known_magic e v → find_windows_version e vmi kdbg = e.VMI_OS_WINDOWS_UNKNOWN) ∧
    (vmi.vmi_read_16_pa (to_u64 (kdbg + 0x14)) = none →
      find_windows_version e vmi kdbg = e.VMI_OS_WINDOWS_UNKNOWN) ∧
    (find_windows_version e vmi kdbg = e.VMI_OS_WINDOWS_UNKNOWN ∨
      known_magic e (find_windows_version e vmi kdbg)) := by
  have hnc : ¬ (w.version ≠ 0 ∧ w.version ≠ e.VMI_OS_WINDOWS_UNKNOWN) := by
    rcases hcache with h | h
    · exact fun hc => hc.1 h
    · exact fun hc => hc.2 h
  have hstore : ∀ v, v < 65536 → store_uint16 e.VMI_OS_WINDOWS_UNKNOWN v = v := by
    intro v hv
    unfold store_uint16
    rw [Nat.div_eq_of_lt hunk, Nat.mod_eq_of_lt hv]
    omega
  unfold find_windows_version
  simp only [hos, if_neg hnc]
  refine ⟨?_, ?_, ?_, ?_⟩
  · intro v hv hlt hm
    simp only [hv, hstore v hlt, if_pos hm]
  · intro v hv hlt hm
    simp only [hv, hstore v hlt, if_neg hm]
  · intro hv
    simp only [hv]
    split <;> rfl
  · split
    · next hm => exact Or.inr hm
    · exact Or.inl rfl

set_option maxRecDepth 100000 in
/-- Witness for C10: the value `0x0340` at `kdbg + 0x14` is returned as the
version. -/
theorem find_windows_version_result_witness :
    find_windows_version win_ver_example vmi_version_example 0x1E9070 = 0x0340 :=
  (find_windows_version_result win_ver_example vmi_version_example 0x1E9070
    windows_instance_zero rfl (Or.inl rfl) (by decide)).1 0x0340 (by decide) (by decide)
    (by decide)

/-! ## Locating the debugger block -/

theorem to_unsigned_int_natCast (m : Nat) (h : m < 4294967296) :
    to_unsigned_int (m : Int) = m := by
  unfold to_unsigned_int
  omega

theorem kdbg_symbol_offset_KernBase (vmi : vmi_instance) (offset : Nat) :
    kdbg_symbol_offset vmi "KernBase" offset = (VMI_SUCCESS, 0x18) := by
  rw [kdbg_symbol_offset_eq vmi _ (by decide) offset, if_pos (by decide)]
  exact congrArg (Prod.mk VMI_SUCCESS) (by decide)

theorem find_kdbg_address_page_none (vmi : vmi_instance) (paddr : Nat) (haystack : Nat → Nat)
    (h64 : vmi.boyer_moore2 kdbg_signature_64 haystack VMI_PS_4KB = -1)
    (h32 : vmi.boyer_moore2 kdbg_signature_32 haystack VMI_PS_4KB = -1) :
    find_kdbg_address_page vmi paddr haystack = none := by
  unfold find_kdbg_address_page
  simp [h64, h32]

theorem find_kdbg_address_page_some (vmi : vmi_instance) (paddr : Nat) (haystack : Nat → Nat)
    (m f : Nat)
    (hmatch :
      (vmi.boyer_moore2 kdbg_signature_64 haystack VMI_PS_4KB = (m : Int) ∧ f = 0xC) ∨
      (vmi.boyer_moore2 kdbg_signature_64 haystack VMI_PS_4KB = -1 ∧
        vmi.boyer_moore2 kdbg_signature_32 haystack VMI_PS_4KB = (m : Int) ∧ f = 0x8))
    (hf : f ≤ m) (hm : m < 4294967296) (hp : paddr + m < 18446744073709551616) :
    find_kdbg_address_page vmi paddr haystack
      = some (paddr + m - f, load_uint64 haystack (m - f + 0x18)) := by
  have hne : (m : Int) ≠ -1 := by omega
  have hcast := to_unsigned_int_natCast m hm
  unfold find_kdbg_address_page
  rcases hmatch with ⟨h64, hfa⟩ | ⟨h64, h32, hfa⟩
  · subst hfa
    simp only [h64, hne, ne_eq, not_false_eq_true, if_true, hcast,
      kdbg_symbol_offset_KernBase, show ¬ ((12 : Nat) = 0) by decide, if_false]
    have h1 : sub_u32 m 12 = m - 12 := by unfold sub_u32; omega
    have h2 : to_u64 (m - 12 + 24) = m - 12 + 24 := by unfold to_u64; omega
    have h3 : sub_u64 (to_u64 (paddr + m)) 12 = paddr + m - 12 := by
      unfold sub_u64 to_u64; omega
    rw [h1, h2, h3]
  · subst hfa
    simp only [h64, h32, hne, ne_eq, not_true_eq_false, not_false_eq_true, if_true, if_false,
      hcast, kdbg_symbol_offset_KernBase]
    have h1 : sub_u32 m 8 = m - 8 := by unfold sub_u32; omega
    have h2 : to_u64 (m - 8 + 24) = m - 8 + 24 := by unfold to_u64; omega
    have h3 : sub_u64 (to_u64 (paddr + m)) 8 = paddr + m - 8 := by
      unfold sub_u64 to_u64; omega
    rw [h1, h2, h3]

theorem find_kdbg_address_loop_first_match (vmi : vmi_instance) (k : Nat) (res : Nat × Nat)
    (hsize : VMI_PS_4KB * k < vmi_get_memsize vmi)
    (hmem : vmi_get_memsize vmi ≤ 18446744073709551616)
    (hskip : ∀ j < k,
      VMI_PS_4KB ≠ (vmi.vmi_read_pa (VMI_PS_4KB * j) VMI_PS_4KB).1 ∨
      find_kdbg_address_page vmi (VMI_PS_4KB * j)
        (vmi.vmi_read_pa (VMI_PS_4KB * j) VMI_PS_4KB).2 = none)
    (hread : (vmi.vmi_read_pa (VMI_PS_4KB * k) VMI_PS_4KB).1 = VMI_PS_4KB)
    (hpage : find_kdbg_address_page vmi (VMI_PS_4KB * k)
        (vmi.vmi_read_pa (VMI_PS_4KB * k) VMI_PS_4KB).2 = some res) :
    ∀ (d j fuel : Nat) (acc : status_t × Nat × Nat), j + d = k → d < fuel →
      find_kdbg_address_loop vmi fuel (VMI_PS_4KB * j) acc
        = some (VMI_SUCCESS, res.1, res.2) := by
  intro d
  induction d with
  | zero =>
    intro j fuel acc hj hfuel
    have hjk : j = k := by omega
    subst hjk
    obtain ⟨fuel1, rfl⟩ : ∃ n, fuel = n + 1 := ⟨fuel - 1, by omega⟩
    obtain ⟨ret, kp, kv⟩ := acc
    unfold find_kdbg_address_loop
    simp only [if_pos hsize, hread, ne_eq, not_true_eq_false, if_false, hpage]
  | succ d ih =>
    intro j fuel acc hj hfuel
    obtain ⟨fuel1, rfl⟩ : ∃ n, fuel = n + 1 := ⟨fuel - 1, by omega⟩
    obtain ⟨ret, kp, kv⟩ := acc
    have hjlt : j < k := by omega
    have hlt : VMI_PS_4KB * j < vmi_get_memsize vmi := by
      have : VMI_PS_4KB * j ≤ VMI_PS_4KB * k := Nat.mul_le_mul_left _ (by omega)
      omega
    have hnext : to_u64 (VMI_PS_4KB * j + VMI_PS_4KB) = VMI_PS_4KB * (j + 1) := by
      have : VMI_PS_4KB * (j + 1) ≤ VMI_PS_4KB * k := Nat.mul_le_mul_left _ (by omega)
      unfold to_u64
      rw [Nat.mul_add, Nat.mul_one] at *
      omega
    have hrec := ih (j + 1) fuel1 (ret, kp, kv) (by omega) (by omega)
    unfold find_kdbg_address_loop
    simp only [if_pos hlt, hnext]
    rcases hskip j hjlt with hs | hs
    · rw [if_pos hs]; exact hrec
    · by_cases hlen : VMI_PS_4KB ≠ (vmi.vmi_read_pa (VMI_PS_4KB * j) VMI_PS_4KB).1
      · rw [if_pos hlen]; exact hrec
      · rw [if_neg hlen, hs]; exact hrec

set_option maxRecDepth 100000 in
/-- C17: slow strategy result. `find_kdbg_address` scans the pages at 0, 4096,
8192, … below the memory size; when the pages before page `k` are not fully
readable or match neither signature, page `k` at `P = 4096 * k` is fully read
and the search reports a match at offset `m` (of the IA-32e signature, then
`f = 0xC`, or of the legacy signature only, then `f = 0x8`) with the block
lying inside the page, it returns success with `kdbg_pa = P + m - f` and
`kernel_va` the little-endian 8-byte value at page offset `m - f + 0x18`, which
lies inside the page buffer. -/
theorem find_kdbg_address_result (vmi : vmi_instance) (fuel k m f : Nat)
    (kdbg_pa kernel_va : Nat)
    (hfuel : k < fuel)
    (hsize : VMI_PS_4KB * k < vmi_get_memsize vmi)
    (hmem : vmi_get_memsize vmi ≤ 18446744073709551616)
    (hskip : ∀ j < k,
      VMI_PS_4KB ≠ (vmi.vmi_read_pa (VMI_PS_4KB * j) VMI_PS_4KB).1 ∨
      (vmi.boyer_moore2 kdbg_signature_64
          (vmi.vmi_read_pa (VMI_PS_4KB * j) VMI_PS_4KB).2 VMI_PS_4KB = -1 ∧
        vmi.boyer_moore2 kdbg_signature_32
          (vmi.vmi_read_pa (VMI_PS_4KB * j) VMI_PS_4KB).2 VMI_PS_4KB = -1))
    (hread : (vmi.vmi_read_pa (VMI_PS_4KB * k) VMI_PS_4KB).1 = VMI_PS_4KB)
    (hmatch :
      (vmi.boyer_moore2 kdbg_signature_64
          (vmi.vmi_read_pa (VMI_PS_4KB * k) VMI_PS_4KB).2 VMI_PS_4KB = (m : Int) ∧ f = 0xC) ∨
      (vmi.boyer_moore2 kdbg_signature_64
          (vmi.vmi_read_pa (VMI_PS_4KB * k) VMI_PS_4KB).2 VMI_PS_4KB = -1 ∧
        vmi.boyer_moore2 kdbg_signature_32
          (vmi.vmi_read_pa (VMI_PS_4KB * k) VMI_PS_4KB).2 VMI_PS_4KB = (m : Int) ∧ f = 0x8))
    (hblock : f ≤ m ∧ m - f + sizeof_KDDEBUGGER_DATA64 ≤ VMI_PS_4KB) :
    find_kdbg_address vmi fuel kdbg_pa kernel_va
      = some (VMI_SUCCESS, VMI_PS_4KB * k + m - f,
          load_uint64 (vmi.vmi_read_pa (VMI_PS_4KB * k) VMI_PS_4KB).2 (m - f + 0x18)) ∧
    m - f + 0x18 + 8 ≤ VMI_PS_4KB := by
  have hsz : sizeof_KDDEBUGGER_DATA64 = 794 := by decide
  have hps : VMI_PS_4KB = 4096 := rfl
  have hf : f = 0xC ∨ f = 0x8 := by
    rcases hmatch with h | h
    · exact Or.inl h.2
    · exact Or.inr h.2.2
  have hm : m < 4294967296 := by omega
  have hp : VMI_PS_4KB * k + m < 18446744073709551616 := by
    rw [hps] at hsize ⊢
    omega
  have hpage := find_kdbg_address_page_some vmi (VMI_PS_4KB * k)
    (vmi.vmi_read_pa (VMI_PS_4KB * k) VMI_PS_4KB).2 m f hmatch hblock.1 hm hp
  have hskip2 : ∀ j < k,
      VMI_PS_4KB ≠ (vmi.vmi_read_pa (VMI_PS_4KB * j) VMI_PS_4KB).1 ∨
      find_kdbg_address_page vmi (VMI_PS_4KB * j)
        (vmi.vmi_read_pa (VMI_PS_4KB * j) VMI_PS_4KB).2 = none := by
    intro j hj
    rcases hskip j hj with h | h
    · exact Or.inl h
    · exact Or.inr (find_kdbg_address_page_none vmi _ _ h.1 h.2)
  have hloop : find_kdbg_address_loop vmi fuel 0 (VMI_FAILURE, 0, kernel_va) = _ :=
    find_kdbg_address_loop_first_match vmi k _ hsize hmem hskip2 hread hpage
      k 0 fuel (VMI_FAILURE, 0, kernel_va) (by omega) hfuel
  refine ⟨?_, by omega⟩
  unfold find_kdbg_address
  rw [hloop]

set_option maxRecDepth 100000 in
/-- Witness for C17: page 0 is unreadable, page 1 holds the IA-32e signature at
offset `0x7C`; the block is found at `0x1070` with `KernBase =
0xFFFFF80003748000`. -/
theorem find_kdbg_address_result_witness :
    find_kdbg_address vmi_slow_example 2 0 0
      = some (VMI_SUCCESS, 0x1070, 0xFFFFF80003748000) := by
  have h := (find_kdbg_address_result vmi_slow_example 2 1 0x7C 0xC 0 0 (by decide)
    (by decide) (by decide) (by decide) (by decide) (Or.inl (by decide)) (by decide)).1
  rw [h]
  decide

set_option maxRecDepth 100000 in
/-- C16: the fast strategy does not read `KernBase`. On an IA-32e guest whose
page at `0x1000` holds the signature at offset `0x7C` (block at `0x1070`, `Size
= 0x340`, `KernBase = 0xFFFFF80003748000`), `find_kdbg_address_fast` returns
`kdbg_pa = 0x1070` and `kernel_va = 0x0374800000000340`: the 8 bytes at
`P + m + 8 = kdbg_pa + 0x14`, not the value at `kdbg_pa + 0x18`. -/
theorem find_kdbg_address_fast_wrong_kernbase :
    naive_search kdbg_signature_64 (vmi_fast_example.vmi_read_pa 0x1000 VMI_PS_4KB).2
      VMI_PS_4KB = 0x7C ∧
    find_kdbg_address_fast vmi_fast_example { kdbg_pa := 0, kernel_pa := 0, kernel_va := 0 }
      = (VMI_SUCCESS,
         { kdbg_pa := 0x1070, kernel_pa := 0, kernel_va := 0x0374800000000340 }) ∧
    vmi_fast_example.vmi_read_addr_pa (0x1070 + 0x14) = some 0x0374800000000340 ∧
    vmi_fast_example.vmi_read_addr_pa (0x1070 + 0x18) = some 0xFFFFF80003748000 := by
  decide

set_option maxRecDepth 100000 in
/-- C18: the slow strategy reports success without a match. On an instance of
memory size 0 (no page is scanned) `find_kdbg_address` returns `VMI_SUCCESS`
with `kdbg_pa = 0` and `kernel_va` unchanged. -/
theorem find_kdbg_address_success_without_match :
    vmi_get_memsize vmi_instance_zero = 0 ∧
    find_kdbg_address vmi_instance_zero 1 7 9 = some (VMI_SUCCESS, 0, 9) := by
  decide

/-- Instant strategy result. Whenever `find_kdbg_address_instant` returns
success, `kernel_pa = vmi_pagetable_lookup(cr3, kernel_va)` is non-zero,
`kdbg_pa = kernel_pa + kdbg_offset` (mod 2^64), and `kernel_va = fsgs -
kpcr_offset` (mod 2^64) for the value `fsgs` read from `GS_BASE` of VCPU 0 in
IA-32e page mode and from `FS_BASE` otherwise. -/
theorem find_kdbg_address_instant_result (vmi : vmi_instance) (fsgs_init : Nat)
    (out r : kdbg_addresses)
    (h : find_kdbg_address_instant vmi fsgs_init out = (VMI_SUCCESS, r)) :
    ∃ windows cr3, vmi.os_data = some windows ∧
      vmi.driver_get_vcpureg registers_t.CR3 0 = some cr3 ∧
      r.kernel_pa = vmi.vmi_pagetable_lookup cr3 r.kernel_va ∧
      r.kernel_pa ≠ 0 ∧
      r.kdbg_pa = to_u64 (r.kernel_pa + windows.kdbg_offset) ∧
      (∀ fsgs,
        vmi.driver_get_vcpureg
          (if vmi.page_mode = page_mode_t.VMI_PM_IA32E then registers_t.GS_BASE
           else registers_t.FS_BASE) 0 = some fsgs →
        r.kernel_va = sub_u64 fsgs windows.kpcr_offset) := by
  unfold find_kdbg_address_instant at h
  cases hos : vmi.os_data with
  | none => simp [hos] at h
  | some windows =>
    by_cases hmode : vmi.mode = vmi_mode_t.VMI_FILE
    · simp [hos, hmode] at h
    by_cases hoff : windows.kdbg_offset = 0 ∨ windows.kpcr_offset = 0
    · simp [hos, hmode, hoff] at h
    cases hcr3 : vmi.driver_get_vcpureg registers_t.CR3 0 with
    | none => simp [hos, hmode, hoff, hcr3] at h
    | some cr3 =>
      simp only [hos, hmode, hoff, hcr3, if_false] at h
      generalize hf : (if vmi.page_mode = page_mode_t.VMI_PM_IA32E then
          (vmi.driver_get_vcpureg registers_t.GS_BASE 0).getD fsgs_init
        else (vmi.driver_get_vcpureg registers_t.FS_BASE 0).getD fsgs_init) = fsgsv at h
      by_cases hpa : vmi.vmi_pagetable_lookup cr3 (sub_u64 fsgsv windows.kpcr_offset) = 0
      · simp [hpa] at h
      · rw [if_neg hpa] at h
        have hr := (Prod.mk.inj h).2
        refine ⟨windows, cr3, rfl, rfl, ?_, ?_, ?_, ?_⟩
        · rw [← hr]
        · rw [← hr]; exact hpa
        · rw [← hr]
        · intro fsgs hfs
          rw [← hr]
          show sub_u64 fsgsv windows.kpcr_offset = sub_u64 fsgs windows.kpcr_offset
          by_cases hpm : vmi.page_mode = page_mode_t.VMI_PM_IA32E
          · simp only [hpm, if_true] at hfs hf
            rw [hfs] at hf
            rw [← hf]; rfl
          · simp only [hpm, if_false] at hfs hf
            rw [hfs] at hf
            rw [← hf]; rfl

set_option maxRecDepth 100000 in
/-- Instance of the instant strategy result: `GS_BASE = 0xFFFFF80003A3E000` and
`kpcr_offset = 0x2F6000` give `kernel_va = 0xFFFFF80003748000`. -/
theorem find_kdbg_address_instant_result_witness :
    find_kdbg_address_instant vmi_instant_example 0 { kdbg_pa := 0, kernel_pa := 0, kernel_va := 0 }
      = (VMI_SUCCESS,
         { kdbg_pa := 0x1FE9070, kernel_pa := 0x1E00000, kernel_va := 0xFFFFF80003748000 }) ∧
    sub_u64 0xFFFFF80003A3E000 0x2F6000 = 0xFFFFF80003748000 := by
  have h : find_kdbg_address_instant vmi_instant_example 0
      { kdbg_pa := 0, kernel_pa := 0, kernel_va := 0 }
      = (VMI_SUCCESS,
         { kdbg_pa := 0x1FE9070, kernel_pa := 0x1E00000, kernel_va := 0xFFFFF80003748000 }) := by
    decide
  obtain ⟨w, cr3, hw, _, _, _, _, hva⟩ :=
    find_kdbg_address_instant_result vmi_instant_example 0 _ _ h
  have hw2 : w.kpcr_offset = 0x2F6000 := by
    have : w = { windows_instance_zero with kdbg_offset := 0x1E9070, kpcr_offset := 0x2F6000 } :=
      (Option.some.inj hw).symm
    rw [this]
  have := hva 0xFFFFF80003A3E000 rfl
  rw [hw2] at this
  exact ⟨h, this.symm⟩

set_option maxRecDepth 100000 in
/-- C13, evaluation: the instant strategy does not test the read of the FS/GS
base. On a live IA-32e guest with `kdbg_offset` and `kpcr_offset` configured,
whose `CR3` is readable and whose `GS_BASE` is not,
`find_kdbg_address_instant` returns `VMI_SUCCESS`, and `kernel_va` is the
content the local variable `fsgs` had before the failed read, minus
`kpcr_offset`: `0xFFFFFFFFFFD0A000` when that content is 0 and
`0xFFFFF80003748000` when it is `0xFFFFF80003A3E000`.  No value of `GS_BASE`
of VCPU 0 exists here for `kernel_va` to be computed from.  On the same guest
`find_kdbg_address_faster`, which tests the status of the same read, returns
failure and leaves the output as it was. -/
theorem find_kdbg_address_instant_unread_fsgs :
    vmi_instant_unreadable_example.page_mode = page_mode_t.VMI_PM_IA32E ∧
    vmi_instant_unreadable_example.driver_get_vcpureg registers_t.CR3 0 = some 0x187000 ∧
    vmi_instant_unreadable_example.driver_get_vcpureg registers_t.GS_BASE 0 = none ∧
    find_kdbg_address_instant vmi_instant_unreadable_example 0 kdbg_addresses_zero =
      (VMI_SUCCESS,
        { kdbg_pa := 0x1FE9070, kernel_pa := 0x1E00000, kernel_va := 0xFFFFFFFFFFD0A000 }) ∧
    find_kdbg_address_instant vmi_instant_unreadable_example 0xFFFFF80003A3E000
        kdbg_addresses_zero =
      (VMI_SUCCESS,
        { kdbg_pa := 0x1FE9070, kernel_pa := 0x1E00000, kernel_va := 0xFFFFF80003748000 }) ∧
    find_kdbg_address_faster vmi_instant_unreadable_example 10 0 kdbg_addresses_zero =
      some (VMI_FAILURE, kdbg_addresses_zero) := by
  decide

/-- C14: instant strategy preconditions. `find_kdbg_address_instant` returns
failure and leaves `kdbg_pa`, `kernel_pa` and `kernel_va` as they were whenever
`os_data` is `NULL`, or the access mode is file, or `kdbg_offset` is 0, or
`kpcr_offset` is 0, or CR3 of VCPU 0 cannot be read, or the translation of the
computed kernel base is 0. -/
theorem find_kdbg_address_instant_preconditions (vmi : vmi_instance) (fsgs_init : Nat)
    (out : kdbg_addresses)
    (h : vmi.os_data = none ∨ vmi.mode = vmi_mode_t.VMI_FILE ∨
      (∃ windows, vmi.os_data = some windows ∧ windows.kdbg_offset = 0) ∨
      (∃ windows, vmi.os_data = some windows ∧ windows.kpcr_offset = 0) ∨
      vmi.driver_get_vcpureg registers_t.CR3 0 = none ∨
      (∃ windows cr3, vmi.os_data = some windows ∧
        vmi.driver_get_vcpureg registers_t.CR3 0 = some cr3 ∧
        vmi.vmi_pagetable_lookup cr3
          (sub_u64
            ((vmi.driver_get_vcpureg
              (if vmi.page_mode = page_mode_t.VMI_PM_IA32E then registers_t.GS_BASE
               else registers_t.FS_BASE) 0).getD fsgs_init)
            windows.kpcr_offset) = 0)) :
    find_kdbg_address_instant vmi fsgs_init out = (VMI_FAILURE, out) := by
  unfold find_kdbg_address_instant
  cases hos : vmi.os_data with
  | none => rfl
  | some windows =>
    simp only [hos]
    by_cases hmode : vmi.mode = vmi_mode_t.VMI_FILE
    · simp [hmode]
    · by_cases hoff : windows.kdbg_offset = 0 ∨ windows.kpcr_offset = 0
      · simp [hmode, hoff]
      · cases hcr3 : vmi.driver_get_vcpureg registers_t.CR3 0 with
        | none => simp [hmode, hoff]
        | some cr3 =>
          simp only [hmode, hoff, if_false]
          rcases h with h | h | ⟨w, hw, h⟩ | ⟨w, hw, h⟩ | h | ⟨w, c, hw, hc, h⟩
          · rw [hos] at h; cases h
          · exact absurd h hmode
          · rw [hos] at hw; cases hw; exact absurd (Or.inl h) hoff
          · rw [hos] at hw; cases hw; exact absurd (Or.inr h) hoff
          · rw [hcr3] at h; cases h
          · rw [hos] at hw; cases hw
            rw [hcr3] at hc; cases hc
            by_cases hpm : vmi.page_mode = page_mode_t.VMI_PM_IA32E
            · simp only [hpm, if_true] at h ⊢
              simp [h]
            · simp only [hpm, if_false] at h ⊢
              simp [h]

set_option maxRecDepth 100000 in
/-- Witness for C14: without a configured `kpcr_offset` the strategy fails and
the three outputs keep their values. -/
theorem find_kdbg_address_instant_preconditions_witness :
    find_kdbg_address_instant vmi_instant_no_kpcr 5
        { kdbg_pa := 1, kernel_pa := 2, kernel_va := 3 }
      = (VMI_FAILURE, { kdbg_pa := 1, kernel_pa := 2, kernel_va := 3 }) :=
  find_kdbg_address_instant_preconditions vmi_instant_no_kpcr 5 _
    (Or.inr (Or.inr (Or.inr (Or.inl
      ⟨{ windows_instance_zero with kdbg_offset := 0x1E9070 }, rfl, rfl⟩))))

theorem lt_two_pow_of_not_testBit (x n : Nat) (h : x < 2 ^ (n + 1))
    (hb : x.testBit n = false) : x < 2 ^ n := by
  apply Nat.lt_pow_two_of_testBit
  intro i hi
  rcases Nat.eq_or_lt_of_le hi with heq | hlt
  · rw [← heq]; exact hb
  · apply Nat.testBit_lt_two_pow
    have h2 : 2 ^ (n + 1) ≤ 2 ^ i := Nat.pow_le_pow_right (by norm_num) hlt
    omega

theorem clzll_from_bound (n x : Nat) (h : x < 2 ^ n) :
    clzll_from n x ≤ n ∧ x < 2 ^ (n - clzll_from n x) := by
  induction n with
  | zero => simp [clzll_from] at *; exact h
  | succ n ih =>
    unfold clzll_from
    by_cases hb : x.testBit n = true
    · simp [hb]; exact h
    · have hb2 : x.testBit n = false := by simpa using hb
      have hlt := lt_two_pow_of_not_testBit x n h hb2
      have := ih hlt
      simp only [hb2, Bool.false_eq_true, if_false]
      refine ⟨by omega, ?_⟩
      rw [Nat.add_sub_add_right]
      exact this.2

/-- C15: `KernBase` validation in the faster strategy. For every non-zero
64-bit `page_paddr` and every `KernBase` value, with `z` the number of leading
zeros of `page_paddr` (so `z < 64`), the test `(KernBase << z) == (page_paddr
<< z)` in 64-bit arithmetic holds if and only if the low `64 - z` bits of
`KernBase` equal `page_paddr`. -/
theorem kernbase_matches_page_iff (kernbase page_paddr : Nat)
    (hp0 : 0 < page_paddr) (hp : page_paddr < 18446744073709551616) :
    clzll page_paddr < 64 ∧
    (kernbase_matches_page kernbase page_paddr ↔
      kernbase % 2 ^ (64 - clzll page_paddr) = page_paddr) := by
  have hb := clzll_from_bound 64 page_paddr (by norm_num; exact hp)
  have hle : clzll page_paddr ≤ 64 := hb.1
  have hlt : page_paddr < 2 ^ (64 - clzll page_paddr) := hb.2
  have hz : clzll page_paddr < 64 := by
    by_contra hge
    have h64 : 64 - clzll page_paddr = 0 := by omega
    rw [h64] at hlt
    simp at hlt
    omega
  have hsplit : (18446744073709551616 : Nat)
      = 2 ^ (64 - clzll page_paddr) * 2 ^ clzll page_paddr := by
    rw [← pow_add]
    have hsum : 64 - clzll page_paddr + clzll page_paddr = 64 := by omega
    rw [hsum]
    norm_num
  have hpos : 0 < 2 ^ clzll page_paddr := Nat.pow_pos (by norm_num)
  refine ⟨hz, ?_⟩
  unfold kernbase_matches_page to_u64
  rw [Nat.shiftLeft_eq, Nat.shiftLeft_eq, hsplit, Nat.mul_mod_mul_right,
    Nat.mul_mod_mul_right, Nat.mod_eq_of_lt hlt]
  constructor
  · intro h
    exact Nat.eq_of_mul_eq_mul_right hpos h
  · intro h
    rw [h]

/-- Witness for C15: the page `0x1E00000` has 39 leading zeros, and the low 25
bits of `0xFFFFF80003E00000` are `0x1E00000`. -/
theorem kernbase_matches_page_iff_witness :
    clzll 0x1E00000 = 39 ∧
    (kernbase_matches_page 0xFFFFF80003E00000 0x1E00000 ↔
      0xFFFFF80003E00000 % 2 ^ (64 - clzll 0x1E00000) = 0x1E00000) :=
  ⟨by decide,
   (kernbase_matches_page_iff 0xFFFFF80003E00000 0x1E00000 (by decide) (by decide)).2⟩

/-! ## `init_kdbg` -/

theorem windows_kdbg_lookup_failure_keeps (vmi : vmi_instance) (symbol : String)
    (address : Nat) (st : status_t) (a : Nat)
    (h : windows_kdbg_lookup vmi symbol address = (st, a)) (hst : st = VMI_FAILURE) :
    a = address := by
  subst hst
  unfold windows_kdbg_lookup kdbg_symbol_resolve at h
  rcases hoff : kdbg_symbol_offset vmi symbol 0 with ⟨st1, o⟩
  rw [hoff] at h
  cases st1 with
  | VMI_FAILURE =>
    simp at h
    exact h.symm
  | VMI_SUCCESS =>
    cases hos : vmi.os_data with
    | none =>
      simp [hos] at h
      exact h.symm
    | some w =>
      cases hk : w.kdbg with
      | some kdbg => simp [hos, hk] at h
      | none =>
        cases hrd : vmi.vmi_read_64_va (to_u64 (w.kdbg_va + o)) 0 with
        | none =>
          simp [hos, hk, hrd] at h
          exact h.symm
        | some v => simp [hos, hk, hrd] at h

theorem vmi_instance_with_os_data (vmi : vmi_instance) (windows : windows_instance)
    (hos : vmi.os_data = some windows) :
    { vmi with os_data := some windows } = vmi := by
  cases vmi
  simp at hos
  subst hos
  rfl

theorem windows_instance_with_ntoskrnl_va (windows : windows_instance) :
    { windows with ntoskrnl_va := windows.ntoskrnl_va } = windows := by
  cases windows
  rfl

theorem init_kdbg_eq_from_search (e : win_ver_t) (vmi : vmi_instance) (fuel fsgs_init : Nat)
    (windows : windows_instance) (hos : vmi.os_data = some windows)
    (hcfg : (windows.kdbg_va ≠ 0 ∧
        (windows_kdbg_lookup vmi "KernBase" windows.ntoskrnl_va).1 = VMI_FAILURE) ∨
      (windows.kdbg_va = 0 ∧ ¬ (windows.ntoskrnl ≠ 0 ∧ windows.kdbg_offset ≠ 0))) :
    init_kdbg e vmi fuel fsgs_init = init_kdbg_from_search e vmi windows fuel fsgs_init := by
  unfold init_kdbg
  rw [hos]
  rcases hcfg with ⟨hva, hl⟩ | ⟨hva, hno⟩
  · rcases hlk : windows_kdbg_lookup vmi "KernBase" windows.ntoskrnl_va with ⟨st, a⟩
    rw [hlk] at hl
    have hst : st = VMI_FAILURE := hl
    have ha := windows_kdbg_lookup_failure_keeps vmi _ _ st a hlk hst
    subst hst
    subst ha
    simp only [hva, ne_eq, not_false_eq_true, if_true, hlk]
    rw [windows_instance_with_ntoskrnl_va, vmi_instance_with_os_data vmi windows hos]
  · simp only [hva, ne_eq, not_true_eq_false, if_false]
    rw [if_neg hno]

/-- C11: unrecognised version fails init atomically. When `init_kdbg` reaches
the search strategies (`kdbg_va` is set and its `KernBase` lookup fails, or
`kdbg_va` is unset and `ntoskrnl` and `kdbg_offset` are not both set), one of
them reports success and `find_windows_version` yields unknown for the located
block, `init_kdbg` returns failure and the Windows state is the state before
the call with only `version` written (so `ntoskrnl`, `ntoskrnl_va`,
`kdbg_offset` and `kdbg_va` are as before). -/
theorem init_kdbg_unknown_version (e : win_ver_t) (vmi : vmi_instance) (fuel fsgs_init : Nat)
    (windows : windows_instance) (invoked : List kdbg_strategy) (out : kdbg_addresses)
    (hos : vmi.os_data = some windows)
    (hcfg : (windows.kdbg_va ≠ 0 ∧
        (windows_kdbg_lookup vmi "KernBase" windows.ntoskrnl_va).1 = VMI_FAILURE) ∨
      (windows.kdbg_va = 0 ∧ ¬ (windows.ntoskrnl ≠ 0 ∧ windows.kdbg_offset ≠ 0)))
    (hsearch : init_kdbg_search vmi fuel fsgs_init = some (invoked, true, out))
    (hver : find_windows_version e vmi out.kdbg_pa = e.VMI_OS_WINDOWS_UNKNOWN) :
    ∃ r, init_kdbg e vmi fuel fsgs_init = some r ∧ r.ret = VMI_FAILURE ∧
      r.invoked = invoked ∧
      r.os_data = some { windows with version := e.VMI_OS_WINDOWS_UNKNOWN } := by
  rw [init_kdbg_eq_from_search e vmi fuel fsgs_init windows hos hcfg]
  unfold init_kdbg_from_search
  rw [hsearch]
  simp only [init_kdbg_found, hver, if_true]
  exact ⟨_, rfl, rfl, rfl, rfl⟩



theorem find_kdbg_address_instant_failure_out (vmi : vmi_instance) (fsgs_init : Nat)
    (out o : kdbg_addresses)
    (h : find_kdbg_address_instant vmi fsgs_init out = (VMI_FAILURE, o)) : o = out := by
  unfold find_kdbg_address_instant at h
  repeat' (first | split at h | dsimp only at h)
  all_goals first
    | exact ((Prod.mk.inj h).2).symm
    | exact absurd (Prod.mk.inj h).1 (by simp)

theorem find_kdbg_address_faster_failure_out (vmi : vmi_instance) (fuel fsgs_init : Nat)
    (out o : kdbg_addresses)
    (h : find_kdbg_address_faster vmi fuel fsgs_init out = some (VMI_FAILURE, o)) :
    o = out := by
  unfold find_kdbg_address_faster at h
  repeat' (first | split at h | dsimp only at h)
  all_goals first
    | exact ((Prod.mk.inj (Option.some.inj h)).2).symm
    | exact absurd (Prod.mk.inj (Option.some.inj h)).1 (by simp)
    | cases h

theorem find_kdbg_address_fast_failure_out (vmi : vmi_instance)
    (out o : kdbg_addresses)
    (h : find_kdbg_address_fast vmi out = (VMI_FAILURE, o)) : o = out := by
  unfold find_kdbg_address_fast at h
  repeat' (first | split at h | dsimp only at h)
  all_goals first
    | exact ((Prod.mk.inj h).2).symm
    | exact absurd (Prod.mk.inj h).1 (by simp)

/-- C12 (amended): heuristic cascade order. When `init_kdbg` has no usable
configuration, it invokes the strategies in the order instant, faster, fast,
slow, stops at the first one that returns success and invokes none of the
later ones; the locals at `found` are the outputs of that strategy (a failed
strategy leaves them at their initial zeros, and the slow strategy has no
kernel-PA output). With a recognised version, `ntoskrnl_va` is the kernel-VA
output, `ntoskrnl` is the kernel-PA output when that is non-zero and
`get_ntoskrnl_base(vmi, 0)` when it is 0, `kdbg_offset = kdbg_pa - ntoskrnl`
and `kdbg_va = ntoskrnl_va + kdbg_offset` (mod 2^64). -/
theorem init_kdbg_cascade (e : win_ver_t) (vmi : vmi_instance) (fuel fsgs_init : Nat)
    (windows : windows_instance) (hos : vmi.os_data = some windows)
    (hcfg : (windows.kdbg_va ≠ 0 ∧
        (windows_kdbg_lookup vmi "KernBase" windows.ntoskrnl_va).1 = VMI_FAILURE) ∨
      (windows.kdbg_va = 0 ∧ ¬ (windows.ntoskrnl ≠ 0 ∧ windows.kdbg_offset ≠ 0))) :
    (∀ out, find_kdbg_address_instant vmi fsgs_init kdbg_addresses_zero = (VMI_SUCCESS, out) →
      init_kdbg_search vmi fuel fsgs_init = some ([kdbg_strategy.instant], true, out)) ∧
    (∀ out, (find_kdbg_address_instant vmi fsgs_init kdbg_addresses_zero).1 = VMI_FAILURE →
      find_kdbg_address_faster vmi fuel fsgs_init kdbg_addresses_zero
        = some (VMI_SUCCESS, out) →
      init_kdbg_search vmi fuel fsgs_init
        = some ([kdbg_strategy.instant, kdbg_strategy.faster], true, out)) ∧
    (∀ out o, (find_kdbg_address_instant vmi fsgs_init kdbg_addresses_zero).1 = VMI_FAILURE →
      find_kdbg_address_faster vmi fuel fsgs_init kdbg_addresses_zero
        = some (VMI_FAILURE, o) →
      find_kdbg_address_fast vmi kdbg_addresses_zero = (VMI_SUCCESS, out) →
      init_kdbg_search vmi fuel fsgs_init
        = some ([kdbg_strategy.instant, kdbg_strategy.faster, kdbg_strategy.fast], true,
            out)) ∧
    (∀ kdbg_pa kernel_va o,
      (find_kdbg_address_instant vmi fsgs_init kdbg_addresses_zero).1 = VMI_FAILURE →
      find_kdbg_address_faster vmi fuel fsgs_init kdbg_addresses_zero
        = some (VMI_FAILURE, o) →
      (find_kdbg_address_fast vmi kdbg_addresses_zero).1 = VMI_FAILURE →
      find_kdbg_address vmi fuel 0 0 = some (VMI_SUCCESS, kdbg_pa, kernel_va) →
      init_kdbg_search vmi fuel fsgs_init
        = some ([kdbg_strategy.instant, kdbg_strategy.faster, kdbg_strategy.fast,
                 kdbg_strategy.slow], true,
            { kdbg_pa := kdbg_pa, kernel_pa := 0, kernel_va := kernel_va })) ∧
    (∀ invoked out, init_kdbg_search vmi fuel fsgs_init = some (invoked, true, out) →
      find_windows_version e vmi out.kdbg_pa ≠ e.VMI_OS_WINDOWS_UNKNOWN →
      ∃ r, init_kdbg e vmi fuel fsgs_init = some r ∧ r.ret = VMI_SUCCESS ∧
        r.invoked = invoked ∧
        r.os_data = some
          { windows with
            version := find_windows_version e vmi out.kdbg_pa,
            ntoskrnl :=
              to_u64 (if out.kernel_pa = 0 then to_u64 (vmi.get_ntoskrnl_base 0)
                else out.kernel_pa),
            ntoskrnl_va := to_u64 out.kernel_va,
            kdbg_offset :=
              sub_u64 out.kdbg_pa
                (to_u64 (if out.kernel_pa = 0 then to_u64 (vmi.get_ntoskrnl_base 0)
                  else out.kernel_pa)),
            kdbg_va :=
              to_u64 (to_u64 out.kernel_va +
                sub_u64 out.kdbg_pa
                  (to_u64 (if out.kernel_pa = 0 then to_u64 (vmi.get_ntoskrnl_base 0)
                    else out.kernel_pa))) }) := by
  refine ⟨?_, ?_, ?_, ?_, ?_⟩
  · intro out h1
    unfold init_kdbg_search
    rw [h1]
  · intro out h1 h2
    rcases hi : find_kdbg_address_instant vmi fsgs_init kdbg_addresses_zero with ⟨st, o1⟩
    rw [hi] at h1
    have hst : st = VMI_FAILURE := h1
    subst hst
    have ho1 := find_kdbg_address_instant_failure_out vmi fsgs_init _ _ hi
    subst ho1
    unfold init_kdbg_search
    rw [hi]
    simp only [h2]
  · intro out o h1 h2 h3
    rcases hi : find_kdbg_address_instant vmi fsgs_init kdbg_addresses_zero with ⟨st, o1⟩
    rw [hi] at h1
    have hst : st = VMI_FAILURE := h1
    subst hst
    have ho1 := find_kdbg_address_instant_failure_out vmi fsgs_init _ _ hi
    subst ho1
    have ho2 := find_kdbg_address_faster_failure_out vmi fuel fsgs_init _ _ h2
    subst ho2
    unfold init_kdbg_search
    rw [hi]
    simp only [h2, h3]
  · intro kdbg_pa kernel_va o h1 h2 h3 h4
    rcases hi : find_kdbg_address_instant vmi fsgs_init kdbg_addresses_zero with ⟨st, o1⟩
    rw [hi] at h1
    have hst : st = VMI_FAILURE := h1
    subst hst
    have ho1 := find_kdbg_address_instant_failure_out vmi fsgs_init _ _ hi
    subst ho1
    have ho2 := find_kdbg_address_faster_failure_out vmi fuel fsgs_init _ _ h2
    subst ho2
    rcases hf : find_kdbg_address_fast vmi kdbg_addresses_zero with ⟨st3, o3⟩
    rw [hf] at h3
    have hst3 : st3 = VMI_FAILURE := h3
    subst hst3
    have ho3 := find_kdbg_address_fast_failure_out vmi _ _ hf
    subst ho3
    unfold init_kdbg_search
    rw [hi]
    simp only [h2, hf]
    have h4' : find_kdbg_address vmi fuel kdbg_addresses_zero.kdbg_pa
        kdbg_addresses_zero.kernel_va = some (VMI_SUCCESS, kdbg_pa, kernel_va) := h4
    simp only [h4']
    rfl
  · intro invoked out hs hv
    rw [init_kdbg_eq_from_search e vmi fuel fsgs_init windows hos hcfg]
    unfold init_kdbg_from_search
    rw [hs]
    have hv' : ¬ (e.VMI_OS_WINDOWS_UNKNOWN = find_windows_version e vmi out.kdbg_pa) :=
      fun h => hv h.symm
    simp only [init_kdbg_found, hv', if_false]
    exact ⟨_, rfl, rfl, rfl, rfl⟩

set_option maxRecDepth 100000 in
/-- Witness for C11: the slow strategy locates the block at `0x1070` but no
version magic can be read; `init_kdbg` fails and only `version` changes. -/
theorem init_kdbg_unknown_version_witness :
    init_kdbg_summary (init_kdbg win_ver_example vmi_search_unknown_example 2 0)
      = some (VMI_FAILURE,
          [kdbg_strategy.instant, kdbg_strategy.faster, kdbg_strategy.fast,
           kdbg_strategy.slow],
          some (0, 0, 0, 0, 1)) := by
  obtain ⟨r, hr, hret, hinv, hos⟩ :=
    init_kdbg_unknown_version win_ver_example vmi_search_unknown_example 2 0
      windows_instance_zero
      [kdbg_strategy.instant, kdbg_strategy.faster, kdbg_strategy.fast, kdbg_strategy.slow]
      { kdbg_pa := 0x1070, kernel_pa := 0, kernel_va := 0xFFFFF80003748000 }
      rfl (Or.inr ⟨rfl, by decide⟩) rfl rfl
  rw [hr]
  simp only [init_kdbg_summary, Option.map, hret, hinv, hos]
  rfl

set_option maxRecDepth 100000 in
/-- Witness for C12: on an unconfigured file image the first three strategies
fail and the slow strategy wins with `kdbg_pa = 0x1070` and `kernel_va =
0xFFFFF80003748000`. -/
theorem init_kdbg_cascade_witness :
    init_kdbg_search (vmi_search_example 0) 2 0
      = some ([kdbg_strategy.instant, kdbg_strategy.faster, kdbg_strategy.fast,
               kdbg_strategy.slow], true,
          { kdbg_pa := 0x1070, kernel_pa := 0, kernel_va := 0xFFFFF80003748000 }) :=
  (init_kdbg_cascade win_ver_example (vmi_search_example 0) 2 0 windows_instance_zero rfl
    (Or.inr ⟨rfl, by decide⟩)).2.2.2.1 0x1070 0xFFFFF80003748000 kdbg_addresses_zero
    rfl rfl rfl rfl

set_option maxRecDepth 100000 in
/-- C12 (counterexample): `ntoskrnl` is not derived from the winning strategy's
outputs only. Two instances that differ only in what `get_ntoskrnl_base`
returns (0 and `0x1000`) run the same cascade, the slow strategy wins on both
with the same outputs `kdbg_pa = 0x1070`, `kernel_va = 0xFFFFF80003748000`,
yet `ntoskrnl`, `kdbg_offset` and `kdbg_va` differ. -/
theorem init_kdbg_ntoskrnl_from_get_ntoskrnl_base :
    find_kdbg_address (vmi_search_example 0) 2 0 0
      = some (VMI_SUCCESS, 0x1070, 0xFFFFF80003748000) ∧
    find_kdbg_address (vmi_search_example 0x1000) 2 0 0
      = some (VMI_SUCCESS, 0x1070, 0xFFFFF80003748000) ∧
    init_kdbg_summary (init_kdbg win_ver_example (vmi_search_example 0) 2 0)
      = some (VMI_SUCCESS,
          [kdbg_strategy.instant, kdbg_strategy.faster, kdbg_strategy.fast,
           kdbg_strategy.slow],
          some (0, 0xFFFFF80003748000, 0x1070, 0xFFFFF80003749070, 0x340)) ∧
    init_kdbg_summary (init_kdbg win_ver_example (vmi_search_example 0x1000) 2 0)
      = some (VMI_SUCCESS,
          [kdbg_strategy.instant, kdbg_strategy.faster, kdbg_strategy.fast,
           kdbg_strategy.slow],
          some (0x1000, 0xFFFFF80003748000, 0x70, 0xFFFFF80003748070, 0x340)) :=
  ⟨rfl, rfl, rfl, rfl⟩

theorem sub_u64_add_cancel (a b : Nat) (hb : b < 18446744073709551616) :
    sub_u64 (to_u64 (a + b)) a = b := by
  unfold sub_u64 to_u64
  omega

theorem init_kdbg_from_search_relation (e : win_ver_t) (vmi : vmi_instance)
    (windows : windows_instance) (fuel fsgs_init : Nat) (r : init_kdbg_result)
    (w : windows_instance)
    (hres : init_kdbg_from_search e vmi windows fuel fsgs_init = some r)
    (hret : r.ret = VMI_SUCCESS) (hw : r.os_data = some w) :
    w.kdbg_offset = sub_u64 w.kdbg_va w.ntoskrnl_va := by
  unfold init_kdbg_from_search at hres
  rcases hs : init_kdbg_search vmi fuel fsgs_init with _ | ⟨invoked, found, out⟩
  · rw [hs] at hres; cases hres
  · rw [hs] at hres
    cases found with
    | false =>
      simp only [Option.some.injEq] at hres
      rw [← hres] at hret
      cases hret
    | true =>
      simp only [Option.some.injEq] at hres
      rw [← hres] at hret hw
      unfold init_kdbg_found at hret hw
      by_cases hv : e.VMI_OS_WINDOWS_UNKNOWN = find_windows_version e vmi out.kdbg_pa
      · simp [hv] at hret
      · simp only [hv, if_false, Option.some.injEq] at hw
        rw [← hw]
        simp only
        rw [sub_u64_add_cancel]
        unfold sub_u64
        omega

/-- C19 (amended): Windows state relation. After every call of `init_kdbg` that
returns success, `kdbg_offset = kdbg_va - ntoskrnl_va` (mod 2^64) when the path
taken was `ntoskrnl + kdbg_offset` from config or a search strategy, or
`kdbg_va` from config with `kdbg_offset` unset (0) before the call; on the
`kdbg_va`-from-config path a pre-set non-zero `kdbg_offset` and `kdbg_va` are
kept as configured. The pre-set `kdbg_offset` is a 64-bit value. -/
theorem init_kdbg_offset_relation (e : win_ver_t) (vmi : vmi_instance) (fuel fsgs_init : Nat)
    (windows w : windows_instance) (r : init_kdbg_result)
    (hos : vmi.os_data = some windows)
    (hoff : windows.kdbg_offset < 18446744073709551616)
    (hres : init_kdbg e vmi fuel fsgs_init = some r)
    (hret : r.ret = VMI_SUCCESS) (hw : r.os_data = some w) :
    ((windows.kdbg_va = 0 ∨ windows.kdbg_offset = 0 ∨
        (windows_kdbg_lookup vmi "KernBase" windows.ntoskrnl_va).1 = VMI_FAILURE) →
      w.kdbg_offset = sub_u64 w.kdbg_va w.ntoskrnl_va) ∧
    ((windows.kdbg_va ≠ 0 ∧ windows.kdbg_offset ≠ 0 ∧
        (windows_kdbg_lookup vmi "KernBase" windows.ntoskrnl_va).1 = VMI_SUCCESS) →
      w.kdbg_offset = windows.kdbg_offset ∧ w.kdbg_va = windows.kdbg_va) := by
  by_cases hva : windows.kdbg_va = 0
  · -- `kdbg_va` unset
    refine ⟨fun _ => ?_, fun h => absurd hva h.1⟩
    by_cases hb : windows.ntoskrnl ≠ 0 ∧ windows.kdbg_offset ≠ 0
    · unfold init_kdbg at hres
      simp only [hos, hva, ne_eq, not_true_eq_false, if_false] at hres
      rw [if_pos hb] at hres
      simp only [Option.some.injEq] at hres
      rw [← hres] at hret hw
      simp only [Option.some.injEq] at hw
      unfold init_kdbg_from_ntoskrnl at hret hw
      simp only [hva, if_true] at hret hw
      by_cases hnva : windows.ntoskrnl_va = 0
      · simp only [hnva, if_true] at hret hw
        cases hrd : vmi.vmi_read_addr_pa
            (to_u64 (windows.ntoskrnl + windows.kdbg_offset +
              (kdbg_symbol_offset vmi "KernBase" 0).2)) with
        | none =>
          simp only [hrd] at hret
          cases hret
        | some value =>
          simp only [hrd] at hret hw
          by_cases hkv : vmi.vmi_translate_kv2p (to_u64 value) ≠ windows.ntoskrnl
          · rw [if_pos hkv] at hret
            cases hret
          · rw [if_neg hkv] at hw
            rw [← hw]
            simp only
            rw [sub_u64_add_cancel _ _ hoff]
      · simp only [hnva, if_false] at hw
        rw [← hw]
        simp only
        rw [sub_u64_add_cancel _ _ hoff]
    · rw [init_kdbg_eq_from_search e vmi fuel fsgs_init windows hos (Or.inr ⟨hva, hb⟩)]
        at hres
      exact init_kdbg_from_search_relation e vmi windows fuel fsgs_init r w hres hret hw
  · -- `kdbg_va` set
    rcases hlk : windows_kdbg_lookup vmi "KernBase" windows.ntoskrnl_va with ⟨st, a⟩
    cases st with
    | VMI_FAILURE =>
      refine ⟨fun _ => ?_, fun h => by simp at h⟩
      rw [init_kdbg_eq_from_search e vmi fuel fsgs_init windows hos
        (Or.inl ⟨hva, by rw [hlk]⟩)] at hres
      exact init_kdbg_from_search_relation e vmi windows fuel fsgs_init r w hres hret hw
    | VMI_SUCCESS =>
      unfold init_kdbg at hres
      simp only [hos, hva, ne_eq, not_false_eq_true, if_true, hlk, Option.some.injEq] at hres
      rw [← hres] at hw
      simp only [Option.some.injEq] at hw
      unfold init_kdbg_from_kdbg_va at hw
      by_cases ho : windows.kdbg_offset = 0
      · refine ⟨fun _ => ?_, fun h => absurd ho h.2.1⟩
        rw [← hw]
        by_cases hn : windows.ntoskrnl = 0
        · simp [hn, ho]
        · simp [hn, ho]
      · refine ⟨fun h => ?_, fun _ => ?_⟩
        · rcases h with h | h | h
          · exact absurd h hva
          · exact absurd h ho
          · simp at h
        · rw [← hw]
          by_cases hn : windows.ntoskrnl = 0
          · simp [hn, ho]
          · simp [hn, ho]

/-- C20: contradictory Windows config is rejected. When `kdbg_va` is unset,
`ntoskrnl` and `kdbg_offset` are set and `ntoskrnl_va` is unset, `init_kdbg`
runs no search strategy; it succeeds if and only if the address-sized read at
physical address `ntoskrnl + kdbg_offset + 0x18` succeeds and
`vmi_translate_kv2p` of the value read equals `ntoskrnl`; on success
`ntoskrnl_va` is that value and `kdbg_va = ntoskrnl_va + kdbg_offset` (mod
2^64), otherwise it returns failure. -/
theorem init_kdbg_from_ntoskrnl_config (e : win_ver_t) (vmi : vmi_instance)
    (fuel fsgs_init : Nat) (windows : windows_instance)
    (hos : vmi.os_data = some windows)
    (hkva : windows.kdbg_va = 0) (hnt : windows.ntoskrnl ≠ 0)
    (hoff : windows.kdbg_offset ≠ 0) (hnva : windows.ntoskrnl_va = 0) :
    ∃ r, init_kdbg e vmi fuel fsgs_init = some r ∧ r.invoked = [] ∧
      (r.ret = VMI_SUCCESS ↔
        ∃ value,
          vmi.vmi_read_addr_pa (to_u64 (windows.ntoskrnl + windows.kdbg_offset + 0x18))
            = some value ∧
          vmi.vmi_translate_kv2p (to_u64 value) = windows.ntoskrnl) ∧
      (∀ value,
        vmi.vmi_read_addr_pa (to_u64 (windows.ntoskrnl + windows.kdbg_offset + 0x18))
          = some value →
        vmi.vmi_translate_kv2p (to_u64 value) = windows.ntoskrnl →
        r.os_data = some { windows with
          ntoskrnl_va := to_u64 value,
          kdbg_va := to_u64 (to_u64 value + windows.kdbg_offset) }) ∧
      ((¬ ∃ value,
          vmi.vmi_read_addr_pa (to_u64 (windows.ntoskrnl + windows.kdbg_offset + 0x18))
            = some value ∧
          vmi.vmi_translate_kv2p (to_u64 value) = windows.ntoskrnl) →
        r.ret = VMI_FAILURE) := by
  have hb : windows.ntoskrnl ≠ 0 ∧ windows.kdbg_offset ≠ 0 := ⟨hnt, hoff⟩
  have hk : (kdbg_symbol_offset vmi "KernBase" 0).2 = 0x18 := by
    rw [kdbg_symbol_offset_KernBase]
  unfold init_kdbg
  simp only [hos, hkva, ne_eq, not_true_eq_false, if_false]
  rw [if_pos hb]
  refine ⟨_, rfl, rfl, ?_⟩
  unfold init_kdbg_from_ntoskrnl
  simp only [hnva, if_true, hk, hkva]
  cases hrd : vmi.vmi_read_addr_pa (to_u64 (windows.ntoskrnl + windows.kdbg_offset + 0x18)) with
  | none => simp
  | some value =>
    by_cases hkv : vmi.vmi_translate_kv2p (to_u64 value) = windows.ntoskrnl
    · simp [hkv]
    · simp [hkv]

set_option maxRecDepth 100000 in
/-- Witness for C20: with `ntoskrnl = 0x1E00000` and `kdbg_offset = 0x1E9070`
the `KernBase` read at `0x1FE9088` translates back to `ntoskrnl`, and `kdbg_va`
becomes `0xFFFFF80003931070`. -/
theorem init_kdbg_from_ntoskrnl_config_witness :
    init_kdbg_summary (init_kdbg win_ver_example vmi_ntoskrnl_example 0 0)
      = some (VMI_SUCCESS, [],
          some (0x1E00000, 0xFFFFF80003748000, 0x1E9070, 0xFFFFF80003931070, 0)) := by
  obtain ⟨r, hr, hinv, hiff, hst, _⟩ :=
    init_kdbg_from_ntoskrnl_config win_ver_example vmi_ntoskrnl_example 0 0
      { windows_instance_zero with ntoskrnl := 0x1E00000, kdbg_offset := 0x1E9070 }
      rfl rfl (by decide) (by decide) rfl
  have hret : r.ret = VMI_SUCCESS := hiff.2 ⟨0xFFFFF80003748000, rfl, rfl⟩
  have hos := hst 0xFFFFF80003748000 rfl rfl
  rw [hr]
  simp only [init_kdbg_summary, Option.map, hret, hinv, hos]
  rfl

set_option maxRecDepth 100000 in
/-- Witness for C19 (amended): after a successful search on an unconfigured
image, `kdbg_offset = 0x70 = kdbg_va - ntoskrnl_va`. -/
theorem init_kdbg_offset_relation_witness :
    init_kdbg_summary (init_kdbg win_ver_example (vmi_search_example 0x1000) 2 0)
      = some (VMI_SUCCESS,
          [kdbg_strategy.instant, kdbg_strategy.faster, kdbg_strategy.fast,
           kdbg_strategy.slow],
          some (0x1000, 0xFFFFF80003748000, 0x70, 0xFFFFF80003748070, 0x340)) ∧
    0x70 = sub_u64 0xFFFFF80003748070 0xFFFFF80003748000 := by
  have hsum : init_kdbg_summary (init_kdbg win_ver_example (vmi_search_example 0x1000) 2 0)
      = some (VMI_SUCCESS,
          [kdbg_strategy.instant, kdbg_strategy.faster, kdbg_strategy.fast,
           kdbg_strategy.slow],
          some (0x1000, 0xFFFFF80003748000, 0x70, 0xFFFFF80003748070, 0x340)) := rfl
  refine ⟨hsum, ?_⟩
  rcases hr : init_kdbg win_ver_example (vmi_search_example 0x1000) 2 0 with _ | r
  · rw [hr] at hsum; cases hsum
  · rw [hr] at hsum
    simp only [init_kdbg_summary, Option.map, Option.some.injEq, Prod.mk.injEq] at hsum
    obtain ⟨hret, _, hw⟩ := hsum
    rcases hwo : r.os_data with _ | w
    · rw [hwo] at hw; cases hw
    · rw [hwo] at hw
      simp only [Option.some.injEq, Prod.mk.injEq] at hw
      obtain ⟨_, hnva, hoff, hkva, _⟩ := hw
      have h := (init_kdbg_offset_relation win_ver_example (vmi_search_example 0x1000) 2 0
        windows_instance_zero w r rfl (by decide) hr hret hwo).1 (Or.inl rfl)
      rw [hnva, hoff, hkva] at h
      exact h

set_option maxRecDepth 100000 in
/-- C19 (counterexample): with `kdbg_va = 0xFFFFF80003931070` and `kdbg_offset =
0x1000` pre-set and `KernBase = 0xFFFFF80003748000`, `init_kdbg` succeeds and
keeps `kdbg_offset = 0x1000`, while `kdbg_va - ntoskrnl_va = 0x1E9070`. -/
theorem init_kdbg_preset_offset_kept :
    init_kdbg_summary (init_kdbg win_ver_example vmi_config_example 0 0)
      = some (VMI_SUCCESS, [],
          some (0x1E00000, 0xFFFFF80003748000, 0x1000, 0xFFFFF80003931070, 0)) ∧
    sub_u64 0xFFFFF80003931070 0xFFFFF80003748000 = 0x1E9070 ∧
    (0x1000 : Nat) ≠ 0x1E9070 :=
  ⟨rfl, rfl, by decide⟩

/-! ## The ARM walker: diagnostics, bounds and the vtable -/

theorem v2p_arm_section_fields (vaddr : Nat) (info : page_info) :
    (v2p_arm_section vaddr info).l1_a = info.l1_a ∧
    (v2p_arm_section vaddr info).l1_v = info.l1_v ∧
    (v2p_arm_section vaddr info).l2_a = info.l2_a ∧
    (v2p_arm_section vaddr info).l2_v = info.l2_v := by
  unfold v2p_arm_section
  split <;> exact ⟨rfl, rfl, rfl, rfl⟩

theorem v2p_arm_coarse_leaf_fields (vaddr : Nat) (info : page_info) :
    (v2p_arm_coarse_leaf vaddr info).l1_a = info.l1_a ∧
    (v2p_arm_coarse_leaf vaddr info).l1_v = info.l1_v ∧
    (v2p_arm_coarse_leaf vaddr info).l2_a = info.l2_a ∧
    (v2p_arm_coarse_leaf vaddr info).l2_v = info.l2_v := by
  unfold v2p_arm_coarse_leaf
  split
  · exact ⟨rfl, rfl, rfl, rfl⟩
  · split <;> exact ⟨rfl, rfl, rfl, rfl⟩

theorem v2p_arm_fine_leaf_fields (vaddr : Nat) (info : page_info) :
    (v2p_arm_fine_leaf vaddr info).l1_a = info.l1_a ∧
    (v2p_arm_fine_leaf vaddr info).l1_v = info.l1_v ∧
    (v2p_arm_fine_leaf vaddr info).l2_a = info.l2_a ∧
    (v2p_arm_fine_leaf vaddr info).l2_v = info.l2_v := by
  unfold v2p_arm_fine_leaf
  split
  · exact ⟨rfl, rfl, rfl, rfl⟩
  · split
    · exact ⟨rfl, rfl, rfl, rfl⟩
    · split <;> exact ⟨rfl, rfl, rfl, rfl⟩

theorem get_first_level_descriptor_fields (vmi : vmi_instance) (dtb vaddr : Nat)
    (info : page_info) :
    (get_first_level_descriptor vmi dtb vaddr info).l1_a =
      (get_bits_31to14 dtb ||| to_u32 (first_level_table_index vaddr <<< 2)) ∧
    (∀ v, vmi.vmi_read_32_pa
        (get_bits_31to14 dtb ||| to_u32 (first_level_table_index vaddr <<< 2)) = some v →
      (get_first_level_descriptor vmi dtb vaddr info).l1_v = to_u32 v) ∧
    (vmi.vmi_read_32_pa
        (get_bits_31to14 dtb ||| to_u32 (first_level_table_index vaddr <<< 2)) = none →
      (get_first_level_descriptor vmi dtb vaddr info).l1_v = info.l1_v) ∧
    (get_first_level_descriptor vmi dtb vaddr info).l2_a = info.l2_a ∧
    (get_first_level_descriptor vmi dtb vaddr info).l2_v = info.l2_v := by
  unfold get_first_level_descriptor
  dsimp only
  cases h : vmi.vmi_read_32_pa
      (get_bits_31to14 dtb ||| to_u32 (first_level_table_index vaddr <<< 2)) with
  | none => simp
  | some v => simp

theorem get_coarse_second_level_descriptor_fields (vmi : vmi_instance) (vaddr : Nat)
    (info : page_info) :
    (get_coarse_second_level_descriptor vmi vaddr info).l1_a = info.l1_a ∧
    (get_coarse_second_level_descriptor vmi vaddr info).l1_v = info.l1_v ∧
    (get_coarse_second_level_descriptor vmi vaddr info).l2_a =
      (get_bits_31to10 info.l1_v ||| to_u32 (coarse_second_level_table_index vaddr <<< 2)) ∧
    (∀ v, vmi.vmi_read_32_pa
        (get_bits_31to10 info.l1_v |||
          to_u32 (coarse_second_level_table_index vaddr <<< 2)) = some v →
      (get_coarse_second_level_descriptor vmi vaddr info).l2_v = to_u32 v) ∧
    (vmi.vmi_read_32_pa
        (get_bits_31to10 info.l1_v |||
          to_u32 (coarse_second_level_table_index vaddr <<< 2)) = none →
      (get_coarse_second_level_descriptor vmi vaddr info).l2_v = info.l2_v) := by
  unfold get_coarse_second_level_descriptor
  dsimp only
  cases h : vmi.vmi_read_32_pa
      (get_bits_31to10 info.l1_v ||| to_u32 (coarse_second_level_table_index vaddr <<< 2)) with
  | none => simp
  | some v => simp

theorem get_fine_second_level_descriptor_fields (vmi : vmi_instance) (vaddr : Nat)
    (info : page_info) :
    (get_fine_second_level_descriptor vmi vaddr info).l1_a = info.l1_a ∧
    (get_fine_second_level_descriptor vmi vaddr info).l1_v = info.l1_v ∧
    (get_fine_second_level_descriptor vmi vaddr info).l2_a =
      (get_bits_31to12 info.l1_v ||| fine_second_level_table_index vaddr ||| 3) ∧
    (∀ v, vmi.vmi_read_32_pa
        (get_bits_31to12 info.l1_v ||| fine_second_level_table_index vaddr ||| 3) = some v →
      (get_fine_second_level_descriptor vmi vaddr info).l2_v = to_u32 v) ∧
    (vmi.vmi_read_32_pa
        (get_bits_31to12 info.l1_v ||| fine_second_level_table_index vaddr ||| 3) = none →
      (get_fine_second_level_descriptor vmi vaddr info).l2_v = info.l2_v) := by
  unfold get_fine_second_level_descriptor
  dsimp only
  cases h : vmi.vmi_read_32_pa
      (get_bits_31to12 info.l1_v ||| fine_second_level_table_index vaddr ||| 3) with
  | none => simp
  | some v => simp

/-- C28: the ARM walker fills the diagnostic fields on every call. After
`v2p_arm`, `info.l1_a` is the address of the first-level descriptor that was
read and, when that read succeeded with value `v`, `info.l1_v` is `v` (as a
32-bit value).  When the first-level type is `01` (coarse) or `11` (fine),
`info.l2_a` is the address of the second-level descriptor that was read and,
when that read succeeded, `info.l2_v` is the value read.  When the type is
`10` (section, supersection) or `00` (fault), `l2_a` and `l2_v` keep the values
they had on entry. -/
theorem v2p_arm_fills_descriptor_fields (vmi : vmi_instance) (dtb vaddr : Nat)
    (info : page_info) :
    (v2p_arm vmi dtb vaddr info).2.l1_a =
      (get_bits_31to14 dtb ||| to_u32 (first_level_table_index vaddr <<< 2)) ∧
    (∀ v, vmi.vmi_read_32_pa (v2p_arm vmi dtb vaddr info).2.l1_a = some v →
      (v2p_arm vmi dtb vaddr info).2.l1_v = to_u32 v) ∧
    ((v2p_arm vmi dtb vaddr info).2.l1_v &&& 3 = 1 →
      (v2p_arm vmi dtb vaddr info).2.l2_a =
        (get_bits_31to10 (v2p_arm vmi dtb vaddr info).2.l1_v |||
          to_u32 (coarse_second_level_table_index vaddr <<< 2)) ∧
      ∀ v, vmi.vmi_read_32_pa (v2p_arm vmi dtb vaddr info).2.l2_a = some v →
        (v2p_arm vmi dtb vaddr info).2.l2_v = to_u32 v) ∧
    ((v2p_arm vmi dtb vaddr info).2.l1_v &&& 3 = 3 →
      (v2p_arm vmi dtb vaddr info).2.l2_a =
        (get_bits_31to12 (v2p_arm vmi dtb vaddr info).2.l1_v |||
          fine_second_level_table_index vaddr ||| 3) ∧
      ∀ v, vmi.vmi_read_32_pa (v2p_arm vmi dtb vaddr info).2.l2_a = some v →
        (v2p_arm vmi dtb vaddr info).2.l2_v = to_u32 v) ∧
    (((v2p_arm vmi dtb vaddr info).2.l1_v &&& 3 = 2 ∨
        (v2p_arm vmi dtb vaddr info).2.l1_v &&& 3 = 0) →
      (v2p_arm vmi dtb vaddr info).2.l2_a = info.l2_a ∧
      (v2p_arm vmi dtb vaddr info).2.l2_v = info.l2_v) := by
  obtain ⟨f1, f2, _, f4, f5⟩ := get_first_level_descriptor_fields vmi dtb vaddr info
  generalize hi1 : get_first_level_descriptor vmi dtb vaddr info = info1 at f1 f2 f4 f5
  have hv : v2p_arm vmi dtb vaddr info =
      ((if info1.l1_v &&& 3 = 1 then
          v2p_arm_section vaddr
            (v2p_arm_coarse_leaf vaddr (get_coarse_second_level_descriptor vmi vaddr info1))
        else if info1.l1_v &&& 3 = 2 then v2p_arm_section vaddr info1
        else if info1.l1_v &&& 3 = 3 then
          v2p_arm_fine_leaf vaddr (get_fine_second_level_descriptor vmi vaddr info1)
        else info1).paddr,
       (if info1.l1_v &&& 3 = 1 then
          v2p_arm_section vaddr
            (v2p_arm_coarse_leaf vaddr (get_coarse_second_level_descriptor vmi vaddr info1))
        else if info1.l1_v &&& 3 = 2 then v2p_arm_section vaddr info1
        else if info1.l1_v &&& 3 = 3 then
          v2p_arm_fine_leaf vaddr (get_fine_second_level_descriptor vmi vaddr info1)
        else info1)) := by
    unfold v2p_arm; rw [hi1]
  rw [hv]
  dsimp only
  obtain ⟨s1, s2, s3, s4⟩ := v2p_arm_section_fields vaddr
    (v2p_arm_coarse_leaf vaddr (get_coarse_second_level_descriptor vmi vaddr info1))
  obtain ⟨c1, c2, c3, c4⟩ := v2p_arm_coarse_leaf_fields vaddr
    (get_coarse_second_level_descriptor vmi vaddr info1)
  obtain ⟨g1, g2, g3, g4, _⟩ := get_coarse_second_level_descriptor_fields vmi vaddr info1
  obtain ⟨t1, t2, t3, t4⟩ := v2p_arm_section_fields vaddr info1
  obtain ⟨l1, l2, l3, l4⟩ := v2p_arm_fine_leaf_fields vaddr
    (get_fine_second_level_descriptor vmi vaddr info1)
  obtain ⟨h1, h2, h3, h4, _⟩ := get_fine_second_level_descriptor_fields vmi vaddr info1
  by_cases k1 : info1.l1_v &&& 3 = 1
  · rw [if_pos k1]
    rw [s1, s2, s3, s4, c1, c2, c3, c4, g1, g2, g3]
    refine ⟨f1, ?_, ?_, ?_, ?_⟩
    · intro v hr; rw [f1] at hr; exact f2 v hr
    · intro _; exact ⟨rfl, g4⟩
    · intro k; omega
    · intro k; omega
  · rw [if_neg k1]
    by_cases k2 : info1.l1_v &&& 3 = 2
    · rw [if_pos k2, t1, t2, t3, t4]
      refine ⟨f1, ?_, ?_, ?_, ?_⟩
      · intro v hr; rw [f1] at hr; exact f2 v hr
      · intro k; omega
      · intro k; omega
      · intro _; exact ⟨f4, f5⟩
    · rw [if_neg k2]
      by_cases k3 : info1.l1_v &&& 3 = 3
      · rw [if_pos k3, l1, l2, l3, l4, h1, h2, h3]
        refine ⟨f1, ?_, ?_, ?_, ?_⟩
        · intro v hr; rw [f1] at hr; exact f2 v hr
        · intro k; omega
        · intro _; exact ⟨rfl, h4⟩
        · intro k; omega
      · rw [if_neg k3]
        refine ⟨f1, ?_, ?_, ?_, ?_⟩
        · intro v hr; rw [f1] at hr; exact f2 v hr
        · intro k; omega
        · intro k; omega
        · intro _; exact ⟨f4, f5⟩

set_option maxRecDepth 10000 in
theorem v2p_arm_fills_descriptor_fields_witness :
    (v2p_arm arm_coarse_small_memory 0x4000 0x1234 page_info_zero).2.l1_v &&& 3 = 1 ∧
    (v2p_arm arm_coarse_small_memory 0x4000 0x1234 page_info_zero).2.l1_a =
      (get_bits_31to14 0x4000 ||| to_u32 (first_level_table_index 0x1234 <<< 2)) ∧
    (v2p_arm arm_coarse_small_memory 0x4000 0x1234 page_info_zero).2.l2_a =
      (get_bits_31to10 (v2p_arm arm_coarse_small_memory 0x4000 0x1234 page_info_zero).2.l1_v |||
        to_u32 (coarse_second_level_table_index 0x1234 <<< 2)) :=
  ⟨by decide,
    (v2p_arm_fills_descriptor_fields arm_coarse_small_memory 0x4000 0x1234 page_info_zero).1,
    ((v2p_arm_fills_descriptor_fields arm_coarse_small_memory 0x4000 0x1234
      page_info_zero).2.2.1 (by decide)).1⟩

theorem or_lt_u32 (a b : Nat) (ha : a < 4294967296) (hb : b < 4294967296) :
    a ||| b < 4294967296 := by
  have h32 : (4294967296 : Nat) = 2 ^ 32 := by norm_num
  rw [h32] at *
  exact Nat.or_lt_two_pow ha hb

theorem to_u32_and_lt (x m : Nat) (hm : m < 4294967296) : to_u32 x &&& m < 4294967296 :=
  lt_of_le_of_lt Nat.and_le_right hm

theorem v2p_arm_section_paddr_lt (vaddr : Nat) (info : page_info)
    (h : info.paddr < 4294967296) : (v2p_arm_section vaddr info).paddr < 4294967296 := by
  unfold v2p_arm_section
  split
  · exact h
  · exact or_lt_u32 _ _ (to_u32_and_lt _ _ (by norm_num)) (to_u32_and_lt _ _ (by norm_num))

theorem v2p_arm_coarse_leaf_paddr_lt (vaddr : Nat) (info : page_info)
    (h : info.paddr < 4294967296) : (v2p_arm_coarse_leaf vaddr info).paddr < 4294967296 := by
  unfold v2p_arm_coarse_leaf
  split
  · exact or_lt_u32 _ _ (to_u32_and_lt _ _ (by norm_num)) (to_u32_and_lt _ _ (by norm_num))
  · split
    · exact or_lt_u32 _ _ (to_u32_and_lt _ _ (by norm_num)) (to_u32_and_lt _ _ (by norm_num))
    · exact h

theorem v2p_arm_fine_leaf_paddr_lt (vaddr : Nat) (info : page_info)
    (h : info.paddr < 4294967296) : (v2p_arm_fine_leaf vaddr info).paddr < 4294967296 := by
  unfold v2p_arm_fine_leaf
  split
  · exact or_lt_u32 _ _ (to_u32_and_lt _ _ (by norm_num)) (to_u32_and_lt _ _ (by norm_num))
  · split
    · exact or_lt_u32 _ _ (to_u32_and_lt _ _ (by norm_num)) (to_u32_and_lt _ _ (by norm_num))
    · split
      · exact or_lt_u32 _ _ (to_u32_and_lt _ _ (by norm_num)) (to_u32_and_lt _ _ (by norm_num))
      · exact h

theorem get_coarse_second_level_descriptor_paddr (vmi : vmi_instance) (vaddr : Nat)
    (info : page_info) :
    (get_coarse_second_level_descriptor vmi vaddr info).paddr = info.paddr := by
  unfold get_coarse_second_level_descriptor
  dsimp only
  split <;> rfl

theorem get_fine_second_level_descriptor_paddr (vmi : vmi_instance) (vaddr : Nat)
    (info : page_info) :
    (get_fine_second_level_descriptor vmi vaddr info).paddr = info.paddr := by
  unfold get_fine_second_level_descriptor
  dsimp only
  split <;> rfl

theorem v2p_arm_paddr_lt (vmi : vmi_instance) (dtb vaddr : Nat) (info : page_info)
    (h : info.paddr < 4294967296) : (v2p_arm vmi dtb vaddr info).1 < 4294967296 := by
  have h1 : (get_first_level_descriptor vmi dtb vaddr info).paddr < 4294967296 := by
    rw [get_first_level_descriptor_paddr]; exact h
  unfold v2p_arm
  dsimp only
  split
  · apply v2p_arm_section_paddr_lt
    apply v2p_arm_coarse_leaf_paddr_lt
    rw [get_coarse_second_level_descriptor_paddr]; exact h1
  · split
    · exact v2p_arm_section_paddr_lt _ _ h1
    · split
      · apply v2p_arm_fine_leaf_paddr_lt
        rw [get_fine_second_level_descriptor_paddr]; exact h1
      · exact h1

/-- C29, counterexample: a physical address at or above the memory size. With
16 MiB of guest memory (`vmi->size = 0x1000000`) and the section descriptor
`0xFFF00C02`, `v2p_arm` returns `0xFFF01234` for `vaddr = 0xC0001234`: a
non-zero result that is not below `vmi->size`. -/
theorem v2p_arm_result_beyond_memory :
    (v2p_arm arm_high_section_memory 0x4000 0xC0001234 page_info_zero).1 = 0xFFF01234 ∧
    arm_high_section_memory.size = 0x1000000 ∧
    (v2p_arm arm_high_section_memory 0x4000 0xC0001234 page_info_zero).1 ≠ 0 ∧
    ¬ (v2p_arm arm_high_section_memory 0x4000 0xC0001234 page_info_zero).1 <
        arm_high_section_memory.size := by
  decide

/-- C29, amended: `v2p_arm` never compares its result with `vmi->size`. For
every dtb, vaddr and memory content, when the caller passes an `info` whose
`paddr` is below 2^32 (a zero-initialised one, for instance) the physical
address returned is strictly below 2^32, and the whole outcome is the same
whatever the memory size of the instance is. -/
theorem v2p_arm_result_ignores_size (vmi : vmi_instance) (dtb vaddr : Nat)
    (info : page_info) (h : info.paddr < 4294967296) :
    (v2p_arm vmi dtb vaddr info).1 < 4294967296 ∧
    ∀ size : Nat,
      v2p_arm { vmi with size := size } dtb vaddr info = v2p_arm vmi dtb vaddr info :=
  ⟨v2p_arm_paddr_lt vmi dtb vaddr info h, fun _ => rfl⟩

theorem v2p_arm_result_ignores_size_witness :
    (v2p_arm arm_high_section_memory 0x4000 0xC0001234 page_info_zero).1 < 4294967296 ∧
    ∀ size : Nat,
      v2p_arm { arm_high_section_memory with size := size } 0x4000 0xC0001234 page_info_zero =
        v2p_arm arm_high_section_memory 0x4000 0xC0001234 page_info_zero :=
  v2p_arm_result_ignores_size arm_high_section_memory 0x4000 0xC0001234 page_info_zero
    (by decide)

/-- C30: page enumeration on ARM is empty. For every instance and dtb,
`get_va_pages_arm` returns the empty list; `arm_init` returns `VMI_SUCCESS`
and leaves a vtable whose `v2p` slot is `v2p_arm` and whose `get_va_pages` slot
is `get_va_pages_arm` (a call through the slots runs these two functions), and
it changes nothing else in the instance. -/
theorem arm_init_installs_arm_functions (vmi : vmi_instance) (dtb : Nat) :
    get_va_pages_arm vmi dtb = [] ∧
    (arm_init vmi).1 = VMI_SUCCESS ∧
    (∃ a : arch_interface, (arm_init vmi).2.arch_interface = some a ∧
      a.v2p = some v2p_fn.v2p_arm ∧
      a.get_va_pages = some get_va_pages_fn.get_va_pages_arm) ∧
    (∀ (vaddr : Nat) (info : page_info),
      call_v2p v2p_fn.v2p_arm vmi dtb vaddr info = some (v2p_arm vmi dtb vaddr info)) ∧
    call_get_va_pages get_va_pages_fn.get_va_pages_arm vmi dtb = some [] ∧
    { (arm_init vmi).2 with arch_interface := vmi.arch_interface } = vmi := by
  refine ⟨rfl, rfl, ⟨_, rfl, rfl, rfl⟩, fun _ _ => rfl, rfl, ?_⟩
  cases vmi; rfl

/-! ## `core.c`: initialisation -/

theorem strncmp_eq_zero_iff_of_lt (s lit : String) (n : Nat) (hn : lit.length < n)
    (hs : c_string s) (hl : c_string lit) : strncmp s lit n = 0 ↔ s = lit := by
  unfold strncmp
  rw [strncmp_chars_eq_zero_iff s.data lit.data n hn hs hl]
  constructor
  · intro h; exact String.ext h
  · intro h; rw [h]

theorem set_os_type_lookup_eq (table : Option vmi_config) (v : Option String)
    (hv : (∃ s, g_hash_table_lookup table "ostype" = some s ∧ v = some s) ∨
      (g_hash_table_lookup table "ostype" = none ∧
        v = g_hash_table_lookup table "os_type")) :
    set_os_type_lookup table = v := by
  unfold set_os_type_lookup
  rcases hv with ⟨s, h1, h2⟩ | ⟨h1, h2⟩
  · rw [h1, h2]
  · rw [h1, h2]

theorem set_os_type_from_string_result (c : vmi_flags) (vmi : vmi_instance)
    (v : Option String) (hlen : 7 < c.CONFIG_STR_LENGTH)
    (hstr : ∀ s, v = some s → c_string s) :
    ((set_os_type_from_string c vmi v).1 = VMI_SUCCESS ↔
      (v = some "Linux" ∨ v = some "Windows")) ∧
    (v = some "Linux" →
      (set_os_type_from_string c vmi v).2 = { vmi with os_type := os_t.VMI_OS_LINUX }) ∧
    (v = some "Windows" →
      (set_os_type_from_string c vmi v).2 = { vmi with os_type := os_t.VMI_OS_WINDOWS }) ∧
    ((set_os_type_from_string c vmi v).1 = VMI_FAILURE →
      (set_os_type_from_string c vmi v).2 = vmi) := by
  unfold set_os_type_from_string
  cases v with
  | none => simp
  | some s =>
    have hs := hstr s rfl
    have hL : strncmp s "Linux" c.CONFIG_STR_LENGTH = 0 ↔ s = "Linux" :=
      strncmp_eq_zero_iff_of_lt s "Linux" _ (by simp [String.length]; omega) hs (by decide)
    have hW : strncmp s "Windows" c.CONFIG_STR_LENGTH = 0 ↔ s = "Windows" :=
      strncmp_eq_zero_iff_of_lt s "Windows" _ (by simp [String.length]; omega) hs (by decide)
    dsimp only
    by_cases h1 : s = "Linux"
    · have := hL.2 h1
      rw [if_pos this]
      subst h1
      simp
    · have n1 : ¬ strncmp s "Linux" c.CONFIG_STR_LENGTH = 0 := fun h => h1 (hL.1 h)
      rw [if_neg n1]
      by_cases h2 : s = "Windows"
      · have := hW.2 h2
        rw [if_pos this]
        subst h2
        simp
      · have n2 : ¬ strncmp s "Windows" c.CONFIG_STR_LENGTH = 0 := fun h => h2 (hW.1 h)
        rw [if_neg n2]
        simp [h1, h2]

/-- C24: OS type from the config map. Let `v` be the value stored under
`ostype` when that key is present, otherwise the value under `os_type`; values
are C strings, and `CONFIG_STR_LENGTH` exceeds the length of `Windows`.  Then
`set_os_type_from_config` returns `VMI_SUCCESS` exactly when `v` is `Linux` or
`Windows` (case-sensitive) and sets `os_type` to linux or windows
respectively; whenever it fails, `os_type` is unknown; and `os_data` is `NULL`
afterwards in every case. -/
theorem set_os_type_from_config_result (c : vmi_flags) (vmi : vmi_instance)
    (v : Option String)
    (hv : (∃ s, g_hash_table_lookup vmi.config "ostype" = some s ∧ v = some s) ∨
      (g_hash_table_lookup vmi.config "ostype" = none ∧
        v = g_hash_table_lookup vmi.config "os_type"))
    (hlen : 7 < c.CONFIG_STR_LENGTH)
    (hstr : ∀ s, v = some s → c_string s) :
    ((set_os_type_from_config c vmi).1 = VMI_SUCCESS ↔
      (v = some "Linux" ∨ v = some "Windows")) ∧
    (v = some "Linux" → (set_os_type_from_config c vmi).2.os_type = os_t.VMI_OS_LINUX) ∧
    (v = some "Windows" →
      (set_os_type_from_config c vmi).2.os_type = os_t.VMI_OS_WINDOWS) ∧
    ((set_os_type_from_config c vmi).1 = VMI_FAILURE →
      (set_os_type_from_config c vmi).2.os_type = os_t.VMI_OS_UNKNOWN) ∧
    (set_os_type_from_config c vmi).2.os_data = none := by
  unfold set_os_type_from_config
  rw [set_os_type_lookup_eq vmi.config v hv]
  obtain ⟨r1, r2, r3, r4⟩ := set_os_type_from_string_result c
    { vmi with os_type := os_t.VMI_OS_UNKNOWN, os_data := none } v hlen hstr
  refine ⟨r1, ?_, ?_, ?_, ?_⟩
  · intro h; rw [r2 h]
  · intro h; rw [r3 h]
  · intro h; rw [r4 h]
  · cases hs : (set_os_type_from_string c
        { vmi with os_type := os_t.VMI_OS_UNKNOWN, os_data := none } v).1 with
    | VMI_FAILURE => rw [r4 hs]
    | VMI_SUCCESS =>
      rcases r1.1 hs with h | h
      · rw [r2 h]
      · rw [r3 h]

theorem set_os_type_from_config_result_witness :
    ((∃ s, g_hash_table_lookup (some vmi_config_neither_example) "ostype" = some s ∧
        some "linux" = some s) ∨
      (g_hash_table_lookup (some vmi_config_neither_example) "ostype" = none ∧
        some "linux" = g_hash_table_lookup (some vmi_config_neither_example) "os_type")) ∧
    (set_os_type_from_config vmi_flags_example
      { vmi_instance_zero with config := some vmi_config_neither_example }).1 = VMI_FAILURE ∧
    (set_os_type_from_config vmi_flags_example
      { vmi_instance_zero with config := some vmi_config_neither_example }).2.os_type =
        os_t.VMI_OS_UNKNOWN :=
  have h := set_os_type_from_config_result vmi_flags_example
    { vmi_instance_zero with config := some vmi_config_neither_example } (some "linux")
    (Or.inl ⟨"linux", rfl, rfl⟩) (by decide) (by intro s hs; cases hs; decide)
  ⟨Or.inl ⟨"linux", rfl, rfl⟩, by decide, h.2.2.2.1 (by decide)⟩

theorem set_driver_type_config_mode (c : vmi_flags) (env : core_env) (vmi : vmi_instance)
    (mode id : Nat) (name : Option String) :
    (set_driver_type c env vmi mode id name).2.config_mode = vmi.config_mode := by
  unfold set_driver_type
  split
  · split <;> rfl
  · rfl

theorem set_id_and_name_config_mode (c : vmi_flags) (env : core_env) (vmi : vmi_instance)
    (mode id : Nat) (name : Option String) :
    (set_id_and_name c env vmi mode id name).2.config_mode = vmi.config_mode := by
  unfold set_id_and_name
  repeat' (first | split | rfl)

theorem vmi_init_driver_config_mode (c : vmi_flags) (env : core_env) (flags id : Nat)
    (name : Option String) :
    (vmi_init_driver c env flags id name).2.config_mode = to_u32 flags &&& 0xFF000000 := by
  unfold vmi_init_driver
  dsimp only
  have e0 : (vmi_init_start c env flags).config_mode = to_u32 flags &&& 0xFF000000 := rfl
  generalize vmi_init_start c env flags = vmi0 at e0 ⊢
  have e1 := set_driver_type_config_mode c env vmi0 (to_u32 flags &&& 0x0000FFFF) id name
  rcases h1 : set_driver_type c env vmi0 (to_u32 flags &&& 0x0000FFFF) id name with ⟨st1, v1⟩
  rw [h1] at e1
  dsimp only at e1
  cases st1
  swap
  · dsimp only; rw [e1, e0]
  dsimp only
  have e2 := set_id_and_name_config_mode c env v1 (to_u32 flags &&& 0x0000FFFF) id name
  rcases h2 : set_id_and_name c env v1 (to_u32 flags &&& 0x0000FFFF) id name with ⟨st2, v2⟩
  rw [h2] at e2
  dsimp only at e2
  have e3 : v2.config_mode = to_u32 flags &&& 0xFF000000 := by rw [e2, e1, e0]
  cases st2
  swap
  · exact e3
  dsimp only
  cases env.driver_init v2
  swap
  · exact e3
  dsimp only
  unfold init_page_offset
  dsimp only
  split
  · exact e3
  · split
    · split <;> exact e3
    · exact e3

theorem vmi_init_config_rejects (c : vmi_flags) (env : core_env) (vmi : vmi_instance)
    (config : Option vmi_config_t) (hd : config_sources_distinct c)
    (hsource : vmi.config_mode = c.VMI_CONFIG_NONE ∨
      (vmi.config_mode ≠ c.VMI_CONFIG_STRING ∧
        vmi.config_mode ≠ c.VMI_CONFIG_GLOBAL_FILE_ENTRY ∧
        vmi.config_mode ≠ c.VMI_CONFIG_GHASHTABLE) ∨
      (vmi.config_mode = c.VMI_CONFIG_GHASHTABLE ∧ config = none)) :
    vmi_init_config c env vmi config = some (VMI_FAILURE, vmi) := by
  obtain ⟨d1, d2, d3, d4, d5, d6⟩ := hd
  unfold vmi_init_config
  rcases hsource with h | ⟨h1, h2, h3⟩ | ⟨h, hn⟩
  · rw [if_neg (by rw [h]; exact d2), if_neg (by rw [h]; exact d1),
      if_neg (by rw [h]; exact d3)]
  · rw [if_neg h1, if_neg h2, if_neg h3]
  · rw [if_neg (by rw [h]; exact fun e => d6 e.symm),
      if_neg (by rw [h]; exact fun e => d5 e.symm), if_pos h, hn]

/-- C21: a complete init needs a config source. For every id, name and config
argument, when `VMI_INIT_COMPLETE` is set in the init-mode bits of the flags
and the config-source bits are `VMI_CONFIG_NONE`, or are none of
`VMI_CONFIG_STRING`, `VMI_CONFIG_GLOBAL_FILE_ENTRY`, `VMI_CONFIG_GHASHTABLE`,
or are `VMI_CONFIG_GHASHTABLE` while the config argument is `NULL`, then
`vmi_init_private` returns `VMI_FAILURE`. -/
theorem vmi_init_private_complete_needs_config (c : vmi_flags) (env : core_env)
    (flags id : Nat) (name : Option String) (config : Option vmi_config_t)
    (hd : config_sources_distinct c)
    (hcomplete : (to_u32 flags &&& 0x00FF0000) &&& c.VMI_INIT_COMPLETE ≠ 0)
    (hsource : to_u32 flags &&& 0xFF000000 = c.VMI_CONFIG_NONE ∨
      (to_u32 flags &&& 0xFF000000 ≠ c.VMI_CONFIG_STRING ∧
        to_u32 flags &&& 0xFF000000 ≠ c.VMI_CONFIG_GLOBAL_FILE_ENTRY ∧
        to_u32 flags &&& 0xFF000000 ≠ c.VMI_CONFIG_GHASHTABLE) ∨
      (to_u32 flags &&& 0xFF000000 = c.VMI_CONFIG_GHASHTABLE ∧ config = none)) :
    ∃ v, vmi_init_private c env flags id name config = some (VMI_FAILURE, v) := by
  unfold vmi_init_private
  dsimp only
  have e := vmi_init_driver_config_mode c env flags id name
  rcases h : vmi_init_driver c env flags id name with ⟨st, v⟩
  rw [h] at e
  dsimp only at e
  cases st
  · dsimp only
    rw [if_pos hcomplete, vmi_init_config_rejects c env v config hd (by rw [e]; exact hsource)]
    exact ⟨v, rfl⟩
  · exact ⟨v, rfl⟩

theorem vmi_init_private_complete_needs_config_witness :
    config_sources_distinct vmi_flags_example ∧
    (to_u32 0x01020008 &&& 0x00FF0000) &&& vmi_flags_example.VMI_INIT_COMPLETE ≠ 0 ∧
    to_u32 0x01020008 &&& 0xFF000000 = vmi_flags_example.VMI_CONFIG_NONE ∧
    ∃ v, vmi_init_private vmi_flags_example core_env_example 0x01020008
      vmi_flags_example.VMI_INVALID_DOMID (some "/tmp/win7.dd") none =
        some (VMI_FAILURE, v) :=
  ⟨by decide, by decide, by decide,
    vmi_init_private_complete_needs_config vmi_flags_example core_env_example 0x01020008
      vmi_flags_example.VMI_INVALID_DOMID (some "/tmp/win7.dd") none (by decide) (by decide)
      (Or.inl (by decide))⟩

/-- C22: exactly one of name and domid. With the hash-table config source,
`vmi_init_custom` returns `VMI_FAILURE`, calls no initialiser and leaves the
instance as it was when the table holds both a `name` and a `domid` other than
`VMI_INVALID_DOMID`, and when it holds no `name` and no valid `domid`.  On an
instance whose mode is not file, `set_id_and_name` returns `VMI_FAILURE` when
both a name and a valid id are given and when neither is given. -/
theorem name_and_domid_exactly_one (c : vmi_flags) (env : core_env)
    (old vmi : vmi_instance) (flags mode id : Nat) (cfg : vmi_config_t)
    (name : Option String) (hd : config_sources_distinct c)
    (hsource : to_u32 flags &&& 0xFF000000 = c.VMI_CONFIG_GHASHTABLE)
    (hfile : vmi.mode ≠ vmi_mode_t.VMI_FILE) :
    ((cfg.as_table.lookup_string "name" ≠ none ∧
        ∃ d, cfg.as_table.lookup_ulong "domid" = some d ∧ d ≠ c.VMI_INVALID_DOMID) →
      vmi_init_custom c env old flags (some cfg) =
        some { ret := VMI_FAILURE, vmi := old, calls := [] }) ∧
    ((cfg.as_table.lookup_string "name" = none ∧
        (cfg.as_table.lookup_ulong "domid" = none ∨
          cfg.as_table.lookup_ulong "domid" = some c.VMI_INVALID_DOMID)) →
      vmi_init_custom c env old flags (some cfg) =
        some { ret := VMI_FAILURE, vmi := old, calls := [] }) ∧
    ((name ≠ none ∧ id ≠ c.VMI_INVALID_DOMID) →
      (set_id_and_name c env vmi mode id name).1 = VMI_FAILURE) ∧
    ((name = none ∧ id = c.VMI_INVALID_DOMID) →
      (set_id_and_name c env vmi mode id name).1 = VMI_FAILURE) := by
  obtain ⟨d1, d2, d3, d4, d5, d6⟩ := hd
  refine ⟨?_, ?_, ?_, ?_⟩
  · rintro ⟨hn, d, hdm, hne⟩
    unfold vmi_init_custom
    dsimp only
    rw [hsource, if_neg d5, if_neg (fun e => d6 e), if_pos rfl]
    simp only [Option.map, g_hash_table_lookup, g_hash_table_lookup_extended, hdm]
    rw [if_pos ⟨hn, hne⟩]
  · rintro ⟨hn, hdm⟩
    unfold vmi_init_custom
    dsimp only
    rw [hsource, if_neg d5, if_neg (fun e => d6 e), if_pos rfl]
    simp only [Option.map, g_hash_table_lookup, g_hash_table_lookup_extended, hn]
    rcases hdm with hdm | hdm <;> simp [hdm]
  · rintro ⟨hn, hid⟩
    unfold set_id_and_name
    rw [if_neg hfile, if_neg (fun e => hid e.symm)]
    cases name with
    | none => exact absurd rfl hn
    | some n => rfl
  · rintro ⟨hn, hid⟩
    unfold set_id_and_name
    rw [if_neg hfile, if_pos hid.symm, hn]

theorem name_and_domid_exactly_one_witness :
    config_sources_distinct vmi_flags_example ∧
    to_u32 0x08020002 &&& 0xFF000000 = vmi_flags_example.VMI_CONFIG_GHASHTABLE ∧
    ({ vmi_instance_zero with mode := vmi_mode_t.VMI_XEN } : vmi_instance).mode ≠
      vmi_mode_t.VMI_FILE ∧
    vmi_init_custom vmi_flags_example core_env_example vmi_instance_zero 0x08020002
      (some { as_string := "", as_table := vmi_config_both_example }) =
        some { ret := VMI_FAILURE, vmi := vmi_instance_zero, calls := [] } ∧
    (set_id_and_name vmi_flags_example core_env_example
      { vmi_instance_zero with mode := vmi_mode_t.VMI_XEN } 0x2 5 (some "win7")).1 =
        VMI_FAILURE ∧
    (set_id_and_name vmi_flags_example core_env_example
      { vmi_instance_zero with mode := vmi_mode_t.VMI_XEN } 0x2
      vmi_flags_example.VMI_INVALID_DOMID none).1 = VMI_FAILURE :=
  ⟨by decide, by decide, by decide,
    (name_and_domid_exactly_one vmi_flags_example core_env_example vmi_instance_zero
      { vmi_instance_zero with mode := vmi_mode_t.VMI_XEN } 0x08020002 0x2 5
      { as_string := "", as_table := vmi_config_both_example } (some "win7")
      (by decide) (by decide) (by decide)).1 ⟨by decide, 5, rfl, by decide⟩,
    (name_and_domid_exactly_one vmi_flags_example core_env_example vmi_instance_zero
      { vmi_instance_zero with mode := vmi_mode_t.VMI_XEN } 0x08020002 0x2 5
      { as_string := "", as_table := vmi_config_both_example } (some "win7")
      (by decide) (by decide) (by decide)).2.2.1 ⟨by simp, by decide⟩,
    (name_and_domid_exactly_one vmi_flags_example core_env_example vmi_instance_zero
      { vmi_instance_zero with mode := vmi_mode_t.VMI_XEN } 0x08020002 0x2
      vmi_flags_example.VMI_INVALID_DOMID
      { as_string := "", as_table := vmi_config_both_example } none
      (by decide) (by decide) (by decide)).2.2.2 ⟨rfl, rfl⟩⟩

/-- C23, counterexample: in file mode, `set_id_and_name` called without a name
and with `VMI_INVALID_DOMID` returns `VMI_FAILURE` (the branch that prints
"Must specify name for file mode."). -/
theorem set_id_and_name_file_without_name :
    (set_id_and_name vmi_flags_example core_env_example
      { vmi_instance_zero with mode := vmi_mode_t.VMI_FILE } 0x8
      vmi_flags_example.VMI_INVALID_DOMID none).1 = VMI_FAILURE := by
  decide

/-- C23, amended: in file mode the name is required and the id is ignored.
When `vmi->mode` is file, `set_id_and_name` returns `VMI_SUCCESS` exactly
when a name is given, whatever the id is; without a name it returns
`VMI_FAILURE` and leaves the instance unchanged. -/
theorem set_id_and_name_file_needs_name (c : vmi_flags) (env : core_env)
    (vmi : vmi_instance) (mode id : Nat) (name : Option String)
    (hfile : vmi.mode = vmi_mode_t.VMI_FILE) :
    ((set_id_and_name c env vmi mode id name).1 = VMI_SUCCESS ↔ name ≠ none) ∧
    (name = none → set_id_and_name c env vmi mode id name = (VMI_FAILURE, vmi)) := by
  unfold set_id_and_name
  rw [if_pos hfile]
  cases name with
  | none => simp
  | some n => simp

theorem set_id_and_name_file_needs_name_witness :
    ({ vmi_instance_zero with mode := vmi_mode_t.VMI_FILE } : vmi_instance).mode =
      vmi_mode_t.VMI_FILE ∧
    (set_id_and_name vmi_flags_example core_env_example
      { vmi_instance_zero with mode := vmi_mode_t.VMI_FILE } 0x8 5
      (some "/tmp/win7.dd")).1 = VMI_SUCCESS :=
  ⟨rfl, ((set_id_and_name_file_needs_name vmi_flags_example core_env_example
    { vmi_instance_zero with mode := vmi_mode_t.VMI_FILE } 0x8 5
    (some "/tmp/win7.dd") rfl).1).2 (by simp)⟩


theorem vmi_init_config_accepts (c : vmi_flags) (env : core_env) (vmi v1 : vmi_instance)
    (config : Option vmi_config_t)
    (h : vmi_init_config c env vmi config = some (VMI_SUCCESS, v1)) :
    vmi.config_mode = c.VMI_CONFIG_STRING ∨
    vmi.config_mode = c.VMI_CONFIG_GLOBAL_FILE_ENTRY ∨
    (vmi.config_mode = c.VMI_CONFIG_GHASHTABLE ∧ config ≠ none) := by
  unfold vmi_init_config at h
  by_cases h1 : vmi.config_mode = c.VMI_CONFIG_STRING
  · exact Or.inl h1
  · rw [if_neg h1] at h
    by_cases h2 : vmi.config_mode = c.VMI_CONFIG_GLOBAL_FILE_ENTRY
    · exact Or.inr (Or.inl h2)
    · rw [if_neg h2] at h
      by_cases h3 : vmi.config_mode = c.VMI_CONFIG_GHASHTABLE
      · rw [if_pos h3] at h
        cases config with
        | none => simp at h
        | some cfg => exact Or.inr (Or.inr ⟨h3, by simp⟩)
      · rw [if_neg h3] at h
        simp at h

theorem vmi_init_os_success (c : vmi_flags) (env : core_env) (v1 : vmi_instance)
    (h : (vmi_init_os c env v1).1 = VMI_SUCCESS) :
    ∃ v2, set_os_type_from_config c v1 = (VMI_SUCCESS, v2) ∧
      ((v2.os_type = os_t.VMI_OS_LINUX ∧ (env.linux_init v2).1 = VMI_SUCCESS) ∨
       (v2.os_type = os_t.VMI_OS_WINDOWS ∧ (env.windows_init v2).1 = VMI_SUCCESS)) := by
  unfold vmi_init_os at h
  rcases hs : set_os_type_from_config c v1 with ⟨st, v2⟩
  rw [hs] at h
  cases st
  · dsimp only at h
    refine ⟨v2, rfl, ?_⟩
    by_cases k1 : v2.os_type = os_t.VMI_OS_LINUX
    · rw [if_pos k1] at h
      exact Or.inl ⟨k1, h⟩
    · rw [if_neg k1] at h
      by_cases k2 : v2.os_type = os_t.VMI_OS_WINDOWS
      · rw [if_pos k2] at h
        exact Or.inr ⟨k2, h⟩
      · rw [if_neg k2] at h
        simp at h
  · simp at h

/-- C25: reaching the complete state. When `VMI_INIT_COMPLETE` is set and
`vmi_init_private` returns `VMI_SUCCESS`, the config source was one of the
three accepted ones (string, global file entry, or a non-`NULL` hash table)
and its reading succeeded, `set_os_type_from_config` succeeded, and the
initialiser that matches the resulting `os_type` (`linux_init` for linux,
`windows_init` for windows) returned `VMI_SUCCESS`.  When `VMI_INIT_COMPLETE`
is clear and `VMI_INIT_PARTIAL` is set, the status is that of the driver part
of the initialisation, and it stays the same when the config argument, the
config files, the config parser and the OS initialisers are replaced. -/
theorem vmi_init_private_success (c : vmi_flags) (env : core_env) (flags id : Nat)
    (name : Option String) (config : Option vmi_config_t) :
    (((to_u32 flags &&& 0x00FF0000) &&& c.VMI_INIT_COMPLETE ≠ 0 ∧
        (vmi_init_private c env flags id name config).map Prod.fst = some VMI_SUCCESS) →
      (to_u32 flags &&& 0xFF000000 = c.VMI_CONFIG_STRING ∨
        to_u32 flags &&& 0xFF000000 = c.VMI_CONFIG_GLOBAL_FILE_ENTRY ∨
        (to_u32 flags &&& 0xFF000000 = c.VMI_CONFIG_GHASHTABLE ∧ config ≠ none)) ∧
      ∃ v0 v1 v2, vmi_init_driver c env flags id name = (VMI_SUCCESS, v0) ∧
        vmi_init_config c env v0 config = some (VMI_SUCCESS, v1) ∧
        set_os_type_from_config c v1 = (VMI_SUCCESS, v2) ∧
        ((v2.os_type = os_t.VMI_OS_LINUX ∧ (env.linux_init v2).1 = VMI_SUCCESS) ∨
         (v2.os_type = os_t.VMI_OS_WINDOWS ∧ (env.windows_init v2).1 = VMI_SUCCESS))) ∧
    (((to_u32 flags &&& 0x00FF0000) &&& c.VMI_INIT_COMPLETE = 0 ∧
        (to_u32 flags &&& 0x00FF0000) &&& c.VMI_INIT_PARTIAL ≠ 0) →
      (vmi_init_private c env flags id name config).map Prod.fst =
        some (vmi_init_driver c env flags id name).1 ∧
      ∀ (config2 : Option vmi_config_t) (getenv2 getpwnam2 fopen2 : String → Option String)
        (parse2 : Option String → Option String → Int)
        (get_config2 : Option String → Option String → Option vmi_config)
        (linux_init2 windows_init2 : vmi_instance → status_t × vmi_instance),
        (vmi_init_private c
          { env with getenv := getenv2, getpwnam := getpwnam2, fopen := fopen2,
                     vmi_parse_config := parse2, vmi_get_config := get_config2,
                     linux_init := linux_init2, windows_init := windows_init2 }
          flags id name config2).map Prod.fst =
        (vmi_init_private c env flags id name config).map Prod.fst) := by
  have status_without_complete : ∀ (env1 : core_env) (cfg1 : Option vmi_config_t),
      (to_u32 flags &&& 0x00FF0000) &&& c.VMI_INIT_COMPLETE = 0 →
      (to_u32 flags &&& 0x00FF0000) &&& c.VMI_INIT_PARTIAL ≠ 0 →
      (vmi_init_private c env1 flags id name cfg1).map Prod.fst =
        some (vmi_init_driver c env1 flags id name).1 := by
    intro env1 cfg1 hc hp
    unfold vmi_init_private
    dsimp only
    rcases h : vmi_init_driver c env1 flags id name with ⟨st, v⟩
    cases st
    · dsimp only
      rw [if_neg (by rw [hc]; simp), if_pos hp]
      rfl
    · rfl
  constructor
  · rintro ⟨hc, hs⟩
    have e := vmi_init_driver_config_mode c env flags id name
    unfold vmi_init_private at hs
    dsimp only at hs
    rcases h : vmi_init_driver c env flags id name with ⟨st, v0⟩
    rw [h] at hs e
    dsimp only at e
    cases st
    swap
    · simp at hs
    dsimp only at hs
    rw [if_pos hc] at hs
    rcases hcfg : vmi_init_config c env v0 config with _ | ⟨st1, v1⟩
    · rw [hcfg] at hs; simp at hs
    rw [hcfg] at hs
    cases st1
    swap
    · simp at hs
    dsimp only at hs
    have hos : (vmi_init_os c env v1).1 = VMI_SUCCESS := by
      rcases ho : vmi_init_os c env v1 with ⟨st2, v2⟩
      rw [ho] at hs
      cases st2
      · rfl
      · simp at hs
    obtain ⟨v2, k1, k2⟩ := vmi_init_os_success c env v1 hos
    have acc := vmi_init_config_accepts c env v0 v1 config hcfg
    rw [e] at acc
    exact ⟨acc, v0, v1, v2, rfl, hcfg, k1, k2⟩
  · rintro ⟨hc, hp⟩
    refine ⟨status_without_complete env config hc hp, ?_⟩
    intro config2 getenv2 getpwnam2 fopen2 parse2 get_config2 linux_init2 windows_init2
    rw [status_without_complete _ config2 hc hp, status_without_complete env config hc hp]
    rfl

set_option maxRecDepth 100000 in
theorem vmi_init_private_success_witness :
    ((to_u32 0x02020008 &&& 0x00FF0000) &&& vmi_flags_example.VMI_INIT_COMPLETE ≠ 0 ∧
      (vmi_init_private vmi_flags_example core_env_example 0x02020008
        vmi_flags_example.VMI_INVALID_DOMID (some "/tmp/win7.dd") none).map Prod.fst =
        some VMI_SUCCESS) ∧
    (∃ v0 v1 v2, vmi_init_driver vmi_flags_example core_env_example 0x02020008
          vmi_flags_example.VMI_INVALID_DOMID (some "/tmp/win7.dd") = (VMI_SUCCESS, v0) ∧
        vmi_init_config vmi_flags_example core_env_example v0 none = some (VMI_SUCCESS, v1) ∧
        set_os_type_from_config vmi_flags_example v1 = (VMI_SUCCESS, v2) ∧
        ((v2.os_type = os_t.VMI_OS_LINUX ∧
            (core_env_example.linux_init v2).1 = VMI_SUCCESS) ∨
         (v2.os_type = os_t.VMI_OS_WINDOWS ∧
            (core_env_example.windows_init v2).1 = VMI_SUCCESS))) ∧
    ((to_u32 0x00010008 &&& 0x00FF0000) &&& vmi_flags_example.VMI_INIT_COMPLETE = 0 ∧
      (to_u32 0x00010008 &&& 0x00FF0000) &&& vmi_flags_example.VMI_INIT_PARTIAL ≠ 0) ∧
    (vmi_init_private vmi_flags_example core_env_example 0x00010008
        vmi_flags_example.VMI_INVALID_DOMID (some "/tmp/win7.dd") none).map Prod.fst =
      some (vmi_init_driver vmi_flags_example core_env_example 0x00010008
        vmi_flags_example.VMI_INVALID_DOMID (some "/tmp/win7.dd")).1 :=
  ⟨⟨by decide, by decide⟩,
    ((vmi_init_private_success vmi_flags_example core_env_example 0x02020008
      vmi_flags_example.VMI_INVALID_DOMID (some "/tmp/win7.dd") none).1
        ⟨by decide, by decide⟩).2,
    ⟨by decide, by decide⟩,
    ((vmi_init_private_success vmi_flags_example core_env_example 0x00010008
      vmi_flags_example.VMI_INVALID_DOMID (some "/tmp/win7.dd") none).2
        ⟨by decide, by decide⟩).1⟩

/-! ## `os/windows/symbols.c`: the symbol map -/

theorem get_symbol_row_loop_failure_overrun (search : List Nat) (position fuel : Nat) :
    ∀ (heap : Nat → Nat) (row : Nat) (file : List Nat) (r : symbol_row_result),
      get_symbol_row_loop search position fuel heap row file = some r →
      r.ret = VMI_FAILURE → r.overrun = MAX_ROW_LENGTH - sizeof_char_pointer := by
  induction fuel with
  | zero => intro heap row file r h; simp [get_symbol_row_loop] at h
  | succ fuel ih =>
    intro heap row file r h hf
    unfold get_symbol_row_loop at h
    split at h
    · simp only [Option.some.injEq] at h
      rw [← h]; rfl
    · split at h
      · simp at h
      · split at h
        · dsimp only at h
          split at h
          · simp only [Option.some.injEq] at h
            rw [← h] at hf
            simp at hf
          · exact ih _ _ _ r h hf
        · simp only [Option.some.injEq] at h
          rw [← h]; rfl

/-- C26, evaluation: no symbol map configured. When the Windows OS state is
missing (`os_data == NULL`) or no sysmap path is configured (`NULL` or the
empty string), `windows_system_map_symbol_to_address` returns the literal `0`
for every symbol and subsymbol and leaves `*address` unchanged.  With the
enumerators of `status_t` numbered in their order of declaration, `0` is
`VMI_SUCCESS`, not `VMI_FAILURE`. -/
theorem sysmap_not_configured_returns_zero :
    (∀ (sv : status_values) (fopen : String → Option String) (heap : Nat → Nat)
        (vmi : vmi_instance) (symbol : String) (subsymbol : Option String)
        (kernel_base_vaddr address fuel : Nat),
      (vmi.os_data = none ∨
        (∃ w, vmi.os_data = some w ∧ (w.sysmap = none ∨ w.sysmap = some ""))) →
      windows_system_map_symbol_to_address sv fopen heap vmi symbol subsymbol
        kernel_base_vaddr address fuel = some (sysmap_outcome.returned 0 address)) ∧
    status_t.value status_values_example VMI_SUCCESS = 0 ∧
    status_t.value status_values_example VMI_FAILURE ≠ 0 ∧
    windows_system_map_symbol_to_address status_values_example sysmap_fopen_example
      (fun _ => 0) vmi_instance_zero "KernBase" none 0 0x1234 1000 =
        some (sysmap_outcome.returned 0 0x1234) := by
  refine ⟨?_, rfl, by decide, rfl⟩
  intro sv fopen heap vmi symbol subsymbol kb address fuel h
  unfold windows_system_map_symbol_to_address
  rcases h with h | ⟨w, h, hs | hs⟩
  · rw [h]
  · rw [h]; dsimp only; rw [hs]
  · rw [h]; dsimp only; rw [hs]; rfl

theorem get_symbol_row_loop_success (search : List Nat) (position fuel : Nat) :
    ∀ (heap : Nat → Nat) (row : Nat) (file : List Nat) (r : symbol_row_result),
      get_symbol_row_loop search position fuel heap row file = some r →
      r.ret = VMI_SUCCESS → r.overrun = 0 ∧ ∃ row1, r.row = some row1 := by
  induction fuel with
  | zero => intro heap row file r h; simp [get_symbol_row_loop] at h
  | succ fuel ih =>
    intro heap row file r h hf
    unfold get_symbol_row_loop at h
    split at h
    · simp only [Option.some.injEq] at h
      rw [← h] at hf
      simp [get_symbol_row_error_exit] at hf
    · split at h
      · simp at h
      · split at h
        · dsimp only at h
          split at h
          · simp only [Option.some.injEq] at h
            rw [← h]
            exact ⟨rfl, _, rfl⟩
          · exact ih _ _ _ r h hf
        · simp only [Option.some.injEq] at h
          rw [← h] at hf
          simp [get_symbol_row_error_exit] at hf

theorem get_symbol_row_failure_overrun (fuel : Nat) (heap : Nat → Nat) (file : List Nat)
    (row : Nat) (symbol : String) (position : Nat) (r : symbol_row_result)
    (hlen : (symbol_search symbol).length ≤ MAX_ROW_LENGTH)
    (h : get_symbol_row fuel heap file row symbol position = some r)
    (hf : r.ret = VMI_FAILURE) : r.overrun = 492 := by
  unfold get_symbol_row at h
  rw [if_neg (by omega)] at h
  exact get_symbol_row_loop_failure_overrun _ _ _ _ _ _ r h hf

theorem get_symbol_row_success (fuel : Nat) (heap : Nat → Nat) (file : List Nat)
    (row : Nat) (symbol : String) (position : Nat) (r : symbol_row_result)
    (h : get_symbol_row fuel heap file row symbol position = some r)
    (hf : r.ret = VMI_SUCCESS) : r.overrun = 0 ∧ ∃ row1, r.row = some row1 := by
  unfold get_symbol_row at h
  split at h
  · simp only [Option.some.injEq] at h
    rw [← h] at hf
    simp at hf
  · exact get_symbol_row_loop_success _ _ _ _ _ _ r h hf

set_option maxRecDepth 1000000 in
/-- C27, evaluation: symbol not in the map. When the sysmap file cannot be
opened, `windows_system_map_symbol_to_address` returns `VMI_FAILURE` and
leaves `*address` unchanged.  When the file is read and `get_symbol_row` fails
for the symbol, or succeeds for the symbol and fails for the subsymbol (for
names of at most 497 characters), its failure exit has run
`memset(row, 0, MAX_ROW_LENGTH)` on the address of the caller's pointer, so
492 bytes of the caller's frame after that pointer are zeroed before the
caller can return.  This happens for the symbol `KernBase` on a map whose only
row is for `KernBaseX`, and for the subsymbol `KernBase` after the symbol
`KernBaseX` was found. -/
theorem sysmap_symbol_absent_overwrites_frame :
    (∀ (sv : status_values) (fopen : String → Option String) (heap : Nat → Nat)
        (vmi : vmi_instance) (w : windows_instance) (path symbol : String)
        (subsymbol : Option String) (kernel_base_vaddr address fuel : Nat),
      vmi.os_data = some w → w.sysmap = some path → path.length ≠ 0 →
      fopen path = none →
      windows_system_map_symbol_to_address sv fopen heap vmi symbol subsymbol
        kernel_base_vaddr address fuel =
        some (sysmap_outcome.returned (status_t.value sv VMI_FAILURE) address)) ∧
    (∀ (sv : status_values) (fopen : String → Option String) (heap : Nat → Nat)
        (vmi : vmi_instance) (w : windows_instance) (path content symbol : String)
        (subsymbol : Option String) (kernel_base_vaddr address fuel : Nat)
        (r : symbol_row_result),
      vmi.os_data = some w → w.sysmap = some path → path.length ≠ 0 →
      fopen path = some content →
      (symbol_search symbol).length ≤ MAX_ROW_LENGTH →
      get_symbol_row fuel heap (string_bytes content) 0 symbol 1 = some r →
      r.ret = VMI_FAILURE →
      windows_system_map_symbol_to_address sv fopen heap vmi symbol subsymbol
        kernel_base_vaddr address fuel = some (sysmap_outcome.frame_overwritten 492)) ∧
    (∀ (sv : status_values) (fopen : String → Option String) (heap : Nat → Nat)
        (vmi : vmi_instance) (w : windows_instance) (path content symbol sub : String)
        (kernel_base_vaddr address fuel row1 : Nat) (r1 r2 : symbol_row_result),
      vmi.os_data = some w → w.sysmap = some path → path.length ≠ 0 →
      fopen path = some content →
      get_symbol_row fuel heap (string_bytes content) 0 symbol 1 = some r1 →
      r1.ret = VMI_SUCCESS → r1.row = some row1 →
      (symbol_search sub).length ≤ MAX_ROW_LENGTH →
      get_symbol_row fuel r1.heap r1.file row1 sub 1 = some r2 →
      r2.ret = VMI_FAILURE →
      windows_system_map_symbol_to_address sv fopen heap vmi symbol (some sub)
        kernel_base_vaddr address fuel = some (sysmap_outcome.frame_overwritten 492)) ∧
    windows_system_map_symbol_to_address status_values_example sysmap_fopen_example
      (fun _ => 0) vmi_sysmap_example "KernBase" none 0 0x1234 1000 =
      some (sysmap_outcome.frame_overwritten 492) ∧
    windows_system_map_symbol_to_address status_values_example sysmap_fopen_example
      (fun _ => 0) vmi_sysmap_example "KernBaseX" (some "KernBase") 0 0x1234 1000 =
      some (sysmap_outcome.frame_overwritten 492) := by
  refine ⟨?_, ?_, ?_, by decide, by decide⟩
  · intro sv fopen heap vmi w path symbol subsymbol kb address fuel h1 h2 h3 h4
    unfold windows_system_map_symbol_to_address
    rw [h1]; dsimp only; rw [h2]; dsimp only; rw [if_neg h3, h4]
  · intro sv fopen heap vmi w path content symbol subsymbol kb address fuel r
      h1 h2 h3 h4 hlen hr hf
    have ho := get_symbol_row_failure_overrun fuel heap _ 0 symbol 1 r hlen hr hf
    unfold windows_system_map_symbol_to_address
    rw [h1]; dsimp only; rw [h2]; dsimp only; rw [if_neg h3, h4]; dsimp only
    rw [hr]; dsimp only
    unfold sysmap_after_row
    rw [if_pos (by omega), ho]
  · intro sv fopen heap vmi w path content symbol sub kb address fuel row1 r1 r2
      h1 h2 h3 h4 hr1 hs1 hrow hlen hr2 hf2
    have ho1 := (get_symbol_row_success fuel heap _ 0 symbol 1 r1 hr1 hs1).1
    have ho2 := get_symbol_row_failure_overrun fuel r1.heap r1.file row1 sub 1 r2 hlen hr2 hf2
    unfold windows_system_map_symbol_to_address
    rw [h1]; dsimp only; rw [h2]; dsimp only; rw [if_neg h3, h4]; dsimp only
    rw [hr1]; dsimp only
    unfold sysmap_after_row
    rw [if_neg (by omega), hs1, hrow]
    dsimp only
    rw [hr2]; dsimp only
    rw [if_pos (by omega), ho2]

/-! ## The ARM walker: descriptor addresses and word size -/

theorem v2p_arm_l1_v (vmi : vmi_instance) (dtb vaddr : Nat) (info : page_info) :
    (v2p_arm vmi dtb vaddr info).2.l1_v =
      (get_first_level_descriptor vmi dtb vaddr info).l1_v := by
  unfold v2p_arm
  dsimp only
  split
  · rw [(v2p_arm_section_fields _ _).2.1, (v2p_arm_coarse_leaf_fields _ _).2.1,
      (get_coarse_second_level_descriptor_fields _ _ _).2.1]
  · split
    · rw [(v2p_arm_section_fields _ _).2.1]
    · split
      · rw [(v2p_arm_fine_leaf_fields _ _).2.1,
          (get_fine_second_level_descriptor_fields _ _ _).2.1]
      · rfl

/-- C31: the ARM fine-table walk ignores the second-level type. When the
first-level descriptor has low two bits `11`, `v2p_arm` reports a tiny page:
`info.size` is 1 KiB and the result is
`(l2_v & 0xFFFFFC00) | (vaddr & 0x3FF)`, whatever the low two bits of the
second-level descriptor `l2_v` are. -/
theorem v2p_arm_fine_always_tiny (vmi : vmi_instance) (dtb vaddr : Nat) (info : page_info)
    (h : (v2p_arm vmi dtb vaddr info).2.l1_v &&& 3 = 3) :
    (v2p_arm vmi dtb vaddr info).2.size = VMI_PS_1KB ∧
    (v2p_arm vmi dtb vaddr info).1 =
      ((v2p_arm vmi dtb vaddr info).2.l2_v &&& 0xFFFFFC00) ||| (vaddr &&& 0x3FF) := by
  rw [v2p_arm_l1_v] at h
  have e : v2p_arm vmi dtb vaddr info =
      ((v2p_arm_fine_leaf vaddr (get_fine_second_level_descriptor vmi vaddr
          (get_first_level_descriptor vmi dtb vaddr info))).paddr,
        v2p_arm_fine_leaf vaddr (get_fine_second_level_descriptor vmi vaddr
          (get_first_level_descriptor vmi dtb vaddr info))) := by
    unfold v2p_arm
    dsimp only
    rw [if_neg (by omega), if_neg (by omega), if_pos h]
  rw [e]
  dsimp only
  have h2 : (get_fine_second_level_descriptor vmi vaddr
      (get_first_level_descriptor vmi dtb vaddr info)).l1_v &&& 3 = 3 := by
    rw [(get_fine_second_level_descriptor_fields _ _ _).2.1]; exact h
  unfold v2p_arm_fine_leaf
  rw [if_neg (by omega), if_neg (by omega), if_pos h2]
  dsimp only
  refine ⟨rfl, ?_⟩
  unfold get_bits_31to10 get_bits_9to0
  rw [to_u32_and_mask _ _ (by norm_num), to_u32_and_mask _ _ (by norm_num)]

set_option maxRecDepth 10000 in
theorem v2p_arm_fine_always_tiny_witness :
    (v2p_arm arm_fine_memory 0x4000 0x1234 page_info_zero).2.l1_v &&& 3 = 3 ∧
    (v2p_arm arm_fine_memory 0x4000 0x1234 page_info_zero).2.l2_v = 0x12340001 ∧
    (v2p_arm arm_fine_memory 0x4000 0x1234 page_info_zero).2.size = 0x400 ∧
    (v2p_arm arm_fine_memory 0x4000 0x1234 page_info_zero).1 = 0x12340234 :=
  ⟨by decide, by decide,
    (v2p_arm_fine_always_tiny arm_fine_memory 0x4000 0x1234 page_info_zero (by decide)).1,
    (v2p_arm_fine_always_tiny arm_fine_memory 0x4000 0x1234 page_info_zero
      (by decide)).2.trans (by decide)⟩

set_option maxRecDepth 10000 in
/-- C32, evaluation: ARM first-level descriptor address. For `dtb = 0x2000`
and `vaddr = 0`, `get_first_level_descriptor` (and `v2p_arm`) set
`l1_a = 0x2000`, whereas `(dtb & 0xFFFFC000) | ((vaddr >> 20) << 2)` is 0:
the mask of `get_bits_31to14` is `0xFFFFE000`, so bit 13 of `dtb` is kept, and
for all 32-bit `dtb` and `vaddr` the address is
`(dtb & 0xFFFFE000) | ((vaddr >> 20) << 2)`. -/
theorem get_first_level_descriptor_mask_keeps_bit_13 :
    (get_first_level_descriptor vmi_instance_zero 0x2000 0 page_info_zero).l1_a = 0x2000 ∧
    (0x2000 &&& 0xFFFFC000) ||| ((0 >>> 20) <<< 2) = 0 ∧
    (v2p_arm vmi_instance_zero 0x2000 0 page_info_zero).2.l1_a = 0x2000 ∧
    get_bits_31to14 0xFFFFFFFF = 0xFFFFE000 ∧
    (∀ (vmi : vmi_instance) (dtb vaddr : Nat) (info : page_info),
      dtb < 4294967296 → vaddr < 4294967296 →
      (get_first_level_descriptor vmi dtb vaddr info).l1_a =
        (dtb &&& 0xFFFFE000) ||| ((vaddr >>> 20) <<< 2)) := by
  refine ⟨by decide, by decide, by decide, by decide, ?_⟩
  intro vmi dtb vaddr info hd hv
  rw [(get_first_level_descriptor_fields vmi dtb vaddr info).1]
  unfold get_bits_31to14 first_level_table_index
  rw [to_u32_of_lt dtb hd, to_u32_of_lt vaddr hv]
  congr 1
  apply to_u32_of_lt
  have : vaddr >>> 20 < 4096 := by
    rw [Nat.shiftRight_eq_div_pow]; omega
  rw [Nat.shiftLeft_eq]; omega

set_option maxRecDepth 10000 in
/-- C33, evaluation: ARM fine second-level descriptor address. For
`l1_v = 0x00080003` and `vaddr = 0x400` (index 1),
`get_fine_second_level_descriptor` sets `l2_a = 0x80003`, whereas
`(l1_v & 0xFFFFF000) + 4 * ((vaddr >> 10) & 0x3FF)` is `0x80004`; the indices
0 and 3 (`vaddr = 0` and `vaddr = 0xC00`) both give `0x80003`; and for every
input `l2_a` is 3 modulo 4, never 4-byte aligned. -/
theorem get_fine_second_level_descriptor_unaligned :
    (get_fine_second_level_descriptor vmi_instance_zero 0x400
      { page_info_zero with l1_v := 0x00080003 }).l2_a = 0x80003 ∧
    (0x00080003 &&& 0xFFFFF000) + 4 * ((0x400 >>> 10) &&& 0x3FF) = 0x80004 ∧
    (get_fine_second_level_descriptor vmi_instance_zero 0
      { page_info_zero with l1_v := 0x00080003 }).l2_a = 0x80003 ∧
    (get_fine_second_level_descriptor vmi_instance_zero 0xC00
      { page_info_zero with l1_v := 0x00080003 }).l2_a = 0x80003 ∧
    fine_second_level_table_index 0 ≠ fine_second_level_table_index 0xC00 ∧
    (∀ (vmi : vmi_instance) (vaddr : Nat) (info : page_info),
      (get_fine_second_level_descriptor vmi vaddr info).l2_a % 4 = 3) := by
  refine ⟨by decide, by decide, by decide, by decide, by decide, ?_⟩
  intro vmi vaddr info
  rw [(get_fine_second_level_descriptor_fields vmi vaddr info).2.2.1]
  have h : ∀ x : Nat, (x ||| 3) % 4 = 3 := by
    intro x
    apply Nat.eq_of_testBit_eq
    intro i
    have h4 : (4 : Nat) = 2 ^ 2 := by norm_num
    rw [h4, Nat.testBit_mod_two_pow, Nat.testBit_or]
    by_cases hi : i < 2
    · have h3 : Nat.testBit 3 i = true := by
        interval_cases i <;> decide
      simp [hi, h3]
    · have h3 : Nat.testBit 3 i = false :=
        Nat.testBit_lt_two_pow (lt_of_lt_of_le (by norm_num : 3 < 2 ^ 2)
          (Nat.pow_le_pow_right (by norm_num) (by omega)))
      simp [hi, h3]
  exact h _

theorem to_u32_to_u32 (x : Nat) : to_u32 (to_u32 x) = to_u32 x := by
  unfold to_u32; exact Nat.mod_mod _ _

theorem v2p_arm_to_u32 (vmi : vmi_instance) (dtb vaddr : Nat) (info : page_info) :
    v2p_arm vmi (to_u32 dtb) (to_u32 vaddr) info = v2p_arm vmi dtb vaddr info := by
  simp only [v2p_arm, get_first_level_descriptor, get_coarse_second_level_descriptor,
    get_fine_second_level_descriptor, v2p_arm_section, v2p_arm_coarse_leaf,
    v2p_arm_fine_leaf, first_level_table_index, coarse_second_level_table_index,
    fine_second_level_table_index, get_bits_31to10, get_bits_31to12, get_bits_31to14,
    get_bits_31to16, get_bits_31to20, get_bits_7to0, get_bits_9to0, get_bits_11to0,
    get_bits_15to0, get_bits_19to0, to_u32_to_u32]

theorem v2p_arm_l1_a (vmi : vmi_instance) (dtb vaddr : Nat) (info : page_info) :
    (v2p_arm vmi dtb vaddr info).2.l1_a =
      (get_bits_31to14 dtb ||| to_u32 (first_level_table_index vaddr <<< 2)) := by
  rw [← (get_first_level_descriptor_fields vmi dtb vaddr info).1]
  unfold v2p_arm
  dsimp only
  split
  · rw [(v2p_arm_section_fields _ _).1, (v2p_arm_coarse_leaf_fields _ _).1,
      (get_coarse_second_level_descriptor_fields _ _ _).1]
  · split
    · rw [(v2p_arm_section_fields _ _).1]
    · split
      · rw [(v2p_arm_fine_leaf_fields _ _).1,
          (get_fine_second_level_descriptor_fields _ _ _).1]
      · rfl

theorem v2p_arm_l2_a (vmi : vmi_instance) (dtb vaddr : Nat) (info : page_info) :
    (v2p_arm vmi dtb vaddr info).2.l2_a = info.l2_a ∨
    (v2p_arm vmi dtb vaddr info).2.l2_a < 4294967296 := by
  obtain ⟨_, _, _, f4, _⟩ := get_first_level_descriptor_fields vmi dtb vaddr info
  unfold v2p_arm
  dsimp only
  split
  · right
    rw [(v2p_arm_section_fields _ _).2.2.1, (v2p_arm_coarse_leaf_fields _ _).2.2.1,
      (get_coarse_second_level_descriptor_fields _ _ _).2.2.1]
    exact or_lt_u32 _ _ (to_u32_and_lt _ _ (by norm_num)) (Nat.mod_lt _ (by norm_num))
  · split
    · left; rw [(v2p_arm_section_fields _ _).2.2.1]; exact f4
    · split
      · right
        rw [(v2p_arm_fine_leaf_fields _ _).2.2.1,
          (get_fine_second_level_descriptor_fields _ _ _).2.2.1]
        exact or_lt_u32 _ _ (or_lt_u32 _ _ (to_u32_and_lt _ _ (by norm_num))
          (to_u32_and_lt _ _ (by norm_num))) (by norm_num)
      · left; exact f4

theorem v2p_arm_paddr_written (vmi : vmi_instance) (dtb vaddr : Nat) (info : page_info) :
    (v2p_arm vmi dtb vaddr info).1 = info.paddr ∨
    (v2p_arm vmi dtb vaddr info).1 < 4294967296 := by
  have key : ∀ i : page_info,
      (v2p_arm_section vaddr i).paddr = i.paddr ∨
      (v2p_arm_section vaddr i).paddr < 4294967296 := by
    intro i
    unfold v2p_arm_section
    split
    · left; rfl
    · right
      exact or_lt_u32 _ _ (to_u32_and_lt _ _ (by norm_num)) (to_u32_and_lt _ _ (by norm_num))
  have keyc : ∀ i : page_info,
      (v2p_arm_coarse_leaf vaddr i).paddr = i.paddr ∨
      (v2p_arm_coarse_leaf vaddr i).paddr < 4294967296 := by
    intro i
    unfold v2p_arm_coarse_leaf
    split
    · right
      exact or_lt_u32 _ _ (to_u32_and_lt _ _ (by norm_num)) (to_u32_and_lt _ _ (by norm_num))
    · split
      · right
        exact or_lt_u32 _ _ (to_u32_and_lt _ _ (by norm_num))
          (to_u32_and_lt _ _ (by norm_num))
      · left; rfl
  have keyf : ∀ i : page_info,
      (v2p_arm_fine_leaf vaddr i).paddr = i.paddr ∨
      (v2p_arm_fine_leaf vaddr i).paddr < 4294967296 := by
    intro i
    unfold v2p_arm_fine_leaf
    split
    · right
      exact or_lt_u32 _ _ (to_u32_and_lt _ _ (by norm_num)) (to_u32_and_lt _ _ (by norm_num))
    · split
      · right
        exact or_lt_u32 _ _ (to_u32_and_lt _ _ (by norm_num))
          (to_u32_and_lt _ _ (by norm_num))
      · split
        · right
          exact or_lt_u32 _ _ (to_u32_and_lt _ _ (by norm_num))
            (to_u32_and_lt _ _ (by norm_num))
        · left; rfl
  have p1 := get_first_level_descriptor_paddr vmi dtb vaddr info
  unfold v2p_arm
  dsimp only
  split
  · rcases key (v2p_arm_coarse_leaf vaddr (get_coarse_second_level_descriptor vmi vaddr
        (get_first_level_descriptor vmi dtb vaddr info))) with k | k
    · rcases keyc (get_coarse_second_level_descriptor vmi vaddr
          (get_first_level_descriptor vmi dtb vaddr info)) with k2 | k2
      · left; rw [k, k2, get_coarse_second_level_descriptor_paddr, p1]
      · right; rw [k]; exact k2
    · right; exact k
  · split
    · rcases key (get_first_level_descriptor vmi dtb vaddr info) with k | k
      · left; rw [k, p1]
      · right; exact k
    · split
      · rcases keyf (get_fine_second_level_descriptor vmi vaddr
            (get_first_level_descriptor vmi dtb vaddr info)) with k | k
        · left; rw [k, get_fine_second_level_descriptor_paddr, p1]
        · right; exact k
      · left; exact p1

/-- C37: the ARM walker is a 32-bit function. Two calls of `v2p_arm` whose
`dtb` and `vaddr` agree modulo 2^32 have the same result and leave the same
`PageInfo` (on the same memory and entry `PageInfo`).  The first-level
descriptor address `l1_a` is below 2^32; `l2_a` is either untouched or below
2^32; the physical address returned (the final `info.paddr`) is either the
untouched entry value or below 2^32. -/
theorem v2p_arm_is_32_bit (vmi : vmi_instance) (dtb vaddr dtb2 vaddr2 : Nat)
    (info : page_info) (hd : dtb % 4294967296 = dtb2 % 4294967296)
    (hv : vaddr % 4294967296 = vaddr2 % 4294967296) :
    v2p_arm vmi dtb vaddr info = v2p_arm vmi dtb2 vaddr2 info ∧
    (v2p_arm vmi dtb vaddr info).2.l1_a < 4294967296 ∧
    ((v2p_arm vmi dtb vaddr info).2.l2_a = info.l2_a ∨
      (v2p_arm vmi dtb vaddr info).2.l2_a < 4294967296) ∧
    ((v2p_arm vmi dtb vaddr info).1 = info.paddr ∨
      (v2p_arm vmi dtb vaddr info).1 < 4294967296) ∧
    (v2p_arm vmi dtb vaddr info).2.paddr = (v2p_arm vmi dtb vaddr info).1 := by
  refine ⟨?_, ?_, v2p_arm_l2_a vmi dtb vaddr info, v2p_arm_paddr_written vmi dtb vaddr info,
    rfl⟩
  · rw [← v2p_arm_to_u32 vmi dtb vaddr, ← v2p_arm_to_u32 vmi dtb2 vaddr2]
    unfold to_u32
    rw [hd, hv]
  · rw [v2p_arm_l1_a]
    exact or_lt_u32 _ _ (to_u32_and_lt _ _ (by norm_num)) (Nat.mod_lt _ (by norm_num))

set_option maxRecDepth 10000 in
theorem v2p_arm_is_32_bit_witness :
    0x100004000 % 4294967296 = 0x4000 % 4294967296 ∧
    0x7C0001234 % 4294967296 = 0xC0001234 % 4294967296 ∧
    v2p_arm arm_section_memory 0x100004000 0x7C0001234 page_info_zero =
      v2p_arm arm_section_memory 0x4000 0xC0001234 page_info_zero ∧
    (v2p_arm arm_section_memory 0x100004000 0x7C0001234 page_info_zero).1 < 4294967296 :=
  ⟨by decide, by decide,
    (v2p_arm_is_32_bit arm_section_memory 0x100004000 0x7C0001234 0x4000 0xC0001234
      page_info_zero (by decide) (by decide)).1,
    by decide⟩

/-! ## Locating the debugger block: bounds of the scans -/

theorem find_kdbg_address_page_match_64 (vmi : vmi_instance) (paddr : Nat)
    (haystack : Nat → Nat) (m : Nat) (hm : m < 4294967296)
    (h64 : vmi.boyer_moore2 kdbg_signature_64 haystack VMI_PS_4KB = (m : Int)) :
    find_kdbg_address_page vmi paddr haystack =
      some (sub_u64 (to_u64 (paddr + m)) 0xc,
        load_uint64 haystack (to_u64 (sub_u32 m 0xc + 0x18))) := by
  have hne : (m : Int) ≠ -1 := by omega
  have hcast := to_unsigned_int_natCast m hm
  unfold find_kdbg_address_page
  simp only [h64, hne, ne_eq, not_false_eq_true, if_true, hcast,
    kdbg_symbol_offset_KernBase, show ¬ ((12 : Nat) = 0) by decide, if_false]

set_option maxRecDepth 100000 in
/-- C36, evaluation: haystack index in the slow scan. When the 64-bit
signature matches at an offset `m < 12`, the subtraction
`(unsigned int) match_offset - find_ofs` wraps around and `find_kdbg_address`
reads `KernBase` at index `2^32 + m + 12`; when it matches at
`4077 ≤ m ≤ 4088`, the 8 bytes read at index `m + 12` end behind the 4096-byte
buffer.  Two buffers that start with the signature and agree on all 4096
bytes, but differ in the byte at index `0x10000000C`, give different results
(`0x11` and `0x22`) for `*kernel_va`. -/
theorem find_kdbg_address_reads_outside_page :
    (∀ (vmi : vmi_instance) (paddr : Nat) (haystack : Nat → Nat) (m : Nat),
      vmi.boyer_moore2 kdbg_signature_64 haystack VMI_PS_4KB = (m : Int) → m < 12 →
      ∃ kdbg_pa, find_kdbg_address_page vmi paddr haystack =
        some (kdbg_pa, load_uint64 haystack (4294967296 + m + 12))) ∧
    (∀ (vmi : vmi_instance) (paddr : Nat) (haystack : Nat → Nat) (m : Nat),
      vmi.boyer_moore2 kdbg_signature_64 haystack VMI_PS_4KB = (m : Int) →
      4077 ≤ m → m ≤ 4088 →
      (∃ kdbg_pa, find_kdbg_address_page vmi paddr haystack =
        some (kdbg_pa, load_uint64 haystack (m + 12))) ∧ 4096 < m + 12 + 8) ∧
    vmi_slow_example.boyer_moore2 kdbg_signature_64 (haystack_signature_at_start 0x11)
      VMI_PS_4KB = 0 ∧
    (∀ i, i < 4096 → haystack_signature_at_start 0x11 i = haystack_signature_at_start 0x22 i) ∧
    find_kdbg_address_page vmi_slow_example 0x1000 (haystack_signature_at_start 0x11) =
      some (0xFF4, 0x11) ∧
    find_kdbg_address_page vmi_slow_example 0x1000 (haystack_signature_at_start 0x22) =
      some (0xFF4, 0x22) := by
  refine ⟨?_, ?_, by decide, ?_, by decide, by decide⟩
  · intro vmi paddr haystack m h64 hm
    rw [find_kdbg_address_page_match_64 vmi paddr haystack m (by omega) h64]
    have h1 : to_u64 (sub_u32 m 0xc + 0x18) = 4294967296 + m + 12 := by
      unfold to_u64 sub_u32; omega
    rw [h1]
    exact ⟨_, rfl⟩
  · intro vmi paddr haystack m h64 h1 h2
    rw [find_kdbg_address_page_match_64 vmi paddr haystack m (by omega) h64]
    have h3 : to_u64 (sub_u32 m 0xc + 0x18) = m + 12 := by
      unfold to_u64 sub_u32; omega
    rw [h3]
    exact ⟨⟨_, rfl⟩, by omega⟩
  · intro i hi
    unfold haystack_signature_at_start
    by_cases h8 : i < 8
    · rw [if_pos h8, if_pos h8]
    · rw [if_neg h8, if_neg h8, if_neg (by omega), if_neg (by omega)]

theorem int_to_u64_neg_page : int_to_u64 (-(VMI_PS_4KB : Int)) = 18446744073709547520 := by
  decide

theorem int_to_u64_pos_page : int_to_u64 (VMI_PS_4KB : Int) = 4096 := by
  decide

theorem find_kdbg_address_faster_pages_outcome (vmi : vmi_instance) (step : Int) (fuel : Nat) :
    ∀ page_paddr : Nat,
      (find_kdbg_address_faster_pages vmi step fuel page_paddr).map Prod.snd =
        find_kdbg_address_faster_loop vmi step fuel page_paddr := by
  induction fuel with
  | zero => intro p; rfl
  | succ fuel ih =>
    intro p
    unfold find_kdbg_address_faster_pages find_kdbg_address_faster_loop
    split
    · cases find_kdbg_address_faster_page vmi p with
      | some found => rfl
      | none =>
        dsimp only
        rw [← ih]
        cases find_kdbg_address_faster_pages vmi step fuel (to_u64 (p + int_to_u64 step)) with
        | none => rfl
        | some pr => rfl
    · rfl

theorem find_kdbg_address_faster_pages_down_terminates (vmi : vmi_instance)
    (hsize : vmi.size ≤ 18446744073709547520) (k : Nat) :
    ∀ (page fuel : Nat), page < 18446744073709551616 → page / 4096 ≤ k → k < fuel →
      ∃ pr, find_kdbg_address_faster_pages vmi (-(VMI_PS_4KB : Int)) fuel page = some pr := by
  induction k with
  | zero =>
    intro page fuel hp hk hf
    obtain ⟨f, rfl⟩ : ∃ f, fuel = f + 1 := ⟨fuel - 1, by omega⟩
    unfold find_kdbg_address_faster_pages
    rw [int_to_u64_neg_page]
    have : ¬ to_u64 (page + 18446744073709547520) < vmi.size := by
      unfold to_u64; omega
    rw [if_neg this]
    exact ⟨_, rfl⟩
  | succ k ih =>
    intro page fuel hp hk hf
    obtain ⟨f, rfl⟩ : ∃ f, fuel = f + 1 := ⟨fuel - 1, by omega⟩
    unfold find_kdbg_address_faster_pages
    rw [int_to_u64_neg_page]
    by_cases hc : to_u64 (page + 18446744073709547520) < vmi.size
    · rw [if_pos hc]
      cases find_kdbg_address_faster_page vmi page with
      | some found => exact ⟨_, rfl⟩
      | none =>
        dsimp only
        have hnext : to_u64 (page + 18446744073709547520) = page - 4096 ∧ 4096 ≤ page := by
          unfold to_u64 at hc ⊢; omega
        obtain ⟨pr, hpr⟩ := ih (to_u64 (page + 18446744073709547520)) f
          (by rw [hnext.1]; omega) (by rw [hnext.1]; omega) (by omega)
        rw [hpr]
        exact ⟨_, rfl⟩
    · rw [if_neg hc]
      exact ⟨_, rfl⟩

theorem find_kdbg_address_faster_pages_up_no_wrap (vmi : vmi_instance)
    (hsize : vmi.size ≤ 18446744073709547520) (n : Nat) :
    ∀ (page fuel : Nat), page + 4096 < 18446744073709551616 →
      vmi.size ≤ page + 4096 * n → n < fuel →
      ∃ pr, find_kdbg_address_faster_pages vmi (VMI_PS_4KB : Int) fuel page = some pr := by
  induction n with
  | zero =>
    intro page fuel hp hn hf
    obtain ⟨f, rfl⟩ : ∃ f, fuel = f + 1 := ⟨fuel - 1, by omega⟩
    unfold find_kdbg_address_faster_pages
    rw [int_to_u64_pos_page]
    have : ¬ to_u64 (page + 4096) < vmi.size := by
      unfold to_u64; omega
    rw [if_neg this]
    exact ⟨_, rfl⟩
  | succ n ih =>
    intro page fuel hp hn hf
    obtain ⟨f, rfl⟩ : ∃ f, fuel = f + 1 := ⟨fuel - 1, by omega⟩
    unfold find_kdbg_address_faster_pages
    rw [int_to_u64_pos_page]
    by_cases hc : to_u64 (page + 4096) < vmi.size
    · rw [if_pos hc]
      cases find_kdbg_address_faster_page vmi page with
      | some found => exact ⟨_, rfl⟩
      | none =>
        dsimp only
        have hnext : to_u64 (page + 4096) = page + 4096 := by
          unfold to_u64; omega
        obtain ⟨pr, hpr⟩ := ih (to_u64 (page + 4096)) f
          (by rw [hnext] at hc ⊢; omega) (by rw [hnext]; omega) (by omega)
        rw [hpr]
        exact ⟨_, rfl⟩
    · rw [if_neg hc]
      exact ⟨_, rfl⟩

theorem find_kdbg_address_faster_pages_up_terminates (vmi : vmi_instance)
    (hsize : vmi.size ≤ 18446744073709547520) (page fuel : Nat)
    (hp : page < 18446744073709551616) (hf : vmi.size / 4096 + 3 ≤ fuel) :
    ∃ pr, find_kdbg_address_faster_pages vmi (VMI_PS_4KB : Int) fuel page = some pr := by
  by_cases hw : page + 4096 < 18446744073709551616
  · exact find_kdbg_address_faster_pages_up_no_wrap vmi hsize (vmi.size / 4096 + 1) page fuel
      hw (by omega) (by omega)
  · obtain ⟨f, rfl⟩ : ∃ f, fuel = f + 1 := ⟨fuel - 1, by omega⟩
    unfold find_kdbg_address_faster_pages
    rw [int_to_u64_pos_page]
    by_cases hc : to_u64 (page + 4096) < vmi.size
    · rw [if_pos hc]
      cases find_kdbg_address_faster_page vmi page with
      | some found => exact ⟨_, rfl⟩
      | none =>
        dsimp only
        have hnext : to_u64 (page + 4096) < 4096 := by
          unfold to_u64; omega
        obtain ⟨pr, hpr⟩ := find_kdbg_address_faster_pages_up_no_wrap vmi hsize
          (vmi.size / 4096 + 1) (to_u64 (page + 4096)) f (by omega) (by omega) (by omega)
        rw [hpr]
        exact ⟨_, rfl⟩
    · rw [if_neg hc]
      exact ⟨_, rfl⟩

theorem find_kdbg_address_faster_pages_down_order (vmi : vmi_instance)
    (hsize : vmi.size ≤ 18446744073709547520) (fuel : Nat) :
    ∀ (page : Nat) (pages : List Nat) (r : Option kdbg_addresses),
      page < 18446744073709551616 →
      find_kdbg_address_faster_pages vmi (-(VMI_PS_4KB : Int)) fuel page = some (pages, r) →
      ∀ (i p : Nat), pages[i]? = some p → p + 4096 * i = page ∧ 4096 ≤ p := by
  induction fuel with
  | zero => intro page pages r _ h; simp [find_kdbg_address_faster_pages] at h
  | succ f ih =>
    intro page pages r hp h i p hi
    unfold find_kdbg_address_faster_pages at h
    rw [int_to_u64_neg_page] at h
    by_cases hc : to_u64 (page + 18446744073709547520) < vmi.size
    · rw [if_pos hc] at h
      have hnext : to_u64 (page + 18446744073709547520) = page - 4096 ∧ 4096 ≤ page := by
        unfold to_u64 at hc ⊢; omega
      cases hb : find_kdbg_address_faster_page vmi page with
      | some found =>
        rw [hb] at h
        simp only [Option.some.injEq, Prod.mk.injEq] at h
        rw [← h.1] at hi
        cases i with
        | zero => simp at hi; omega
        | succ j => simp at hi
      | none =>
        rw [hb] at h
        dsimp only at h
        cases hrec : find_kdbg_address_faster_pages vmi (-(VMI_PS_4KB : Int)) f
            (to_u64 (page + 18446744073709547520)) with
        | none =>
          rw [hrec] at h
          simp at h
        | some pr =>
          obtain ⟨pages1, r1⟩ := pr
          rw [hrec] at h
          simp only [Option.some.injEq, Prod.mk.injEq] at h
          rw [← h.1] at hi
          cases i with
          | zero => simp at hi; omega
          | succ j =>
            simp only [List.getElem?_cons_succ] at hi
            have := ih _ pages1 r1 (by rw [hnext.1]; omega) hrec j p hi
            rw [hnext.1] at this
            omega
    · rw [if_neg hc] at h
      simp only [Option.some.injEq, Prod.mk.injEq] at h
      rw [← h.1] at hi
      simp at hi

theorem find_kdbg_address_faster_pages_up_order (vmi : vmi_instance) (fuel : Nat) :
    ∀ (page : Nat) (pages : List Nat) (r : Option kdbg_addresses),
      page < 18446744073709551616 →
      find_kdbg_address_faster_pages vmi (VMI_PS_4KB : Int) fuel page = some (pages, r) →
      ∀ (i p : Nat), pages[i]? = some p → p = to_u64 (page + 4096 * i) := by
  induction fuel with
  | zero => intro page pages r _ h; simp [find_kdbg_address_faster_pages] at h
  | succ f ih =>
    intro page pages r hp h i p hi
    unfold find_kdbg_address_faster_pages at h
    rw [int_to_u64_pos_page] at h
    by_cases hc : to_u64 (page + 4096) < vmi.size
    · rw [if_pos hc] at h
      cases hb : find_kdbg_address_faster_page vmi page with
      | some found =>
        rw [hb] at h
        simp only [Option.some.injEq, Prod.mk.injEq] at h
        rw [← h.1] at hi
        cases i with
        | zero => simp at hi; unfold to_u64; omega
        | succ j => simp at hi
      | none =>
        rw [hb] at h
        dsimp only at h
        cases hrec : find_kdbg_address_faster_pages vmi (VMI_PS_4KB : Int) f
            (to_u64 (page + 4096)) with
        | none =>
          rw [hrec] at h
          simp at h
        | some pr =>
          obtain ⟨pages1, r1⟩ := pr
          rw [hrec] at h
          simp only [Option.some.injEq, Prod.mk.injEq] at h
          rw [← h.1] at hi
          cases i with
          | zero => simp at hi; unfold to_u64; omega
          | succ j =>
            simp only [List.getElem?_cons_succ] at hi
            have := ih _ pages1 r1 (by unfold to_u64; omega) hrec j p hi
            rw [this]
            unfold to_u64
            omega
    · rw [if_neg hc] at h
      simp only [Option.some.injEq, Prod.mk.injEq] at h
      rw [← h.1] at hi
      simp at hi

theorem find_kdbg_address_faster_loop_terminates (vmi : vmi_instance)
    (hsize : vmi.size ≤ 18446744073709547520) (start fuel : Nat)
    (hstart : start < 18446744073709551616)
    (hfuel : start / 4096 + vmi.size / 4096 + 3 ≤ fuel) :
    (∃ rd, find_kdbg_address_faster_loop vmi (-(VMI_PS_4KB : Int)) fuel start = some rd) ∧
    (∃ ru, find_kdbg_address_faster_loop vmi (VMI_PS_4KB : Int) fuel start = some ru) := by
  obtain ⟨pd, hpd⟩ := find_kdbg_address_faster_pages_down_terminates vmi hsize (start / 4096)
    start fuel hstart (le_refl _) (by omega)
  obtain ⟨pu, hpu⟩ := find_kdbg_address_faster_pages_up_terminates vmi hsize start fuel hstart
    (by omega)
  constructor
  · rw [← find_kdbg_address_faster_pages_outcome, hpd]; exact ⟨_, rfl⟩
  · rw [← find_kdbg_address_faster_pages_outcome, hpu]; exact ⟨_, rfl⟩

theorem find_kdbg_address_faster_passes (vmi : vmi_instance) (fuel fsgs_init : Nat)
    (out : kdbg_addresses) :
    find_kdbg_address_faster vmi fuel fsgs_init out = some (VMI_FAILURE, out) ∨
    ∃ start, start % 4096 = 0 ∧ start < 18446744073709551616 ∧
      ((find_kdbg_address_faster_loop vmi (-(VMI_PS_4KB : Int)) fuel start = none ∧
          find_kdbg_address_faster vmi fuel fsgs_init out = none) ∨
       (∃ found, find_kdbg_address_faster_loop vmi (-(VMI_PS_4KB : Int)) fuel start =
            some (some found) ∧
          find_kdbg_address_faster vmi fuel fsgs_init out = some (VMI_SUCCESS, found)) ∨
       (find_kdbg_address_faster_loop vmi (-(VMI_PS_4KB : Int)) fuel start = some none ∧
          ((find_kdbg_address_faster_loop vmi (VMI_PS_4KB : Int) fuel start = none ∧
              find_kdbg_address_faster vmi fuel fsgs_init out = none) ∨
           (∃ found, find_kdbg_address_faster_loop vmi (VMI_PS_4KB : Int) fuel start =
                some (some found) ∧
              find_kdbg_address_faster vmi fuel fsgs_init out = some (VMI_SUCCESS, found)) ∨
           (find_kdbg_address_faster_loop vmi (VMI_PS_4KB : Int) fuel start = some none ∧
              find_kdbg_address_faster vmi fuel fsgs_init out = some (VMI_FAILURE, out))))) := by
  unfold find_kdbg_address_faster
  by_cases hm : vmi.mode = vmi_mode_t.VMI_FILE
  · left; rw [if_pos hm]
  · rw [if_neg hm]
    cases vmi.driver_get_vcpureg registers_t.CR3 0 with
    | none => left; rfl
    | some cr3 =>
      dsimp only
      generalize (if vmi.page_mode = page_mode_t.VMI_PM_IA32E then
          vmi.driver_get_vcpureg registers_t.GS_BASE 0
        else if vmi.page_mode = page_mode_t.VMI_PM_LEGACY
            ∨ vmi.page_mode = page_mode_t.VMI_PM_PAE then
          vmi.driver_get_vcpureg registers_t.FS_BASE 0
        else some fsgs_init) = fsgs_read
      cases fsgs_read with
      | none => left; rfl
      | some fsgs =>
        right
        dsimp only
        refine ⟨to_u64 ((vmi.vmi_pagetable_lookup cr3 fsgs >>> 12) <<< 12), ?_, ?_, ?_⟩
        · rw [Nat.shiftLeft_eq]
          unfold to_u64
          omega
        · unfold to_u64; omega
        · cases hd : find_kdbg_address_faster_loop vmi (-(VMI_PS_4KB : Int)) fuel
              (to_u64 ((vmi.vmi_pagetable_lookup cr3 fsgs >>> 12) <<< 12)) with
          | none => left; exact ⟨rfl, rfl⟩
          | some rd =>
            cases rd with
            | some found => right; left; exact ⟨found, rfl, rfl⟩
            | none =>
              right; right
              refine ⟨rfl, ?_⟩
              cases hu : find_kdbg_address_faster_loop vmi (VMI_PS_4KB : Int) fuel
                  (to_u64 ((vmi.vmi_pagetable_lookup cr3 fsgs >>> 12) <<< 12)) with
              | none => left; exact ⟨rfl, rfl⟩
              | some ru =>
                cases ru with
                | some found => right; left; exact ⟨found, rfl, rfl⟩
                | none => right; right; exact ⟨rfl, rfl⟩

theorem last_page_of_tail (a p : Nat) (l : List Nat) (h : l.getLast? = some p) :
    (a :: l).getLast? = some p := by
  cases l with
  | nil => simp at h
  | cons b t => rw [List.getLast?_cons_cons]; exact h

theorem find_kdbg_address_faster_pages_down_spec (vmi : vmi_instance)
    (hsize : vmi.size ≤ 18446744073709547520) (fuel : Nat) :
    ∀ (page : Nat) (pages : List Nat) (r : Option kdbg_addresses),
      page < 18446744073709551616 →
      find_kdbg_address_faster_pages vmi (-(VMI_PS_4KB : Int)) fuel page = some (pages, r) →
      (∀ (i p : Nat), pages[i]? = some p →
        p + 4096 * i = page ∧ 4096 ≤ p ∧ p - 4096 < vmi.size) ∧
      (∀ (i p : Nat), pages[i]? = some p → i + 1 < pages.length →
        find_kdbg_address_faster_page vmi p = none) ∧
      (∀ found, r = some found →
        ∃ p, pages.getLast? = some p ∧ find_kdbg_address_faster_page vmi p = some found) ∧
      (r = none →
        (∀ p ∈ pages, find_kdbg_address_faster_page vmi p = none) ∧
        ¬ (to_u64 (page - 4096 * pages.length + 18446744073709547520) < vmi.size)) := by
  induction fuel with
  | zero => intro page pages r _ h; simp [find_kdbg_address_faster_pages] at h
  | succ f ih =>
    intro page pages r hp h
    unfold find_kdbg_address_faster_pages at h
    rw [int_to_u64_neg_page] at h
    by_cases hc : to_u64 (page + 18446744073709547520) < vmi.size
    · rw [if_pos hc] at h
      have hnext : to_u64 (page + 18446744073709547520) = page - 4096 ∧ 4096 ≤ page := by
        unfold to_u64 at hc ⊢; omega
      have hc2 : page - 4096 < vmi.size := by rw [← hnext.1]; exact hc
      cases hb : find_kdbg_address_faster_page vmi page with
      | some found =>
        rw [hb] at h
        simp only [Option.some.injEq, Prod.mk.injEq] at h
        obtain ⟨h1, h2⟩ := h
        subst h1
        subst h2
        refine ⟨?_, ?_, ?_, ?_⟩
        · intro i p hi
          cases i with
          | zero => simp at hi; omega
          | succ j => simp at hi
        · intro i p hi hlt
          simp at hlt
        · intro fd hfd
          exact ⟨page, rfl, by rw [hb, hfd]⟩
        · intro hn; simp at hn
      | none =>
        rw [hb] at h
        dsimp only at h
        cases hrec : find_kdbg_address_faster_pages vmi (-(VMI_PS_4KB : Int)) f
            (to_u64 (page + 18446744073709547520)) with
        | none => rw [hrec] at h; simp at h
        | some pr =>
          obtain ⟨pages1, r1⟩ := pr
          rw [hrec] at h
          simp only [Option.some.injEq, Prod.mk.injEq] at h
          obtain ⟨h1, h2⟩ := h
          subst h1
          subst h2
          obtain ⟨i1, i2, i3, i4⟩ := ih _ pages1 r1 (by rw [hnext.1]; omega) hrec
          rw [hnext.1] at i1 i4
          refine ⟨?_, ?_, ?_, ?_⟩
          · intro i p hi
            cases i with
            | zero => simp at hi; omega
            | succ j =>
              simp only [List.getElem?_cons_succ] at hi
              have := i1 j p hi
              omega
          · intro i p hi hlt
            cases i with
            | zero =>
              simp at hi
              rw [← hi]; exact hb
            | succ j =>
              simp only [List.getElem?_cons_succ] at hi
              simp only [List.length_cons] at hlt
              exact i2 j p hi (by omega)
          · intro fd hfd
            obtain ⟨p, hp1, hp2⟩ := i3 fd hfd
            exact ⟨p, last_page_of_tail _ _ _ hp1, hp2⟩
          · intro hn
            obtain ⟨a1, a2⟩ := i4 hn
            refine ⟨?_, ?_⟩
            · intro p hp
              rcases List.mem_cons.1 hp with e | e
              · rw [e]; exact hb
              · exact a1 p e
            · simp only [List.length_cons]
              have e : page - 4096 * (pages1.length + 1) = page - 4096 - 4096 * pages1.length := by
                omega
              rw [e]; exact a2
    · rw [if_neg hc] at h
      simp only [Option.some.injEq, Prod.mk.injEq] at h
      obtain ⟨h1, h2⟩ := h
      subst h1
      subst h2
      refine ⟨?_, ?_, ?_, ?_⟩
      · intro i p hi; simp at hi
      · intro i p hi; simp at hi
      · intro fd hfd; simp at hfd
      · intro _
        refine ⟨by simp, ?_⟩
        simpa using hc

theorem find_kdbg_address_faster_pages_up_spec (vmi : vmi_instance) (fuel : Nat) :
    ∀ (page : Nat) (pages : List Nat) (r : Option kdbg_addresses),
      page < 18446744073709551616 →
      find_kdbg_address_faster_pages vmi (VMI_PS_4KB : Int) fuel page = some (pages, r) →
      (∀ (i p : Nat), pages[i]? = some p →
        p = to_u64 (page + 4096 * i) ∧ to_u64 (p + 4096) < vmi.size) ∧
      (∀ (i p : Nat), pages[i]? = some p → i + 1 < pages.length →
        find_kdbg_address_faster_page vmi p = none) ∧
      (∀ found, r = some found →
        ∃ p, pages.getLast? = some p ∧ find_kdbg_address_faster_page vmi p = some found) ∧
      (r = none →
        (∀ p ∈ pages, find_kdbg_address_faster_page vmi p = none) ∧
        ¬ (to_u64 (to_u64 (page + 4096 * pages.length) + 4096) < vmi.size)) := by
  induction fuel with
  | zero => intro page pages r _ h; simp [find_kdbg_address_faster_pages] at h
  | succ f ih =>
    intro page pages r hp h
    unfold find_kdbg_address_faster_pages at h
    rw [int_to_u64_pos_page] at h
    by_cases hc : to_u64 (page + 4096) < vmi.size
    · rw [if_pos hc] at h
      cases hb : find_kdbg_address_faster_page vmi page with
      | some found =>
        rw [hb] at h
        simp only [Option.some.injEq, Prod.mk.injEq] at h
        obtain ⟨h1, h2⟩ := h
        subst h1
        subst h2
        refine ⟨?_, ?_, ?_, ?_⟩
        · intro i p hi
          cases i with
          | zero =>
            simp at hi
            subst hi
            have e : to_u64 (page + 4096 * 0) = page := by unfold to_u64; omega
            rw [e]; exact ⟨rfl, hc⟩
          | succ j => simp at hi
        · intro i p hi hlt
          simp at hlt
        · intro fd hfd
          exact ⟨page, rfl, by rw [hb, hfd]⟩
        · intro hn; simp at hn
      | none =>
        rw [hb] at h
        dsimp only at h
        cases hrec : find_kdbg_address_faster_pages vmi (VMI_PS_4KB : Int) f
            (to_u64 (page + 4096)) with
        | none => rw [hrec] at h; simp at h
        | some pr =>
          obtain ⟨pages1, r1⟩ := pr
          rw [hrec] at h
          simp only [Option.some.injEq, Prod.mk.injEq] at h
          obtain ⟨h1, h2⟩ := h
          subst h1
          subst h2
          obtain ⟨i1, i2, i3, i4⟩ := ih _ pages1 r1 (by unfold to_u64; omega) hrec
          refine ⟨?_, ?_, ?_, ?_⟩
          · intro i p hi
            cases i with
            | zero =>
              simp at hi
              subst hi
              have e : to_u64 (page + 4096 * 0) = page := by unfold to_u64; omega
              rw [e]; exact ⟨rfl, hc⟩
            | succ j =>
              simp only [List.getElem?_cons_succ] at hi
              obtain ⟨k1, k2⟩ := i1 j p hi
              refine ⟨?_, k2⟩
              rw [k1]
              unfold to_u64
              omega
          · intro i p hi hlt
            cases i with
            | zero =>
              simp at hi
              rw [← hi]; exact hb
            | succ j =>
              simp only [List.getElem?_cons_succ] at hi
              simp only [List.length_cons] at hlt
              exact i2 j p hi (by omega)
          · intro fd hfd
            obtain ⟨p, hp1, hp2⟩ := i3 fd hfd
            exact ⟨p, last_page_of_tail _ _ _ hp1, hp2⟩
          · intro hn
            obtain ⟨a1, a2⟩ := i4 hn
            refine ⟨?_, ?_⟩
            · intro p hp
              rcases List.mem_cons.1 hp with e | e
              · rw [e]; exact hb
              · exact a1 p e
            · simp only [List.length_cons]
              have e : to_u64 (page + 4096 * (pages1.length + 1)) =
                  to_u64 (to_u64 (page + 4096) + 4096 * pages1.length) := by
                unfold to_u64; omega
              rw [e]; exact a2
    · rw [if_neg hc] at h
      simp only [Option.some.injEq, Prod.mk.injEq] at h
      obtain ⟨h1, h2⟩ := h
      subst h1
      subst h2
      refine ⟨?_, ?_, ?_, ?_⟩
      · intro i p hi; simp at hi
      · intro i p hi; simp at hi
      · intro fd hfd; simp at hfd
      · intro _
        refine ⟨by simp, ?_⟩
        have e : to_u64 (page + 4096 * ([] : List Nat).length) = page := by
          simp; unfold to_u64; omega
        rw [e]; exact hc

theorem find_kdbg_address_faster_of_passes (vmi : vmi_instance) (fuel fsgs_init : Nat)
    (out : kdbg_addresses) (cr3 fsgs : Nat)
    (hmode : vmi.mode ≠ vmi_mode_t.VMI_FILE)
    (hcr3 : vmi.driver_get_vcpureg registers_t.CR3 0 = some cr3)
    (hfsgs : (if vmi.page_mode = page_mode_t.VMI_PM_IA32E then
          vmi.driver_get_vcpureg registers_t.GS_BASE 0
        else if vmi.page_mode = page_mode_t.VMI_PM_LEGACY
            ∨ vmi.page_mode = page_mode_t.VMI_PM_PAE then
          vmi.driver_get_vcpureg registers_t.FS_BASE 0
        else some fsgs_init) = some fsgs) :
    (∀ found,
      find_kdbg_address_faster_loop vmi (-(VMI_PS_4KB : Int)) fuel
        (to_u64 ((vmi.vmi_pagetable_lookup cr3 fsgs >>> 12) <<< 12)) = some (some found) →
      find_kdbg_address_faster vmi fuel fsgs_init out = some (VMI_SUCCESS, found)) ∧
    (find_kdbg_address_faster_loop vmi (-(VMI_PS_4KB : Int)) fuel
        (to_u64 ((vmi.vmi_pagetable_lookup cr3 fsgs >>> 12) <<< 12)) = some none →
      (∀ found,
        find_kdbg_address_faster_loop vmi (VMI_PS_4KB : Int) fuel
          (to_u64 ((vmi.vmi_pagetable_lookup cr3 fsgs >>> 12) <<< 12)) = some (some found) →
        find_kdbg_address_faster vmi fuel fsgs_init out = some (VMI_SUCCESS, found)) ∧
      (find_kdbg_address_faster_loop vmi (VMI_PS_4KB : Int) fuel
          (to_u64 ((vmi.vmi_pagetable_lookup cr3 fsgs >>> 12) <<< 12)) = some none →
        find_kdbg_address_faster vmi fuel fsgs_init out = some (VMI_FAILURE, out))) := by
  have e : find_kdbg_address_faster vmi fuel fsgs_init out =
      (match find_kdbg_address_faster_loop vmi (-(VMI_PS_4KB : Int)) fuel
          (to_u64 ((vmi.vmi_pagetable_lookup cr3 fsgs >>> 12) <<< 12)) with
        | none => none
        | some (some found) => some (VMI_SUCCESS, found)
        | some none =>
          match find_kdbg_address_faster_loop vmi (VMI_PS_4KB : Int) fuel
              (to_u64 ((vmi.vmi_pagetable_lookup cr3 fsgs >>> 12) <<< 12)) with
          | none => none
          | some (some found) => some (VMI_SUCCESS, found)
          | some none => some (VMI_FAILURE, out)) := by
    unfold find_kdbg_address_faster
    rw [if_neg hmode, hcr3]
    dsimp only
    rw [hfsgs]
  rw [e]
  refine ⟨?_, ?_⟩
  · intro found h; rw [h]
  · intro h
    rw [h]
    refine ⟨?_, ?_⟩
    · intro found h2; rw [h2]
    · intro h2; rw [h2]

/-- C35: termination and order of the faster scan. Take a live guest whose
memory size is at most 2^64 - 4096 and whose CR3 and FS/GS base reads succeed,
let `start` be the page of the translated FS/GS base, and allow
`start / 4096 + size / 4096 + 3` condition tests per pass.  Then `start` is
page aligned and `find_kdbg_address_faster` returns, as follows.  The downward
pass ends; it examines at most `start / 4096` pages, page number `i` is
`start - 4096 * i`, it is never page 0, the loop condition held for it, and no
page before the last one examined has a match.  Either the last page of the
downward pass has a match and the function returns success with it, or no page
of the downward pass has a match, the loop condition fails at the next page
down, and the upward pass runs from the same `start`: it ends, its page number
`i` is `start + 4096 * i` modulo 2^64, the loop condition held for it, and no
page before the last has a match; either its last page has a match and the
function returns success with it, or none of its pages has a match, the loop
condition fails at the next page up, and the function returns failure with the
output unchanged.  Moreover, whatever the registers read, the function returns
once 2^53 + 3 condition tests per pass are allowed. -/
theorem find_kdbg_address_faster_terminates_in_order (vmi : vmi_instance)
    (fuel fsgs_init : Nat) (out : kdbg_addresses) (cr3 fsgs start : Nat)
    (hsize : vmi.size ≤ 18446744073709547520)
    (hmode : vmi.mode ≠ vmi_mode_t.VMI_FILE)
    (hcr3 : vmi.driver_get_vcpureg registers_t.CR3 0 = some cr3)
    (hfsgs : (if vmi.page_mode = page_mode_t.VMI_PM_IA32E then
          vmi.driver_get_vcpureg registers_t.GS_BASE 0
        else if vmi.page_mode = page_mode_t.VMI_PM_LEGACY
            ∨ vmi.page_mode = page_mode_t.VMI_PM_PAE then
          vmi.driver_get_vcpureg registers_t.FS_BASE 0
        else some fsgs_init) = some fsgs)
    (hstart : start = to_u64 ((vmi.vmi_pagetable_lookup cr3 fsgs >>> 12) <<< 12))
    (hfuel : start / 4096 + vmi.size / 4096 + 3 ≤ fuel) :
    start % 4096 = 0 ∧
    (∃ down rd,
      find_kdbg_address_faster_pages vmi (-(VMI_PS_4KB : Int)) fuel start = some (down, rd) ∧
      down.length ≤ start / 4096 ∧
      (∀ i p, down[i]? = some p → p + 4096 * i = start ∧ p ≠ 0 ∧ p - 4096 < vmi.size) ∧
      (∀ i p, down[i]? = some p → i + 1 < down.length →
        find_kdbg_address_faster_page vmi p = none) ∧
      ((∃ p found, down.getLast? = some p ∧
          find_kdbg_address_faster_page vmi p = some found ∧ rd = some found ∧
          find_kdbg_address_faster vmi fuel fsgs_init out = some (VMI_SUCCESS, found)) ∨
       (rd = none ∧
        (∀ p ∈ down, find_kdbg_address_faster_page vmi p = none) ∧
        ¬ (to_u64 (start - 4096 * down.length + 18446744073709547520) < vmi.size) ∧
        ∃ up ru,
          find_kdbg_address_faster_pages vmi (VMI_PS_4KB : Int) fuel start = some (up, ru) ∧
          (∀ i p, up[i]? = some p →
            p = to_u64 (start + 4096 * i) ∧ to_u64 (p + 4096) < vmi.size) ∧
          (∀ i p, up[i]? = some p → i + 1 < up.length →
            find_kdbg_address_faster_page vmi p = none) ∧
          ((∃ p found, up.getLast? = some p ∧
              find_kdbg_address_faster_page vmi p = some found ∧ ru = some found ∧
              find_kdbg_address_faster vmi fuel fsgs_init out = some (VMI_SUCCESS, found)) ∨
           (ru = none ∧
            (∀ p ∈ up, find_kdbg_address_faster_page vmi p = none) ∧
            ¬ (to_u64 (to_u64 (start + 4096 * up.length) + 4096) < vmi.size) ∧
            find_kdbg_address_faster vmi fuel fsgs_init out = some (VMI_FAILURE, out)))))) ∧
    (∀ (fuel2 fsgs_init2 : Nat) (out2 : kdbg_addresses), 9007199254740995 ≤ fuel2 →
      ∃ r, find_kdbg_address_faster vmi fuel2 fsgs_init2 out2 = some r) := by
  have hlt : start < 18446744073709551616 := by rw [hstart]; unfold to_u64; omega
  have halign : start % 4096 = 0 := by
    rw [hstart, Nat.shiftLeft_eq]; unfold to_u64; omega
  obtain ⟨hfd, hfu⟩ := find_kdbg_address_faster_of_passes vmi fuel fsgs_init out cr3 fsgs
    hmode hcr3 hfsgs
  rw [← hstart] at hfd hfu
  obtain ⟨⟨down, rd⟩, hpd⟩ := find_kdbg_address_faster_pages_down_terminates vmi hsize
    (start / 4096) start fuel hlt (le_refl _) (by omega)
  obtain ⟨⟨up, ru⟩, hpu⟩ := find_kdbg_address_faster_pages_up_terminates vmi hsize start fuel
    hlt (by omega)
  obtain ⟨d1, d2, d3, d4⟩ := find_kdbg_address_faster_pages_down_spec vmi hsize fuel start
    down rd hlt hpd
  obtain ⟨u1, u2, u3, u4⟩ := find_kdbg_address_faster_pages_up_spec vmi fuel start up ru hlt hpu
  have hld : find_kdbg_address_faster_loop vmi (-(VMI_PS_4KB : Int)) fuel start = some rd := by
    rw [← find_kdbg_address_faster_pages_outcome, hpd]; rfl
  have hlu : find_kdbg_address_faster_loop vmi (VMI_PS_4KB : Int) fuel start = some ru := by
    rw [← find_kdbg_address_faster_pages_outcome, hpu]; rfl
  refine ⟨halign, ⟨down, rd, hpd, ?_, ?_, d2, ?_⟩, ?_⟩
  rotate_left 3
  · intro fuel2 fsgs_init2 out2 hbig
    rcases find_kdbg_address_faster_passes vmi fuel2 fsgs_init2 out2 with h | ⟨s0, _, hs0, h⟩
    · exact ⟨_, h⟩
    · obtain ⟨⟨rd0, hrd⟩, ⟨ru0, hru⟩⟩ := find_kdbg_address_faster_loop_terminates vmi hsize s0
        fuel2 hs0 (by omega)
      rcases h with ⟨h1, _⟩ | ⟨_, _, h2⟩ | ⟨_, ⟨h1, _⟩ | ⟨_, _, h2⟩ | ⟨_, h2⟩⟩
      · rw [hrd] at h1; exact absurd h1 (by simp)
      · exact ⟨_, h2⟩
      · rw [hru] at h1; exact absurd h1 (by simp)
      · exact ⟨_, h2⟩
      · exact ⟨_, h2⟩
  · by_contra hlen
    have hl : start / 4096 < down.length := by omega
    have hget : down[start / 4096]? = some (down.get ⟨start / 4096, hl⟩) := by
      simp [List.getElem?_eq_getElem hl]
    have := d1 _ _ hget
    omega
  · intro i p hi
    obtain ⟨a, b, c⟩ := d1 i p hi
    exact ⟨a, by omega, c⟩
  · cases rd with
    | some found =>
      left
      obtain ⟨p, hp1, hp2⟩ := d3 found rfl
      exact ⟨p, found, hp1, hp2, rfl, hfd found hld⟩
    | none =>
      right
      obtain ⟨a1, a2⟩ := d4 rfl
      refine ⟨rfl, a1, a2, up, ru, hpu, u1, u2, ?_⟩
      obtain ⟨hs, hf⟩ := hfu hld
      cases ru with
      | some found =>
        left
        obtain ⟨p, hp1, hp2⟩ := u3 found rfl
        exact ⟨p, found, hp1, hp2, rfl, hs found hlu⟩
      | none =>
        right
        obtain ⟨b1, b2⟩ := u4 rfl
        exact ⟨rfl, b1, b2, hf hlu⟩

set_option maxRecDepth 100000 in
/-- Witness for C35: with 20 KiB of memory, a KPCR in the page `0x2000` and the
kernel image in the page `0x3000`, the downward pass examines `0x2000` and
`0x1000` without a match, the upward pass examines `0x2000` and `0x3000`, and
the function returns success with the match of the page `0x3000`. -/
theorem find_kdbg_address_faster_terminates_in_order_witness :
    vmi_faster_found_example.size = 0x5000 ∧
    find_kdbg_address_faster_pages vmi_faster_found_example (-(VMI_PS_4KB : Int)) 10 0x2000 =
      some ([0x2000, 0x1000], none) ∧
    find_kdbg_address_faster_pages vmi_faster_found_example (VMI_PS_4KB : Int) 10 0x2000 =
      some ([0x2000, 0x3000],
        some { kernel_pa := 0x3000, kernel_va := 0xFFFFF80000003000, kdbg_pa := 0x4000 }) ∧
    find_kdbg_address_faster vmi_faster_found_example 10 0 kdbg_addresses_zero =
      some (VMI_SUCCESS,
        { kernel_pa := 0x3000, kernel_va := 0xFFFFF80000003000, kdbg_pa := 0x4000 }) ∧
    (0x2000 % 4096 = 0 ∧
    (∃ down rd,
      find_kdbg_address_faster_pages vmi_faster_found_example (-(VMI_PS_4KB : Int)) 10 0x2000 =
        some (down, rd) ∧
      down.length ≤ 0x2000 / 4096 ∧
      (∀ i p, down[i]? = some p →
        p + 4096 * i = 0x2000 ∧ p ≠ 0 ∧ p - 4096 < vmi_faster_found_example.size) ∧
      (∀ i p, down[i]? = some p → i + 1 < down.length →
        find_kdbg_address_faster_page vmi_faster_found_example p = none) ∧
      ((∃ p found, down.getLast? = some p ∧
          find_kdbg_address_faster_page vmi_faster_found_example p = some found ∧
          rd = some found ∧
          find_kdbg_address_faster vmi_faster_found_example 10 0 kdbg_addresses_zero =
            some (VMI_SUCCESS, found)) ∨
       (rd = none ∧
        (∀ p ∈ down, find_kdbg_address_faster_page vmi_faster_found_example p = none) ∧
        ¬ (to_u64 (0x2000 - 4096 * down.length + 18446744073709547520) <
            vmi_faster_found_example.size) ∧
        ∃ up ru,
          find_kdbg_address_faster_pages vmi_faster_found_example (VMI_PS_4KB : Int) 10 0x2000 =
            some (up, ru) ∧
          (∀ i p, up[i]? = some p →
            p = to_u64 (0x2000 + 4096 * i) ∧
            to_u64 (p + 4096) < vmi_faster_found_example.size) ∧
          (∀ i p, up[i]? = some p → i + 1 < up.length →
            find_kdbg_address_faster_page vmi_faster_found_example p = none) ∧
          ((∃ p found, up.getLast? = some p ∧
              find_kdbg_address_faster_page vmi_faster_found_example p = some found ∧
              ru = some found ∧
              find_kdbg_address_faster vmi_faster_found_example 10 0 kdbg_addresses_zero =
                some (VMI_SUCCESS, found)) ∨
           (ru = none ∧
            (∀ p ∈ up, find_kdbg_address_faster_page vmi_faster_found_example p = none) ∧
            ¬ (to_u64 (to_u64 (0x2000 + 4096 * up.length) + 4096) <
                vmi_faster_found_example.size) ∧
            find_kdbg_address_faster vmi_faster_found_example 10 0 kdbg_addresses_zero =
              some (VMI_FAILURE, kdbg_addresses_zero)))))) ∧
    (∀ (fuel2 fsgs_init2 : Nat) (out2 : kdbg_addresses), 9007199254740995 ≤ fuel2 →
      ∃ r, find_kdbg_address_faster vmi_faster_found_example fuel2 fsgs_init2 out2 = some r)) :=
  ⟨by decide, by decide, by decide, by decide,
    find_kdbg_address_faster_terminates_in_order vmi_faster_found_example 10 0
      kdbg_addresses_zero 0x187000 0x187000 0x2000
      (by decide) (by decide) (by decide) (by decide) (by decide) (by decide)⟩

set_option maxRecDepth 100000 in
/-- C34, evaluation: bounds of the faster scan. With 12 KiB of memory
(`vmi->size = 0x3000`) and a KPCR that translates to the page `0x3000`, the
downward pass of `find_kdbg_address_faster` examines the pages `0x3000`,
`0x2000`, `0x1000`: the first one is not below `vmi->size`, because the loop
condition tests `page_paddr + step`, the next page, and not `page_paddr`.  In
the upward pass from the page `2^64 - 4096` the sum wraps around to 0 and that
page is examined as well. -/
theorem find_kdbg_address_faster_examines_page_outside_memory :
    vmi_faster_example.size = 0x3000 ∧
    to_u64 ((vmi_faster_example.vmi_pagetable_lookup 0x187000 0x187000 >>> 12) <<< 12) =
      0x3000 ∧
    (find_kdbg_address_faster_pages vmi_faster_example (-(VMI_PS_4KB : Int)) 10 0x3000).map
      Prod.fst = some [0x3000, 0x2000, 0x1000] ∧
    ¬ (0x3000 < vmi_faster_example.size) ∧
    (find_kdbg_address_faster vmi_faster_example 10 0 kdbg_addresses_zero).map Prod.fst =
      some VMI_FAILURE ∧
    (find_kdbg_address_faster_pages vmi_faster_example (VMI_PS_4KB : Int) 10
      18446744073709547520).map Prod.fst = some [18446744073709547520, 0, 0x1000] ∧
    ¬ (18446744073709547520 < vmi_faster_example.size) := by
  decide

/-! ## `core.c` and `symbols.c`: image names, custom init, symbol-map values -/

theorem strrchr_none (ch : Char) : ∀ s : List Char, ch ∉ s → strrchr s ch = none := by
  intro s
  induction s with
  | nil => intro _; rfl
  | cons c r ih =>
    intro h
    have hc : ¬ c = ch := fun e => h (by rw [e]; exact List.mem_cons_self _ _)
    have hr : ch ∉ r := fun e => h (List.mem_cons_of_mem _ e)
    unfold strrchr
    rw [ih hr]
    dsimp only
    rw [if_neg hc]

theorem strrchr_last (ch : Char) (rest : List Char) (hrest : ch ∉ rest) :
    ∀ pre : List Char, strrchr (pre ++ ch :: rest) ch = some (ch :: rest) := by
  intro pre
  induction pre with
  | nil =>
    show strrchr (ch :: rest) ch = some (ch :: rest)
    unfold strrchr
    rw [strrchr_none ch rest hrest]
    dsimp only
    rw [if_pos rfl]
  | cons c r ih =>
    show strrchr (c :: (r ++ ch :: rest)) ch = some (ch :: rest)
    unfold strrchr
    rw [ih]

theorem last_occurrence (ch : Char) :
    ∀ s : List Char, ch ∈ s → ∃ pre rest, s = pre ++ ch :: rest ∧ ch ∉ rest := by
  intro s
  induction s with
  | nil => intro h; simp at h
  | cons c r ih =>
    intro h
    by_cases hr : ch ∈ r
    · obtain ⟨pre, rest, e, hn⟩ := ih hr
      exact ⟨c :: pre, rest, by rw [e]; rfl, hn⟩
    · have hc : ch = c := by
        rcases List.mem_cons.1 h with e | e
        · exact e
        · exact absurd e hr
      exact ⟨[], r, by rw [hc]; rfl, hr⟩

/-- C38: image name of a file back-end. `set_image_type_for_file` sets
`image_type_complete` to the first 500 characters of `name`, and `image_type`
to the first 500 characters of the part of `name` after its last `/` (of the
whole name when it holds no `/`; the empty string when it ends in `/`).  For
a name of at most 500 characters nothing is cut: `image_type_complete` is
`name` and `image_type` is the part after the last `/`.  In every case
`image_type` holds no `/`. -/
theorem set_image_type_for_file_result (vmi : vmi_instance) (name : String) :
    (set_image_type_for_file vmi name).image_type_complete =
      some (String.mk (name.data.take 500)) ∧
    (∀ pre rest : List Char, name.data = pre ++ '/' :: rest → '/' ∉ rest →
      (set_image_type_for_file vmi name).image_type = some (String.mk (rest.take 500))) ∧
    ('/' ∉ name.data →
      (set_image_type_for_file vmi name).image_type =
        some (String.mk (name.data.take 500))) ∧
    (name.length ≤ 500 →
      (set_image_type_for_file vmi name).image_type_complete = some name ∧
      (∀ pre rest : List Char, name.data = pre ++ '/' :: rest → '/' ∉ rest →
        (set_image_type_for_file vmi name).image_type = some (String.mk rest)) ∧
      ('/' ∉ name.data → (set_image_type_for_file vmi name).image_type = some name)) ∧
    (∃ s : String, (set_image_type_for_file vmi name).image_type = some s ∧ '/' ∉ s.data) := by
  have h2 : ∀ pre rest : List Char, name.data = pre ++ '/' :: rest → '/' ∉ rest →
      (set_image_type_for_file vmi name).image_type = some (String.mk (rest.take 500)) := by
    intro pre rest e hn
    unfold set_image_type_for_file
    rw [e, strrchr_last '/' rest hn pre]
    rfl
  have h3 : '/' ∉ name.data →
      (set_image_type_for_file vmi name).image_type =
        some (String.mk (name.data.take 500)) := by
    intro hn
    unfold set_image_type_for_file
    rw [strrchr_none '/' name.data hn]
    rfl
  refine ⟨rfl, h2, h3, ?_, ?_⟩
  · intro hlen
    have hl : name.data.length ≤ 500 := hlen
    refine ⟨?_, ?_, ?_⟩
    · show some (String.mk (name.data.take 500)) = some name
      rw [List.take_of_length_le hl]
    · intro pre rest e hn
      rw [h2 pre rest e hn]
      have : rest.length ≤ 500 := by
        have := congrArg List.length e
        simp at this
        omega
      rw [List.take_of_length_le this]
    · intro hn
      rw [h3 hn, List.take_of_length_le hl]
  · by_cases hs : '/' ∈ name.data
    · obtain ⟨pre, rest, e, hn⟩ := last_occurrence '/' name.data hs
      exact ⟨_, h2 pre rest e hn, fun hm => hn (List.mem_of_mem_take hm)⟩
    · exact ⟨_, h3 hs, fun hm => hs (List.mem_of_mem_take hm)⟩

set_option maxRecDepth 100000 in
theorem set_image_type_for_file_result_witness :
    ("/tmp/win7.dd" : String).length ≤ 500 ∧
    ("/tmp/win7.dd" : String).data = "/tmp".data ++ '/' :: "win7.dd".data ∧
    (set_image_type_for_file vmi_instance_zero "/tmp/win7.dd").image_type = some "win7.dd" ∧
    (set_image_type_for_file vmi_instance_zero "/tmp/win7.dd").image_type_complete =
      some "/tmp/win7.dd" ∧
    (set_image_type_for_file vmi_instance_zero "/tmp/").image_type = some "" :=
  ⟨by decide, by decide,
    ((set_image_type_for_file_result vmi_instance_zero "/tmp/win7.dd").2.2.2.1
      (by decide)).2.1 "/tmp".data "win7.dd".data (by decide) (by decide),
    ((set_image_type_for_file_result vmi_instance_zero "/tmp/win7.dd").2.2.2.1
      (by decide)).1,
    (set_image_type_for_file_result vmi_instance_zero "/tmp/").2.1 "/tmp".data [] (by decide)
      (by decide)⟩

theorem two_pow_ne_or_two_pow (x k a : Nat) (h : a ≠ k) : 2 ^ k ≠ x ||| 2 ^ a := by
  intro e
  have h1 : (x ||| 2 ^ a).testBit a = true := by
    rw [Nat.testBit_or, Nat.testBit_two_pow_self]; simp
  have h2 : (2 ^ k).testBit a = false := by
    rw [Nat.testBit_two_pow]; simp; omega
  rw [← e, h2] at h1
  exact absurd h1 (by simp)

/-- C39: custom init with a `NULL` config always fails. When the four
config-source flags are distinct single bits, `vmi_init_custom` called with
`config == NULL` returns `VMI_FAILURE` for every `flags`, calls neither
`vmi_init` nor `vmi_init_private`, and leaves `*vmi` as it was. -/
theorem vmi_init_custom_null_config (c : vmi_flags) (env : core_env) (old : vmi_instance)
    (flags : Nat)
    (hbits : ∃ a b s g : Nat, c.VMI_CONFIG_NONE = 2 ^ a ∧
      c.VMI_CONFIG_GLOBAL_FILE_ENTRY = 2 ^ b ∧ c.VMI_CONFIG_STRING = 2 ^ s ∧
      c.VMI_CONFIG_GHASHTABLE = 2 ^ g ∧
      a ≠ b ∧ a ≠ s ∧ a ≠ g ∧ b ≠ s ∧ b ≠ g ∧ s ≠ g) :
    vmi_init_custom c env old flags none =
      some { ret := VMI_FAILURE, vmi := old, calls := [] } := by
  obtain ⟨a, b, s, g, ha, hb, hs, hg, hab, has, hag, _, _, _⟩ := hbits
  unfold vmi_init_custom
  dsimp only
  rw [ha, hb, hs, hg,
    if_neg (two_pow_ne_or_two_pow _ b a hab),
    if_neg (two_pow_ne_or_two_pow _ s a has),
    if_neg (two_pow_ne_or_two_pow _ g a hag)]

theorem vmi_init_custom_null_config_witness :
    (∃ a b s g : Nat, vmi_flags_example.VMI_CONFIG_NONE = 2 ^ a ∧
      vmi_flags_example.VMI_CONFIG_GLOBAL_FILE_ENTRY = 2 ^ b ∧
      vmi_flags_example.VMI_CONFIG_STRING = 2 ^ s ∧
      vmi_flags_example.VMI_CONFIG_GHASHTABLE = 2 ^ g ∧
      a ≠ b ∧ a ≠ s ∧ a ≠ g ∧ b ≠ s ∧ b ≠ g ∧ s ≠ g) ∧
    vmi_init_custom vmi_flags_example core_env_example vmi_instance_zero 0x02020008 none =
      some { ret := VMI_FAILURE, vmi := vmi_instance_zero, calls := [] } :=
  ⟨⟨24, 25, 26, 27, by decide⟩,
    vmi_init_custom_null_config vmi_flags_example core_env_example vmi_instance_zero
      0x02020008 ⟨24, 25, 26, 27, by decide⟩⟩

theorem get_symbol_row_loop_success_token (search : List Nat) (position fuel : Nat) :
    ∀ (heap : Nat → Nat) (row : Nat) (file : List Nat) (r : symbol_row_result),
      get_symbol_row_loop search position fuel heap row file = some r →
      r.ret = VMI_SUCCESS →
      ∃ token,
        strncmp_chars (read_c_string r.heap token search.length) (search.map Char.ofNat)
          search.length = 0 ∧
        r.row = some (if r.heap (token + search.length + 1) = 91
          then token + search.length + 1 + 1 else token + search.length + 1) := by
  induction fuel with
  | zero => intro heap row file r h; simp [get_symbol_row_loop] at h
  | succ fuel ih =>
    intro heap row file r h hf
    unfold get_symbol_row_loop at h
    split at h
    · simp only [Option.some.injEq] at h
      rw [← h] at hf
      simp [get_symbol_row_error_exit] at hf
    · split at h
      · simp at h
      · split at h
        · dsimp only at h
          split at h
          · rename_i hmatch
            simp only [Option.some.injEq] at h
            rw [← h]
            exact ⟨_, hmatch, rfl⟩
          · exact ih _ _ _ r h hf
        · simp only [Option.some.injEq] at h
          rw [← h] at hf
          simp [get_symbol_row_error_exit] at hf

theorem get_symbol_row_success_token (fuel : Nat) (heap : Nat → Nat) (file : List Nat)
    (row : Nat) (symbol : String) (position : Nat) (r : symbol_row_result)
    (h : get_symbol_row fuel heap file row symbol position = some r)
    (hf : r.ret = VMI_SUCCESS) :
    ∃ token,
      strncmp_chars (read_c_string r.heap token (symbol_search symbol).length)
        ((symbol_search symbol).map Char.ofNat) (symbol_search symbol).length = 0 ∧
      r.row = some (if r.heap (token + (symbol_search symbol).length + 1) = 91
        then token + (symbol_search symbol).length + 1 + 1
        else token + (symbol_search symbol).length + 1) := by
  unfold get_symbol_row at h
  split at h
  · simp only [Option.some.injEq] at h
    rw [← h] at hf
    simp at hf
  · exact get_symbol_row_loop_success_token _ _ _ _ _ _ r h hf

theorem sysmap_after_row_success (sv : status_values) (address value : Nat)
    (r : symbol_row_result) (next : symbol_row_result → Nat → Option sysmap_outcome)
    (hne : sv.VMI_SUCCESS_value ≠ sv.VMI_FAILURE_value)
    (h : sysmap_after_row sv address r next =
      some (sysmap_outcome.returned (status_t.value sv VMI_SUCCESS) value)) :
    r.ret = VMI_SUCCESS ∧ ∃ row, r.row = some row ∧
      next r row = some (sysmap_outcome.returned (status_t.value sv VMI_SUCCESS) value) := by
  unfold sysmap_after_row at h
  split at h
  · simp at h
  · split at h
    · simp only [Option.some.injEq, sysmap_outcome.returned.injEq] at h
      exact absurd h.1.symm hne
    · simp at h
    · rename_i hret hrow
      exact ⟨hret, _, hrow, h⟩

/-- C40: the symbol-map result ignores the kernel base. For a readable sysmap
file, two calls of `windows_system_map_symbol_to_address` that differ only in
`kernel_base_vaddr` have the same outcome (status and `*address`).  When the
call returns `VMI_SUCCESS`, the last `get_symbol_row` (for the symbol, or for
the subsymbol when one is given) succeeded at a token that matches
`"<name>":`, the pointer `row` is one character behind the end of that token,
one more when the character there is `[`, and `*address` is the result of
`strtoull(row, NULL, 10)`; no base is added. -/
theorem sysmap_result_ignores_kernel_base (sv : status_values)
    (fopen : String → Option String) (heap : Nat → Nat) (vmi : vmi_instance)
    (w : windows_instance) (path content symbol : String) (subsymbol : Option String)
    (kernel_base_vaddr kernel_base_vaddr2 address fuel : Nat)
    (hos : vmi.os_data = some w) (hmap : w.sysmap = some path) (hpath : path.length ≠ 0)
    (hfile : fopen path = some content)
    (hne : sv.VMI_SUCCESS_value ≠ sv.VMI_FAILURE_value) :
    windows_system_map_symbol_to_address sv fopen heap vmi symbol subsymbol
        kernel_base_vaddr address fuel =
      windows_system_map_symbol_to_address sv fopen heap vmi symbol subsymbol
        kernel_base_vaddr2 address fuel ∧
    (∀ value : Nat,
      windows_system_map_symbol_to_address sv fopen heap vmi symbol subsymbol
        kernel_base_vaddr address fuel =
        some (sysmap_outcome.returned (status_t.value sv VMI_SUCCESS) value) →
      ∃ (r1 : symbol_row_result) (row1 : Nat),
        get_symbol_row fuel heap (string_bytes content) 0 symbol 1 = some r1 ∧
        r1.ret = VMI_SUCCESS ∧ r1.row = some row1 ∧
        ((subsymbol = none ∧
            (∃ token,
              strncmp_chars (read_c_string r1.heap token (symbol_search symbol).length)
                ((symbol_search symbol).map Char.ofNat) (symbol_search symbol).length = 0 ∧
              row1 = (if r1.heap (token + (symbol_search symbol).length + 1) = 91
                then token + (symbol_search symbol).length + 1 + 1
                else token + (symbol_search symbol).length + 1)) ∧
            strtoull r1.heap fuel row1 = some value) ∨
         (∃ (sub : String) (r2 : symbol_row_result) (row2 : Nat),
            subsymbol = some sub ∧
            get_symbol_row fuel r1.heap r1.file row1 sub 1 = some r2 ∧
            r2.ret = VMI_SUCCESS ∧ r2.row = some row2 ∧
            (∃ token,
              strncmp_chars (read_c_string r2.heap token (symbol_search sub).length)
                ((symbol_search sub).map Char.ofNat) (symbol_search sub).length = 0 ∧
              row2 = (if r2.heap (token + (symbol_search sub).length + 1) = 91
                then token + (symbol_search sub).length + 1 + 1
                else token + (symbol_search sub).length + 1)) ∧
            strtoull r2.heap fuel row2 = some value))) := by
  refine ⟨rfl, ?_⟩
  intro value h
  unfold windows_system_map_symbol_to_address at h
  rw [hos] at h
  dsimp only at h
  rw [hmap] at h
  dsimp only at h
  rw [if_neg hpath, hfile] at h
  dsimp only at h
  cases hr1 : get_symbol_row fuel heap (string_bytes content) 0 symbol 1 with
  | none => rw [hr1] at h; simp at h
  | some r1 =>
    rw [hr1] at h
    dsimp only at h
    obtain ⟨hret1, row1, hrow1, hnext⟩ := sysmap_after_row_success sv address value r1 _ hne h
    refine ⟨r1, row1, rfl, hret1, hrow1, ?_⟩
    obtain ⟨token1, hm1, hrw1⟩ := get_symbol_row_success_token _ _ _ _ _ _ r1 hr1 hret1
    cases subsymbol with
    | none =>
      left
      dsimp only at hnext
      refine ⟨rfl, ⟨token1, hm1, ?_⟩, ?_⟩
      · rw [hrow1] at hrw1
        exact Option.some.inj hrw1
      · cases hst : strtoull r1.heap fuel row1 with
        | none => rw [hst] at hnext; simp at hnext
        | some v =>
          rw [hst] at hnext
          simp only [Option.map, Option.some.injEq, sysmap_outcome.returned.injEq,
            true_and] at hnext
          rw [hnext]
    | some sub =>
      right
      dsimp only at hnext
      cases hr2 : get_symbol_row fuel r1.heap r1.file row1 sub 1 with
      | none => rw [hr2] at hnext; simp at hnext
      | some r2 =>
        rw [hr2] at hnext
        dsimp only at hnext
        obtain ⟨hret2, row2, hrow2, hnext2⟩ :=
          sysmap_after_row_success sv address value r2 _ hne hnext
        obtain ⟨token2, hm2, hrw2⟩ := get_symbol_row_success_token _ _ _ _ _ _ r2 hr2 hret2
        refine ⟨sub, r2, row2, rfl, hr2, hret2, hrow2, ⟨token2, hm2, ?_⟩, ?_⟩
        · rw [hrow2] at hrw2
          exact Option.some.inj hrw2
        · cases hst : strtoull r2.heap fuel row2 with
          | none => rw [hst] at hnext2; simp at hnext2
          | some v =>
            rw [hst] at hnext2
            simp only [Option.map, Option.some.injEq, sysmap_outcome.returned.injEq,
              true_and] at hnext2
            rw [hnext2]

set_option maxRecDepth 1000000 in
theorem sysmap_result_ignores_kernel_base_witness :
    vmi_sysmap_example.os_data =
      some { windows_instance_zero with sysmap := some "/boot/win7.sysmap" } ∧
    sysmap_fopen_example "/boot/win7.sysmap" = some sysmap_content_example ∧
    windows_system_map_symbol_to_address status_values_example sysmap_fopen_example
        (fun _ => 0) vmi_sysmap_example "KernBaseX" none 0 0x1234 1000 =
      windows_system_map_symbol_to_address status_values_example sysmap_fopen_example
        (fun _ => 0) vmi_sysmap_example "KernBaseX" none 0xFFFFF80000000000 0x1234 1000 ∧
    windows_system_map_symbol_to_address status_values_example sysmap_fopen_example
        (fun _ => 0) vmi_sysmap_example "KernBaseX" none 0xFFFFF80000000000 0x1234 1000 =
      some (sysmap_outcome.returned 0 5) :=
  ⟨rfl, by decide,
    (sysmap_result_ignores_kernel_base status_values_example sysmap_fopen_example (fun _ => 0)
      vmi_sysmap_example { windows_instance_zero with sysmap := some "/boot/win7.sysmap" }
      "/boot/win7.sysmap" sysmap_content_example "KernBaseX" none 0 0xFFFFF80000000000
      0x1234 1000 rfl rfl (by decide) (by decide) (by decide)).1,
    by decide⟩

end LibVMI
